import Mathlib

/-!
# Int8 scale derivation and reorder caching in the oneDNN convolution kernels

A shallow embedding of

* `paddle/fluid/framework/ir/mkldnn/conv_int8_scales_pass.cc`
  (`ConvInt8ScalesPass::ApplyImpl` and the `handler` lambda it declares), and
* `paddle/fluid/operators/mkldnn/conv_transpose_mkldnn_op.cc`
  (`ConvTransposeMKLDNNHandlerT` and `ConvTransposeMKLDNNOpKernel`),

followed by theorems about the embedded functions.

Conventions of the embedding:

* `float` and `double` are the IEEE-754 binary32 and binary64 formats with
  round-to-nearest-even; all NaNs are identified.
* `int` and `int64_t` are integers reduced to 32 and 64 bits in two's complement.
* An exception thrown by the source and an element access outside a vector
  are both rendered as an `Except.error`.
* Attribute dictionaries are records of optional, typed attributes.
-/

set_option maxRecDepth 100000

namespace Paddle

/-! ## IEEE-754 arithmetic -/

/-- Parameters of an IEEE-754 binary format: finite values are `m * 2^e`
with `m < 2^prec` and `emin ≤ e ≤ emax`. -/
structure FloatFormat where
  prec : Nat
  emin : Int
  emax : Int

/-- The format of the C++ type `float`. -/
def binary32 : FloatFormat := ⟨24, -149, 104⟩

/-- The format of the C++ type `double`. -/
def binary64 : FloatFormat := ⟨53, -1074, 971⟩

/-- An IEEE-754 datum: NaN, a signed infinity, or the signed finite value `m * 2^e`. -/
inductive IEEE where
  | nan : IEEE
  | inf (neg : Bool) : IEEE
  | fin (neg : Bool) (m : Nat) (e : Int) : IEEE
deriving DecidableEq, Repr

/-- Number of binary digits of `n`, by recursion on `fuel`. -/
def bitLength : Nat → Nat → Nat
  | 0, _ => 0
  | fuel + 1, n => if n = 0 then 0 else bitLength fuel (n / 2) + 1

/-- Quotient `num / den` rounded to the nearest integer, ties to even. -/
def divRoundEven (num den : Nat) : Nat :=
  let q := num / den
  let r := num % den
  if 2 * r < den then q else if den < 2 * r then q + 1 else if q % 2 = 0 then q else q + 1

/-- Round the non-negative rational `n / d`, carrying the sign `neg`, to the
format: to nearest, ties to even, with gradual underflow and overflow to infinity. -/
def roundQuot (fmt : FloatFormat) (neg : Bool) (n d : Nat) : IEEE :=
  if n = 0 then IEEE.fin neg 0 fmt.emin
  else
    let e0 : Int := (bitLength n n : Int) - (bitLength d d : Int) - fmt.prec
    let e1 : Int := if n * 2 ^ (-e0).toNat / (d * 2 ^ e0.toNat) < 2 ^ fmt.prec then e0 else e0 + 1
    let e : Int := max e1 fmt.emin
    let m := divRoundEven (n * 2 ^ (-e).toNat) (d * 2 ^ e.toNat)
    let m2 := if m = 2 ^ fmt.prec then 2 ^ (fmt.prec - 1) else m
    let e2 := if m = 2 ^ fmt.prec then e + 1 else e
    if fmt.emax < e2 then IEEE.inf neg else IEEE.fin neg m2 e2

/-- Conversion of a datum to a format: exact when representable, rounded otherwise. -/
def IEEE.convert (fmt : FloatFormat) : IEEE → IEEE
  | IEEE.nan => IEEE.nan
  | IEEE.inf s => IEEE.inf s
  | IEEE.fin s m e => roundQuot fmt s (m * 2 ^ e.toNat) (2 ^ (-e).toNat)

/-- IEEE multiplication, rounded to the format. -/
def IEEE.mul (fmt : FloatFormat) : IEEE → IEEE → IEEE
  | IEEE.nan, _ => IEEE.nan
  | _, IEEE.nan => IEEE.nan
  | IEEE.inf s, IEEE.inf t => IEEE.inf (xor s t)
  | IEEE.inf s, IEEE.fin t m _ => if m = 0 then IEEE.nan else IEEE.inf (xor s t)
  | IEEE.fin s m _, IEEE.inf t => if m = 0 then IEEE.nan else IEEE.inf (xor s t)
  | IEEE.fin s m e, IEEE.fin t n f =>
      roundQuot fmt (xor s t) (m * n * 2 ^ (e + f).toNat) (2 ^ (-(e + f)).toNat)

/-- IEEE division, rounded to the format. -/
def IEEE.div (fmt : FloatFormat) : IEEE → IEEE → IEEE
  | IEEE.nan, _ => IEEE.nan
  | _, IEEE.nan => IEEE.nan
  | IEEE.inf _, IEEE.inf _ => IEEE.nan
  | IEEE.inf s, IEEE.fin t _ _ => IEEE.inf (xor s t)
  | IEEE.fin s _ _, IEEE.inf t => IEEE.fin (xor s t) 0 fmt.emin
  | IEEE.fin s m e, IEEE.fin t n f =>
      if n = 0 then (if m = 0 then IEEE.nan else IEEE.inf (xor s t))
      else roundQuot fmt (xor s t) (m * 2 ^ (e - f).toNat) (n * 2 ^ (f - e).toNat)

/-- IEEE comparison `==`: NaN equals nothing, the two zeros are equal. -/
def IEEE.eq : IEEE → IEEE → Bool
  | IEEE.nan, _ => false
  | _, IEEE.nan => false
  | IEEE.inf s, IEEE.inf t => s == t
  | IEEE.fin s m e, IEEE.fin t n f => (m == 0 && n == 0) || (s == t && m == n && e == f)
  | _, _ => false

/-- The C++ type `float`. -/
structure F32 where
  val : IEEE
deriving DecidableEq, Repr

/-- The C++ type `double`. -/
structure F64 where
  val : IEEE
deriving DecidableEq, Repr

/-- The literal `0.0f`. -/
def F32.zero : F32 := ⟨IEEE.fin false 0 (-149)⟩

/-- The literal `1.0f`. -/
def F32.one : F32 := ⟨IEEE.fin false 8388608 (-23)⟩

/-- The `float` nearest to the positive rational `n / d`, as a decimal literal denotes it. -/
def F32.ofRatio (n d : Nat) : F32 := ⟨roundQuot binary32 false n d⟩

/-- The literal `0.0`. -/
def F64.zero : F64 := ⟨IEEE.fin false 0 (-1074)⟩

/-- Widening `static_cast<double>(x)`. -/
def F32.toDouble (x : F32) : F64 := ⟨x.val.convert binary64⟩

/-- Narrowing `static_cast<float>(x)`. -/
def F64.toFloat (x : F64) : F32 := ⟨x.val.convert binary32⟩

/-- Single-precision `x * y`. -/
def F32.mul (x y : F32) : F32 := ⟨IEEE.mul binary32 x.val y.val⟩

/-- Single-precision `x / y`. -/
def F32.div (x y : F32) : F32 := ⟨IEEE.div binary32 x.val y.val⟩

/-- Double-precision `x * y`. -/
def F64.mul (x y : F64) : F64 := ⟨IEEE.mul binary64 x.val y.val⟩

/-- Double-precision `x / y`. -/
def F64.div (x y : F64) : F64 := ⟨IEEE.div binary64 x.val y.val⟩

/-- Double-precision `x == y`. -/
def F64.eq (x y : F64) : Bool := IEEE.eq x.val y.val

/-! ## Machine integers, errors, vectors -/

/-- Conversion of an integer to `int` (32 bits, two's complement). -/
def toInt32 (x : Int) : Int := (x + 2147483648) % 4294967296 - 2147483648

/-- Conversion of an integer to `int64_t` (64 bits, two's complement). -/
def toInt64 (x : Int) : Int :=
  (x + 9223372036854775808) % 18446744073709551616 - 9223372036854775808

/-- Ways in which the embedded code stops without a result. The first four are
the `platform::errors` classes raised by `PADDLE_ENFORCE_*`; `AttributeNotFound`
is `ctx.Attr<T>(name)` on an attribute that is not set; `LengthError` is
`std::vector<float>(count)` with a negative `count`; `OutOfBounds` is an element
access `v[i]` with `i` outside the vector; `NullPointer` is a member access
through a null `shared_ptr`; `BadCast` is a member access through a pointer that
`static_pointer_cast` gave a type other than the one of the stored object;
`External` is a failure reported by a collaborator outside the two files. -/
inductive Error where
  | InvalidArgument
  | Unimplemented
  | NotFound
  | PreconditionNotMet
  | AttributeNotFound
  | LengthError
  | OutOfBounds
  | NullPointer
  | BadCast
  | External
deriving DecidableEq, Repr

instance instDecidableEqExcept {ε α : Type} [DecidableEq ε] [DecidableEq α] :
    DecidableEq (Except ε α) := fun a b =>
  match a, b with
  | Except.ok x, Except.ok y =>
    if h : x = y then isTrue (by rw [h]) else isFalse (fun h2 => h (Except.ok.inj h2))
  | Except.error x, Except.error y =>
    if h : x = y then isTrue (by rw [h]) else isFalse (fun h2 => h (Except.error.inj h2))
  | Except.ok _, Except.error _ => isFalse (fun h => Except.noConfusion h)
  | Except.error _, Except.ok _ => isFalse (fun h => Except.noConfusion h)

/-- Element access `v[i]`. -/
def vecAt {α : Type} (v : List α) (i : Nat) : Except Error α :=
  match v[i]? with
  | some x => Except.ok x
  | none => Except.error Error.OutOfBounds

/-- The iterations `i, i+1, ..., i+n-1` of a loop `out[i] = body(i)`, collected in order. -/
def fillLoop {α : Type} (body : Nat → Except Error α) : Nat → Nat → Except Error (List α)
  | _, 0 => Except.ok []
  | i, n + 1 =>
    match body i with
    | Except.error e => Except.error e
    | Except.ok x =>
      match fillLoop body (i + 1) n with
      | Except.error e => Except.error e
      | Except.ok xs => Except.ok (x :: xs)

/-- The pattern `std::vector<float> out(count); for (int i = 0; i < count; i++) out[i] = body(i);`
where `count` is an `int`. The iterations are independent of each other, so the
`omp parallel for` of the source computes the same vector. -/
def vectorOfCount {α : Type} (count : Int) (body : Nat → Except Error α) :
    Except Error (List α) :=
  if count < 0 then Except.error Error.LengthError else fillLoop body 0 count.toNat

/-! ## Attributes, operators, tensors -/

/-- The attributes of a convolution operator that the two files read or write.
An attribute that is not set is `none`. -/
structure AttributeMap where
  is_test : Option Bool := none
  groups : Option Int := none
  strides : Option (List Int) := none
  paddings : Option (List Int) := none
  dilations : Option (List Int) := none
  padding_algorithm : Option String := none
  mkldnn_data_type : Option String := none
  fuse_activation : Option String := none
  force_fp32_output : Option Bool := none
  fuse_residual_connection : Option Bool := none
  Scale_in : Option F32 := none
  Scale_in_eltwise : Option F32 := none
  Scale_out : Option F32 := none
  Scale_weights : Option (List F32) := none
  Bias_scales : Option (List F32) := none
  Sum_scale : Option F32 := none
  Activation_scale : Option F32 := none
  Output_shift_scale : Option (List F32) := none
deriving DecidableEq, Repr

/-- Graph-level operator description: its attributes and, for each input slot
name, the variables bound to it. -/
structure OpDesc where
  attrs : AttributeMap
  inputs : List (String × List String)
deriving DecidableEq, Repr

/-- Modelled from the spec: `OpDesc::InputNames()`, which is not among the
sources, lists the names of the input slots of the operator configuration. -/
def OpDesc.InputNames (op : OpDesc) : List String := op.inputs.map Prod.fst

/-- Modelled from the spec: `OpDesc::Input(name)`, which is not among the sources,
gives the variables bound to the input slot and throws when the slot is unknown. -/
def OpDesc.Input (op : OpDesc) (name : String) : Except Error (List String) :=
  match op.inputs.lookup name with
  | some vars => Except.ok vars
  | none => Except.error Error.NotFound

/-- Graph-level variable description; only the shape is used. -/
structure VarDesc where
  shape : List Int
deriving DecidableEq, Repr

/-- Memory layout tag of a tensor (`framework::DataLayout`). -/
inductive DataLayout where
  | kNHWC
  | kNCHW
  | kMKLDNN
deriving DecidableEq, Repr

/-- Element types of oneDNN memory (`dnnl::memory::data_type`). -/
inductive DataType where
  | f32
  | bf16
  | s8
  | u8
  | s32
deriving DecidableEq, Repr

/-- Run-time tensor: its dimensions, layout tag, element type and the address of its buffer. -/
structure Tensor where
  dims : List Int
  layout : DataLayout
  dtype : DataType
  data : Nat
deriving DecidableEq, Repr

/-- What a kernel sees of its operator: the attributes, the bound tensors and
the names of the variables bound to the input slots. -/
structure ExecutionContext where
  attrs : AttributeMap
  Input : Tensor
  Filter : Tensor
  Bias : Option Tensor
  Output : Tensor
  InputName_Input : String
  InputName_Filter : String
  InputName_Bias : String
deriving DecidableEq, Repr

/-- Modelled from the spec: `ctx.HasAttr(name)`, which is not among the sources,
tells whether the attribute store of section 6 holds the attribute. -/
def HasAttr {α : Type} (a : Option α) : Bool := a.isSome

/-- Modelled from the spec: `ctx.Attr<T>(name)`, which is not among the sources,
reads an attribute of the store of section 6 and throws when it is not set. -/
def Attr {α : Type} (a : Option α) : Except Error α :=
  match a with
  | some v => Except.ok v
  | none => Except.error Error.AttributeNotFound

/-- The pattern `ctx.HasAttr(name) ? ctx.Attr<T>(name) : dflt`. -/
def AttrOr {α : Type} (a : Option α) (dflt : α) : α :=
  if HasAttr a then
    match a with
    | some v => v
    | none => dflt
  else dflt

/-- Modelled from the spec: `OpDesc::GetAttrIfExists<T>(name)`, which is not among
the sources, is the optional lookup `get_attr_if_exists` of section 6. The
handler uses its result as a `T`, so an attribute that is not set yields the
value-initialised `T`, passed here as `dflt`: `0`, `0.0f`, `false`, the empty
string or the empty vector. -/
def GetAttrIfExists {α : Type} (a : Option α) (dflt : α) : α :=
  match a with
  | some v => v
  | none => dflt

/-- `std::string::empty()`. -/
def empty (s : String) : Bool := decide (s = "")

/-! ## The graph pass `conv_int8_scales_pass.cc` -/

namespace ConvInt8ScalesPass

/-- Lines 43-44: `groups = std::max(GetAttrIfExists<int>("groups"), 1)`. -/
def groups (conv_op : OpDesc) : Int := max (GetAttrIfExists conv_op.attrs.groups 0) 1

/-- Lines 46-47: `scale_weights_data`. -/
def scale_weights_data (conv_op : OpDesc) : List F32 :=
  GetAttrIfExists conv_op.attrs.Scale_weights []

/-- Lines 48-49: `scale_in_data`. -/
def scale_in_data (conv_op : OpDesc) : F32 := GetAttrIfExists conv_op.attrs.Scale_in F32.zero

/-- Line 51: `is_multi_channel`. -/
def is_multi_channel (conv_op : OpDesc) : Bool := decide ((scale_weights_data conv_op).length > 1)

/-- Line 52: `mask_reorder = is_multi_channel ? 1 << 0 : 1`. -/
def mask_reorder (conv_op : OpDesc) : Int :=
  if is_multi_channel conv_op then ((1 <<< 0 : Nat) : Int) else 1

/-- Lines 54-60: `int count = 1; if (is_multi_channel) { count *= weights_tz[0];
if (groups > 1) count *= weights_tz[1]; }`, each product taken in `int64_t`
and stored back into the `int`. -/
def count (conv_op : OpDesc) (conv_filter : VarDesc) : Except Error Int :=
  let weights_tz := conv_filter.shape
  if is_multi_channel conv_op then
    match vecAt weights_tz 0 with
    | Except.error e => Except.error e
    | Except.ok w0 =>
      let count := toInt32 (toInt64 (1 * w0))
      if groups conv_op > 1 then
        match vecAt weights_tz 1 with
        | Except.error e => Except.error e
        | Except.ok w1 => Except.ok (toInt32 (toInt64 (count * w1)))
      else Except.ok count
  else Except.ok 1

/-- Lines 39-41 and the condition of line 62: `has_bias && Input("Bias").size() > 0`. -/
def has_bias (conv_op : OpDesc) : Except Error Bool :=
  if conv_op.InputNames.contains "Bias" then
    match conv_op.Input "Bias" with
    | Except.error e => Except.error e
    | Except.ok vars => Except.ok (decide (vars.length > 0))
  else Except.ok false

/-- Lines 63-66: the vector `bias_scales`. -/
def bias_scales (conv_op : OpDesc) (count : Int) : Except Error (List F32) :=
  vectorOfCount count (fun i =>
    match vecAt (scale_weights_data conv_op) i with
    | Except.error e => Except.error e
    | Except.ok w => Except.ok (F32.mul (scale_in_data conv_op) w))

/-- Lines 70-71: `force_fp32_output`. -/
def force_fp32_output (conv_op : OpDesc) : Bool :=
  GetAttrIfExists conv_op.attrs.force_fp32_output false

/-- Lines 72-73: `fuse_residual_conn`. -/
def fuse_residual_conn (conv_op : OpDesc) : Bool :=
  GetAttrIfExists conv_op.attrs.fuse_residual_connection false

/-- Lines 74-75: `scale_in_eltwise_data`. -/
def scale_in_eltwise_data (conv_op : OpDesc) : F32 :=
  GetAttrIfExists conv_op.attrs.Scale_in_eltwise F32.zero

/-- Lines 76-77: `has_activation = GetAttrIfExists<std::string>("fuse_activation").empty()`. -/
def has_activation (conv_op : OpDesc) : Bool :=
  empty (GetAttrIfExists conv_op.attrs.fuse_activation "")

/-- Lines 78-83: `activation_scale`. -/
def activation_scale (conv_op : OpDesc) : F32 :=
  if force_fp32_output conv_op then F32.one
  else if has_activation conv_op then GetAttrIfExists conv_op.attrs.Scale_out F32.zero
  else F32.one

/-- Lines 84-89: `scale_out_data`. -/
def scale_out_data (conv_op : OpDesc) : F32 :=
  if force_fp32_output conv_op then F32.one
  else if has_activation conv_op then F32.one
  else GetAttrIfExists conv_op.attrs.Scale_out F32.zero

/-- Lines 90-91: `sum_scale`. -/
def sum_scale (conv_op : OpDesc) : F32 :=
  if fuse_residual_conn conv_op then F32.div (scale_out_data conv_op) (scale_in_eltwise_data conv_op)
  else F32.one

/-- Lines 93-106: the vector `output_shift_scale`. -/
def output_shift_scale (conv_op : OpDesc) (count : Int) : Except Error (List F32) :=
  vectorOfCount count (fun i =>
    match vecAt (scale_weights_data conv_op) i with
    | Except.error e => Except.error e
    | Except.ok w =>
      if F64.eq w.toDouble F64.zero then Except.ok (scale_out_data conv_op)
      else Except.ok (F64.toFloat (F64.div (scale_out_data conv_op).toDouble
              (F64.mul (scale_in_data conv_op).toDouble w.toDouble))))

/-- The lambda `handler` declared by `ApplyImpl` (lines 28-111), applied to a
matched subgraph: `IsCompat` is the verdict of the compatibility check on the
subgraph, `conv_op` and `conv_filter` are the matched operator and filter
variable. The result is the operator description after the `SetAttr` calls. -/
def handler (IsCompat : Bool) (conv_op : OpDesc) (conv_filter : VarDesc) : Except Error OpDesc :=
  if !IsCompat then Except.ok conv_op
  else
    match count conv_op conv_filter with
    | Except.error e => Except.error e
    | Except.ok count =>
      match has_bias conv_op with
      | Except.error e => Except.error e
      | Except.ok hb =>
        match (if hb then (bias_scales conv_op count).map some else Except.ok none) with
        | Except.error e => Except.error e
        | Except.ok bs =>
          match output_shift_scale conv_op count with
          | Except.error e => Except.error e
          | Except.ok osc =>
            Except.ok { conv_op with attrs := { conv_op.attrs with
              Bias_scales := (match bs with
                | some v => some v
                | none => conv_op.attrs.Bias_scales),
              Sum_scale := some (sum_scale conv_op),
              Output_shift_scale := some osc,
              Activation_scale := some (activation_scale conv_op) } }

end ConvInt8ScalesPass

/-! ### `ApplyImpl` -/

/-- A subgraph matched by `patterns::Conv`, reduced to the nodes the handler
uses: the convolution operator and its filter variable. -/
structure Subgraph where
  conv_op : OpDesc
  conv_filter : VarDesc
deriving DecidableEq, Repr

/-- The graph handed to the pass, as the list of its subgraphs that the
convolution pattern matches. -/
structure Graph where
  convs : List Subgraph
deriving DecidableEq, Repr

namespace ConvInt8ScalesPass

/-- `ConvInt8ScalesPass::ApplyImpl` (lines 21-112); `none` is the null graph
pointer and the result is the graph as the pass leaves it. The body checks the
pointer, builds the pattern detector and declares the lambda `handler`; it ends
at line 112 without running the detector on the graph, so the lambda is never
applied. -/
def ApplyImpl (IsCompat : Subgraph → Bool) (graph : Option Graph) : Except Error Graph :=
  match graph with
  | none => Except.error Error.InvalidArgument
  | some g =>
    let _handler : Subgraph → Except Error OpDesc :=
      fun subgraph => handler (IsCompat subgraph) subgraph.conv_op subgraph.conv_filter
    Except.ok g

end ConvInt8ScalesPass

/-! ## The kernel `conv_transpose_mkldnn_op.cc`: scale derivation -/

namespace ConvTransposeMKLDNNHandlerT

/-- The local variables of `get_int8_scales` after line 292. -/
structure Int8ScalesLocals where
  weights_tz : List Int
  force_fp32_output : Bool
  groups : Int
  scale_in_data : F32
  scale_weights_data : List F32
  is_multi_channel : Bool
  scale_out : F32
  has_activation : Bool
  activation_scale : F32
  scale_out_data : F32
  sum_scale : F32
deriving DecidableEq, Repr

/-- Lines 275-292 of `get_int8_scales`. -/
def get_int8_scales_locals (ctx : ExecutionContext) : Except Error Int8ScalesLocals :=
  let weights_tz := ctx.Filter.dims
  let force_fp32_output := AttrOr ctx.attrs.force_fp32_output false
  match Attr ctx.attrs.groups with
  | Except.error e => Except.error e
  | Except.ok g =>
    let groups := max g 1
    let scale_in_data := AttrOr ctx.attrs.Scale_in F32.one
    let scale_weights_data := AttrOr ctx.attrs.Scale_weights (List.replicate 1 F32.zero)
    let is_multi_channel := decide (scale_weights_data.length > 1)
    let scale_out := AttrOr ctx.attrs.Scale_out F32.one
    match Attr ctx.attrs.fuse_activation with
    | Except.error e => Except.error e
    | Except.ok fuse_activation =>
      let has_activation := !empty fuse_activation
      let activation_scale := if !force_fp32_output && has_activation then scale_out else F32.one
      let scale_out_data := if force_fp32_output || has_activation then F32.one else scale_out
      let sum_scale := F32.one
      Except.ok
        { weights_tz := weights_tz, force_fp32_output := force_fp32_output, groups := groups,
          scale_in_data := scale_in_data, scale_weights_data := scale_weights_data,
          is_multi_channel := is_multi_channel, scale_out := scale_out,
          has_activation := has_activation, activation_scale := activation_scale,
          scale_out_data := scale_out_data, sum_scale := sum_scale }

/-- Lines 293-296: `count`, the product taken in `int64_t` and stored into an `int`. -/
def get_int8_scales_count (l : Int8ScalesLocals) : Except Error Int :=
  if l.is_multi_channel then
    if l.groups > 1 then
      match vecAt l.weights_tz 1 with
      | Except.error e => Except.error e
      | Except.ok w1 =>
        match vecAt l.weights_tz 0 with
        | Except.error e => Except.error e
        | Except.ok w0 => Except.ok (toInt32 (toInt64 (w1 * w0)))
    else
      match vecAt l.weights_tz 0 with
      | Except.error e => Except.error e
      | Except.ok w0 => Except.ok (toInt32 w0)
  else Except.ok 1

/-- Lines 297-310: the vector `output_shift_scale`. -/
def get_int8_scales_loop (l : Int8ScalesLocals) (count : Int) : Except Error (List F32) :=
  vectorOfCount count (fun i =>
    match vecAt l.scale_weights_data i with
    | Except.error e => Except.error e
    | Except.ok w =>
      if F64.eq w.toDouble F64.zero then Except.ok l.scale_out_data
      else Except.ok (F64.toFloat (F64.div l.scale_out_data.toDouble
              (F64.mul l.scale_in_data.toDouble w.toDouble))))

/-- The member function `get_int8_scales` (lines 273-313): the tuple
`(sum_scale, output_shift_scale, activation_scale)`. -/
def get_int8_scales (ctx : ExecutionContext) : Except Error (F32 × List F32 × F32) :=
  match get_int8_scales_locals ctx with
  | Except.error e => Except.error e
  | Except.ok l =>
    match get_int8_scales_count l with
    | Except.error e => Except.error e
    | Except.ok count =>
      match get_int8_scales_loop l count with
      | Except.error e => Except.error e
      | Except.ok output_shift_scale => Except.ok (l.sum_scale, output_shift_scale, l.activation_scale)

end ConvTransposeMKLDNNHandlerT

/-! ## The kernel: memory descriptors, the blob store, the handler -/

/-- Memory format tags (`MKLDNNMemoryFormat`); `blocked` stands for the layouts
that the library chooses for a primitive. -/
inductive MKLDNNMemoryFormat where
  | any
  | x
  | iohw
  | giohw
  | blocked (tag : Nat)
deriving DecidableEq, Repr

/-- A memory descriptor (`dnnl::memory::desc`). -/
structure MemoryDesc where
  dims : List Int
  data_type : DataType
  format : MKLDNNMemoryFormat
deriving DecidableEq, Repr

/-- `platform::MKLDNNMemDesc(dims, data_type, format)`. -/
def MKLDNNMemDesc (dims : List Int) (data_type : DataType) (format : MKLDNNMemoryFormat) :
    MemoryDesc :=
  { dims := dims, data_type := data_type, format := format }

/-- A reorder primitive (`dnnl::reorder`): the descriptors it converts between
and the output scales `(mask, scales)` of its attribute, when one was set. -/
structure ReorderDesc where
  src : MemoryDesc
  dst : MemoryDesc
  output_scales : Option (Int × List F32)
deriving DecidableEq, Repr

/-- An object held through a `shared_ptr`: a `dnnl::memory` with its descriptor
and data handle (`none` for a buffer allocated by the engine), a `dnnl::reorder`,
or a tuple of bias scales. -/
inductive Blob where
  | memory (desc : MemoryDesc) (data_handle : Option Nat)
  | reorder (pd : ReorderDesc)
  | scales (mask : F32) (values : List F32)
deriving DecidableEq, Repr

/-- One call `reorder_p->execute(astream, {{DNNL_ARG_FROM, *src}, {DNNL_ARG_TO, *dst}})`
followed by `astream.wait()`: the addresses of the primitive and of the two
memories, and the source memory as it was at the call. -/
structure ReorderExecution where
  reorder_p : Nat
  src : Nat
  src_memory : Blob
  dst : Nat
deriving DecidableEq, Repr

/-- Modelled from the spec: the device context `platform::MKLDNNDeviceContext`,
whose `GetBlob` and `SetBlob` are not among the sources, is the keyed store of
section 4.2 without eviction. `blobs` maps a key to the address of the stored
object (an absent key is the null pointer), `heap` lists the objects created by
`std::make_shared` by address, and `executed` logs the reorder executions on
the stream. -/
structure MKLDNNDeviceContext where
  blobs : List (String × Nat)
  heap : List Blob
  executed : List ReorderExecution
deriving DecidableEq, Repr

namespace MKLDNNDeviceContext

/-- `dev_ctx.GetBlob(key)`. -/
def GetBlob (dev_ctx : MKLDNNDeviceContext) (key : String) : Option Nat :=
  dev_ctx.blobs.lookup key

/-- `dev_ctx.SetBlob(key, p)`. -/
def SetBlob (dev_ctx : MKLDNNDeviceContext) (key : String) (p : Nat) : MKLDNNDeviceContext :=
  { dev_ctx with blobs := (key, p) :: dev_ctx.blobs.filter (fun entry => entry.1 != key) }

/-- `std::make_shared<...>(...)`: the new object and its address. -/
def make_shared (dev_ctx : MKLDNNDeviceContext) (obj : Blob) : Nat × MKLDNNDeviceContext :=
  (dev_ctx.heap.length, { dev_ctx with heap := dev_ctx.heap ++ [obj] })

/-- `p->set_data_handle(ptr)` on a pointer taken for a `dnnl::memory`. -/
def set_data_handle (dev_ctx : MKLDNNDeviceContext) (p : Nat) (ptr : Nat) :
    Except Error MKLDNNDeviceContext :=
  match dev_ctx.heap[p]? with
  | some (Blob.memory desc _) =>
    Except.ok { dev_ctx with heap := dev_ctx.heap.set p (Blob.memory desc (some ptr)) }
  | _ => Except.error Error.BadCast

/-- `reorder_p->execute(astream, {{DNNL_ARG_FROM, *src}, {DNNL_ARG_TO, *dst}}); astream.wait();`. -/
def execute (dev_ctx : MKLDNNDeviceContext) (reorder_p src dst : Nat) :
    Except Error MKLDNNDeviceContext :=
  match dev_ctx.heap[reorder_p]?, dev_ctx.heap[src]?, dev_ctx.heap[dst]? with
  | some (Blob.reorder _), some (Blob.memory desc handle), some (Blob.memory _ _) =>
    Except.ok { dev_ctx with executed := dev_ctx.executed ++
      [{ reorder_p := reorder_p, src := src, src_memory := Blob.memory desc handle, dst := dst }] }
  | _, _, _ => Except.error Error.BadCast

end MKLDNNDeviceContext

/-- `platform::is_int8<T>()`: `T` is `int8_t` or `uint8_t`, as `is_INT8` in
`Compute` (lines 490-491). -/
def is_int8 (T : DataType) : Bool := T == DataType.s8 || T == DataType.u8

/-- Modelled from the spec: `platform::GetGroupConvWeightsTz`, which is not among
the sources, turns the filter shape into the group-prefixed variant of section 3
when `groups > 1`: `[o, i, h, w]` becomes `[g, o / g, i, h, w]`. -/
def GetGroupConvWeightsTz (weights_tz : List Int) (groups : Int) : Except Error (List Int) :=
  if groups > 1 then
    match weights_tz with
    | [] => Except.error Error.OutOfBounds
    | o :: rest => Except.ok (groups :: Int.tdiv o groups :: rest)
  else Except.ok weights_tz

/-- `std::swap(v[i], v[j])`. -/
def vecSwap {α : Type} (v : List α) (i j : Nat) : Except Error (List α) :=
  match v[i]?, v[j]? with
  | some a, some b => Except.ok ((v.set i b).set j a)
  | _, _ => Except.error Error.OutOfBounds

/-- `GetWeightsTz(filter, groups)` (lines 28-36). -/
def GetWeightsTz (filter : Tensor) (groups : Int) : Except Error (List Int) :=
  let weights_tz := filter.dims
  let g := max groups 1
  let g_dim : Nat := if g > 1 then 1 else 0
  match GetGroupConvWeightsTz weights_tz g with
  | Except.error e => Except.error e
  | Except.ok weights_tz => vecSwap weights_tz (g_dim + 0) (g_dim + 1)

/-- `GetDstType` (lines 38-56). -/
def GetDstType (is_int8 is_bfloat16 force_fp32_output : Bool) (fuse_activation : String) :
    DataType :=
  if is_int8 then
    if force_fp32_output then DataType.f32
    else if fuse_activation = "relu" ∨ fuse_activation = "relu6" then DataType.u8
    else DataType.s8
  else if !force_fp32_output && is_bfloat16 then DataType.bf16
  else DataType.f32

/-- The post-operations of a primitive attribute: the fused activation and the
scale it was appended with. -/
structure PostOps where
  activation : String
  scale : F32
deriving DecidableEq, Repr

/-- A primitive attribute (`dnnl::primitive_attr`): the output scales
`(mask, scales)`, when set, and the post-operations. -/
structure PrimitiveAttr where
  output_scales : Option (Int × List F32)
  post_ops : PostOps
deriving DecidableEq, Repr

/-- Propagation kind of the forward primitive. -/
inductive PropKind where
  | forward_inference
  | forward_training
deriving DecidableEq, Repr

/-- The forward primitive descriptor `fwd_pd_`, reduced to the memory
descriptors it reports. -/
structure ForwardPd where
  src_desc : MemoryDesc
  weights_desc : MemoryDesc
  bias_desc : MemoryDesc
  dst_desc : MemoryDesc
deriving DecidableEq, Repr

/-- Everything the constructor hands to `AcquireForwardPrimitiveDescriptor`. -/
structure ForwardArgs where
  attr : PrimitiveAttr
  prop_kind : PropKind
  src_md : MemoryDesc
  weights_md : MemoryDesc
  bias_md : Option MemoryDesc
  dst_md : MemoryDesc
  strides : List Int
  dilations : List Int
  padding_l : List Int
  padding_r : List Int
deriving DecidableEq, Repr

/-- The collaborators of the handler that lie outside the two files, taken as
parameters: padding normalisation, the fused-activation post-op and the
creation of the forward primitive descriptor by the library. -/
structure Platform where
  UpdatePaddingAndDilation : List Int → List Int → String → List Int → List Int → List Int →
    Except Error (List Int × List Int)
  ToMkldnnPadding : List Int → Except Error (List Int × List Int)
  AppendActivation : ExecutionContext → F32 → Except Error PostOps
  AcquireForwardPrimitiveDescriptor : ForwardArgs → Except Error ForwardPd

/-- `PADDLE_ENFORCE_*`: continue when the condition holds, throw the error otherwise. -/
def enforce (cond : Bool) (e : Error) : Except Error Unit :=
  if cond then Except.ok () else Except.error e

/-- The handler object: the template arguments `T`, `K`, `T_out` as element
types, the member `is_test_` and the forward primitive descriptor `fwd_pd_`. -/
structure ConvTransposeMKLDNNHandlerT where
  T : DataType
  K : DataType
  T_out : DataType
  is_test_ : Bool
  fwd_pd_ : ForwardPd
deriving DecidableEq, Repr

namespace ConvTransposeMKLDNNHandlerT

/-- Lines 319-331 of `CreateConvAttrs`: `(sum_scale, output_shift_scale, activation_scale)`. -/
def CreateConvAttrs_scales (T : DataType) (ctx : ExecutionContext) :
    Except Error (F32 × List F32 × F32) :=
  if is_int8 T then
    if HasAttr ctx.attrs.Sum_scale then
      match Attr ctx.attrs.Sum_scale with
      | Except.error e => Except.error e
      | Except.ok sum_scale =>
        match Attr ctx.attrs.Activation_scale with
        | Except.error e => Except.error e
        | Except.ok activation_scale =>
          match Attr ctx.attrs.Output_shift_scale with
          | Except.error e => Except.error e
          | Except.ok output_shift_scale =>
            Except.ok (sum_scale, output_shift_scale, activation_scale)
    else get_int8_scales ctx
  else Except.ok (F32.one, [], F32.one)

/-- The member function `CreateConvAttrs` (lines 315-343). -/
def CreateConvAttrs (platform : Platform) (T : DataType) (ctx : ExecutionContext) :
    Except Error PrimitiveAttr :=
  match CreateConvAttrs_scales T ctx with
  | Except.error e => Except.error e
  | Except.ok (_, output_shift_scale, activation_scale) =>
    let output_scales : Option (Int × List F32) :=
      if is_int8 T && decide (output_shift_scale.length > 0) then
        some (if output_shift_scale.length > 1 then ((1 <<< 1 : Nat) : Int) else 0,
          output_shift_scale)
      else none
    match platform.AppendActivation ctx activation_scale with
    | Except.error e => Except.error e
    | Except.ok post_operations =>
      Except.ok { output_scales := output_scales, post_ops := post_operations }

/-- Lines 70-121 of the constructor: the member initialiser `is_test_` and the
checks on the flag and on the tensors. -/
def construct_checks (ctx : ExecutionContext) (input filter : Tensor) (bias : Option Tensor) :
    Except Error Bool :=
  match Attr ctx.attrs.is_test with
  | Except.error e => Except.error e
  | Except.ok is_test_ =>
    match enforce (is_test_ == true) Error.InvalidArgument with
    | Except.error e => Except.error e
    | Except.ok _ =>
    match enforce (input.layout == DataLayout.kMKLDNN) Error.InvalidArgument with
    | Except.error e => Except.error e
    | Except.ok _ =>
    match enforce (filter.layout == DataLayout.kMKLDNN) Error.InvalidArgument with
    | Except.error e => Except.error e
    | Except.ok _ =>
    match enforce (input.dims.length == 4) Error.InvalidArgument with
    | Except.error e => Except.error e
    | Except.ok _ =>
    match enforce (filter.dims.length == 4) Error.InvalidArgument with
    | Except.error e => Except.error e
    | Except.ok _ =>
    match bias with
    | none => Except.ok is_test_
    | some b =>
      match enforce (b.layout == DataLayout.kMKLDNN) Error.InvalidArgument with
      | Except.error e => Except.error e
      | Except.ok _ =>
      match enforce (b.dims.length == 1) Error.InvalidArgument with
      | Except.error e => Except.error e
      | Except.ok _ => Except.ok is_test_

/-- The attributes read by lines 123-133 of the constructor. -/
structure ConvAttrs where
  strides : List Int
  paddings : List Int
  dilations : List Int
  groups : Int
  padding_algorithm : String
deriving DecidableEq, Repr

/-- Lines 123-139 of the constructor: the attributes and the check on `strides`. -/
def construct_attrs (ctx : ExecutionContext) : Except Error ConvAttrs :=
  match Attr ctx.attrs.strides with
  | Except.error e => Except.error e
  | Except.ok strides =>
    match Attr ctx.attrs.paddings with
    | Except.error e => Except.error e
    | Except.ok paddings =>
      match Attr ctx.attrs.dilations with
      | Except.error e => Except.error e
      | Except.ok dilations =>
        match Attr ctx.attrs.groups with
        | Except.error e => Except.error e
        | Except.ok groups =>
          match Attr ctx.attrs.padding_algorithm with
          | Except.error e => Except.error e
          | Except.ok padding_algorithm =>
            match enforce (strides.length == 2) Error.Unimplemented with
            | Except.error e => Except.error e
            | Except.ok _ =>
              Except.ok { strides := strides, paddings := paddings, dilations := dilations,
                          groups := groups, padding_algorithm := padding_algorithm }

/-- Lines 141-227 of the constructor: the memory descriptors, the primitive
attribute and the forward primitive descriptor. -/
def construct_primitive (platform : Platform) (T T_out : DataType) (is_test_ : Bool)
    (ctx : ExecutionContext) (input filter : Tensor) (bias : Option Tensor) (output : Tensor)
    (a : ConvAttrs) : Except Error ForwardPd :=
  let data_dims := input.dims.drop 2
  let ksize := filter.dims.drop 2
  match platform.UpdatePaddingAndDilation a.paddings a.dilations a.padding_algorithm data_dims
      a.strides ksize with
  | Except.error e => Except.error e
  | Except.ok (paddings, dilations) =>
    let dilations := dilations.map (fun i => i - 1)
    let src_tz := input.dims
    match GetWeightsTz filter a.groups with
    | Except.error e => Except.error e
    | Except.ok weights_tz =>
      let dst_tz := output.dims
      match platform.ToMkldnnPadding paddings with
      | Except.error e => Except.error e
      | Except.ok mkldnn_paddings =>
        match Attr ctx.attrs.mkldnn_data_type with
        | Except.error e => Except.error e
        | Except.ok mkldnn_data_type =>
          let data_type :=
            if mkldnn_data_type = "bfloat16" ∨ T_out = DataType.bf16 then DataType.bf16
            else DataType.f32
          let src_md :=
            if is_int8 T then MKLDNNMemDesc src_tz input.dtype MKLDNNMemoryFormat.any
            else MKLDNNMemDesc src_tz data_type MKLDNNMemoryFormat.any
          let weights_md :=
            if is_int8 T then MKLDNNMemDesc weights_tz DataType.s8 MKLDNNMemoryFormat.any
            else MKLDNNMemDesc weights_tz data_type MKLDNNMemoryFormat.any
          let dst_md := MKLDNNMemDesc dst_tz T_out MKLDNNMemoryFormat.any
          match CreateConvAttrs platform T ctx with
          | Except.error e => Except.error e
          | Except.ok conv_trans_attr =>
            let fwd_prop_kind :=
              if is_test_ then PropKind.forward_inference else PropKind.forward_training
            let bias_md : Option MemoryDesc :=
              match bias with
              | none => none
              | some b =>
                if is_int8 T then some (MKLDNNMemDesc b.dims DataType.s32 MKLDNNMemoryFormat.x)
                else some (MKLDNNMemDesc b.dims data_type MKLDNNMemoryFormat.x)
            platform.AcquireForwardPrimitiveDescriptor
              { attr := conv_trans_attr, prop_kind := fwd_prop_kind, src_md := src_md,
                weights_md := weights_md, bias_md := bias_md, dst_md := dst_md,
                strides := a.strides, dilations := dilations,
                padding_l := mkldnn_paddings.1, padding_r := mkldnn_paddings.2 }

/-- The constructor of `ConvTransposeMKLDNNHandlerT<T, K, T_out>` (lines 62-228). -/
def construct (platform : Platform) (T K T_out : DataType) (ctx : ExecutionContext)
    (input filter : Tensor) (bias : Option Tensor) (output : Tensor) :
    Except Error ConvTransposeMKLDNNHandlerT :=
  match construct_checks ctx input filter bias with
  | Except.error e => Except.error e
  | Except.ok is_test_ =>
    match construct_attrs ctx with
    | Except.error e => Except.error e
    | Except.ok a =>
      match construct_primitive platform T T_out is_test_ ctx input filter bias output a with
      | Except.error e => Except.error e
      | Except.ok fwd_pd =>
        Except.ok { T := T, K := K, T_out := T_out, is_test_ := is_test_, fwd_pd_ := fwd_pd }

/-- The member function template `AcquireMemoryWithReorder` (lines 380-456):
the returned `target_memory_p` and the device context after the call. The
defaults of the source are `is_persistent = false`, `scale_data = {1.0f}` and
`mask = 0`. -/
def AcquireMemoryWithReorder (self : ConvTransposeMKLDNNHandlerT)
    (dev_ctx : MKLDNNDeviceContext) (user_md target_md : MemoryDesc) (ptr : Nat)
    (key suffix : String) (is_persistent : Bool) (scale_data : List F32) (mask : Int) :
    Except Error (Nat × MKLDNNDeviceContext) :=
  let target_key := key ++ suffix ++ "_target"
  let key_reorder_p := key ++ suffix ++ "reorder_p"
  let user_key := key ++ suffix ++ "_user"
  match dev_ctx.GetBlob target_key with
  | none =>
    let (user_memory_p, ctx1) := dev_ctx.make_shared (Blob.memory user_md (some ptr))
    if user_md ≠ target_md then
      let (target_memory_p, ctx2) := ctx1.make_shared (Blob.memory target_md none)
      let reorder_pdesc : ReorderDesc :=
        if is_int8 self.T then
          { src := user_md, dst := target_md, output_scales := some (mask, scale_data) }
        else { src := user_md, dst := target_md, output_scales := none }
      let (reorder_p, ctx3) := ctx2.make_shared (Blob.reorder reorder_pdesc)
      let ctx4 := ctx3.SetBlob key_reorder_p reorder_p
      match ctx4.execute reorder_p user_memory_p target_memory_p with
      | Except.error e => Except.error e
      | Except.ok ctx5 =>
        let ctx6 := ctx5.SetBlob user_key user_memory_p
        let ctx7 := ctx6.SetBlob target_key target_memory_p
        Except.ok (target_memory_p, ctx7)
    else
      let target_memory_p := user_memory_p
      let ctx2 := ctx1.SetBlob user_key user_memory_p
      let ctx3 := ctx2.SetBlob target_key target_memory_p
      Except.ok (target_memory_p, ctx3)
  | some target_memory_p =>
    if !is_persistent then
      match dev_ctx.GetBlob user_key with
      | none => Except.error Error.NullPointer
      | some user_memory_p =>
        match dev_ctx.set_data_handle user_memory_p ptr with
        | Except.error e => Except.error e
        | Except.ok ctx1 =>
          match ctx1.GetBlob key_reorder_p with
          | some reorder_p =>
            match ctx1.execute reorder_p user_memory_p target_memory_p with
            | Except.error e => Except.error e
            | Except.ok ctx2 => Except.ok (target_memory_p, ctx2)
          | none => Except.ok (target_memory_p, ctx1)
    else Except.ok (target_memory_p, dev_ctx)

/-- The member function `AcquireWeightsMemoryWithReorder` (lines 354-378); the
default of the source is `scale_data = {1.0f}`. -/
def AcquireWeightsMemoryWithReorder (self : ConvTransposeMKLDNNHandlerT)
    (dev_ctx : MKLDNNDeviceContext) (key : String) (filter : Tensor) (groups : Int)
    (scale_data : List F32) : Except Error (Nat × MKLDNNDeviceContext) :=
  let filter_data := filter.data
  match GetWeightsTz filter groups with
  | Except.error e => Except.error e
  | Except.ok weights_tz =>
    let g := max groups 1
    let user_src_md := MKLDNNMemDesc weights_tz self.K
      (if g = 1 then MKLDNNMemoryFormat.iohw else MKLDNNMemoryFormat.giohw)
    self.AcquireMemoryWithReorder dev_ctx user_src_md self.fwd_pd_.weights_desc filter_data key
      "@weights_mem_p" self.is_test_ scale_data 0

/-- The member function `AcquireBiasMemoryWithReorder` (lines 458-476); the
default of the source is `scale_data = {1.0f}`. -/
def AcquireBiasMemoryWithReorder (self : ConvTransposeMKLDNNHandlerT)
    (dev_ctx : MKLDNNDeviceContext) (key : String) (bias : Tensor) (scale_data : List F32) :
    Except Error (Nat × MKLDNNDeviceContext) :=
  let bias_data := bias.data
  let user_bias_md := MKLDNNMemDesc bias.dims self.K MKLDNNMemoryFormat.x
  self.AcquireMemoryWithReorder dev_ctx user_bias_md self.fwd_pd_.bias_desc bias_data key
    "@bias_mem_p" self.is_test_ scale_data 0

/-- Successive calls of `AcquireWeightsMemoryWithReorder` with one key, one per
inference call: each call comes with the handler built for it, the filter
tensor, `groups` and the scales. -/
def AcquireWeightsRepeatedly (key : String) :
    MKLDNNDeviceContext → List (ConvTransposeMKLDNNHandlerT × Tensor × Int × List F32) →
      Except Error MKLDNNDeviceContext
  | dev_ctx, [] => Except.ok dev_ctx
  | dev_ctx, (self, filter, groups, scale_data) :: rest =>
    match self.AcquireWeightsMemoryWithReorder dev_ctx key filter groups scale_data with
    | Except.error e => Except.error e
    | Except.ok (_, dev_ctx1) => AcquireWeightsRepeatedly key dev_ctx1 rest

/-- Successive calls of `AcquireBiasMemoryWithReorder` with one key: each call
comes with the handler built for it, the bias tensor and the scales. -/
def AcquireBiasRepeatedly (key : String) :
    MKLDNNDeviceContext → List (ConvTransposeMKLDNNHandlerT × Tensor × List F32) →
      Except Error MKLDNNDeviceContext
  | dev_ctx, [] => Except.ok dev_ctx
  | dev_ctx, (self, bias, scale_data) :: rest =>
    match self.AcquireBiasMemoryWithReorder dev_ctx key bias scale_data with
    | Except.error e => Except.error e
    | Except.ok (_, dev_ctx1) => AcquireBiasRepeatedly key dev_ctx1 rest

end ConvTransposeMKLDNNHandlerT

/-! ## The kernel: blob names, cached bias scales, `ComputeINT8` -/

/-- Conversion `static_cast<float>(i)` of an `int`. -/
def F32.ofInt (i : Int) : F32 := ⟨roundQuot binary32 (decide (i < 0)) i.natAbs 1⟩

/-- The kinds of objects that the handler keeps in the blob store under names
derived from a base key. -/
inductive ArtifactKind where
  | weights_target
  | weights_reorder
  | weights_user
  | bias_target
  | bias_reorder
  | bias_user
  | bias_scales
deriving DecidableEq, Repr

/-- The blob name of an artifact: `key + suffix + "_target"`, `key + suffix +
"reorder_p"` and `key + suffix + "_user"` of lines 391-393 with the suffix
`"@weights_mem_p"` of line 375 or `"@bias_mem_p"` of line 473, and
`key + "@bs"` of line 233. -/
def blobName (key : String) : ArtifactKind → String
  | ArtifactKind.weights_target => key ++ "@weights_mem_p" ++ "_target"
  | ArtifactKind.weights_reorder => key ++ "@weights_mem_p" ++ "reorder_p"
  | ArtifactKind.weights_user => key ++ "@weights_mem_p" ++ "_user"
  | ArtifactKind.bias_target => key ++ "@bias_mem_p" ++ "_target"
  | ArtifactKind.bias_reorder => key ++ "@bias_mem_p" ++ "reorder_p"
  | ArtifactKind.bias_user => key ++ "@bias_mem_p" ++ "_user"
  | ArtifactKind.bias_scales => key ++ "@bs"

namespace ConvTransposeMKLDNNHandlerT

/-- The local variables of `get_int8_bias_scales` after line 259. -/
structure BiasScalesLocals where
  weights_tz : List Int
  groups : Int
  scale_weights_data : List F32
  scale_in_data : F32
  is_multi_channel : Bool
  mask_reorder : Int
  count : Int
deriving DecidableEq, Repr

/-- Lines 242-259 of `get_int8_bias_scales`. -/
def get_int8_bias_scales_locals (ctx : ExecutionContext) : Except Error BiasScalesLocals :=
  let weights_tz := ctx.Filter.dims
  match Attr ctx.attrs.groups with
  | Except.error e => Except.error e
  | Except.ok g =>
    let groups := max g 1
    match Attr ctx.attrs.Scale_weights with
    | Except.error e => Except.error e
    | Except.ok scale_weights_data =>
      match Attr ctx.attrs.Scale_in with
      | Except.error e => Except.error e
      | Except.ok scale_in_data =>
        let is_multi_channel := decide (scale_weights_data.length > 1)
        let mask_reorder : Int := if is_multi_channel then ((1 <<< 0 : Nat) : Int) else 1
        let count : Except Error Int :=
          if is_multi_channel then
            match vecAt weights_tz 0 with
            | Except.error e => Except.error e
            | Except.ok w0 =>
              let count := toInt32 (toInt64 (1 * w0))
              if groups > 1 then
                match vecAt weights_tz 1 with
                | Except.error e => Except.error e
                | Except.ok w1 => Except.ok (toInt32 (toInt64 (count * w1)))
              else Except.ok count
          else Except.ok 1
        match count with
        | Except.error e => Except.error e
        | Except.ok count =>
          Except.ok { weights_tz := weights_tz, groups := groups,
                      scale_weights_data := scale_weights_data, scale_in_data := scale_in_data,
                      is_multi_channel := is_multi_channel, mask_reorder := mask_reorder,
                      count := count }

/-- The member function `get_int8_bias_scales` (lines 230-271), with the members
`key_` and `dev_ctx_` it uses passed explicitly: the returned pointer to the
tuple `(mask, scales)` and the device context after the call. -/
def get_int8_bias_scales (key_ : String) (dev_ctx_ : MKLDNNDeviceContext)
    (ctx : ExecutionContext) : Except Error (Nat × MKLDNNDeviceContext) :=
  let key_bs := key_ ++ "@bs"
  match dev_ctx_.GetBlob key_bs with
  | some bias_scale_tuple => Except.ok (bias_scale_tuple, dev_ctx_)
  | none =>
    match get_int8_bias_scales_locals ctx with
    | Except.error e => Except.error e
    | Except.ok l =>
      match vectorOfCount l.count (fun i =>
          match vecAt l.scale_weights_data i with
          | Except.error e => Except.error e
          | Except.ok w => Except.ok (F32.mul l.scale_in_data w)) with
      | Except.error e => Except.error e
      | Except.ok scales =>
        let (bias_scale_tuple, ctx1) :=
          dev_ctx_.make_shared (Blob.scales (F32.ofInt l.mask_reorder) scales)
        Except.ok (bias_scale_tuple, ctx1.SetBlob key_bs bias_scale_tuple)

end ConvTransposeMKLDNNHandlerT

/-- The arguments of the convolution primitive: the memories bound to
`DNNL_ARG_SRC`, `DNNL_ARG_WEIGHTS`, `DNNL_ARG_DST` and, with a bias, `DNNL_ARG_BIAS`. -/
structure ConvArgs where
  src : Blob
  weights : Nat
  dst : Blob
  bias : Option Nat
deriving DecidableEq, Repr

/-- The collaborators of `ComputeINT8` that lie outside the two files, taken as
parameters: the non-caching acquisition of the source and destination memories,
the construction of the cache key, and the forward primitive with its execution. -/
structure KernelPlatform where
  AcquireSrcMemoryWithReorder : ConvTransposeMKLDNNHandlerT → Tensor → Except Error Blob
  CreateKey : MKLDNNDeviceContext → String → String → String → String
  ExtendKeyWithThreadInfoIfNeeded : MKLDNNDeviceContext → String → String
  AcquireDstMemory : ConvTransposeMKLDNNHandlerT → Tensor → Except Error Blob
  AcquireForwardPrimitive : ConvTransposeMKLDNNHandlerT → Except Error Unit
  execute : ConvArgs → MKLDNNDeviceContext → Except Error Unit

/-- What a completed call of `ComputeINT8` leaves behind: the device context,
the cache key, the local `mask_reorder`, the arguments the primitive ran with,
and the output tensor. -/
structure Int8Run where
  dev_ctx : MKLDNNDeviceContext
  key : String
  mask_reorder : Int
  args : ConvArgs
  output : Tensor
deriving DecidableEq, Repr

namespace ConvTransposeMKLDNNOpKernel

/-- Lines 619-639 of `ComputeINT8`: the bias memory, when a bias is bound. -/
def ComputeINT8_bias (handler : ConvTransposeMKLDNNHandlerT) (ctx : ExecutionContext)
    (dev_ctx : MKLDNNDeviceContext) (key : String) (mask_reorder : Int) (bias : Option Tensor) :
    Except Error (Option Nat × MKLDNNDeviceContext) :=
  match bias with
  | none => Except.ok (none, dev_ctx)
  | some b =>
    match enforce (HasAttr ctx.attrs.Bias_scales == true) Error.NotFound with
    | Except.error e => Except.error e
    | Except.ok _ =>
      match Attr ctx.attrs.Bias_scales with
      | Except.error e => Except.error e
      | Except.ok bias_scales =>
        let p_scales_tuple : F32 × List F32 := (F32.ofInt mask_reorder, bias_scales)
        match handler.AcquireBiasMemoryWithReorder dev_ctx key b p_scales_tuple.2 with
        | Except.error e => Except.error e
        | Except.ok (bias_memory_p, dev_ctx1) => Except.ok (some bias_memory_p, dev_ctx1)

/-- The member function template `ComputeINT8<T_out>` of
`ConvTransposeMKLDNNOpKernel<T, K>` (lines 560-651). -/
def ComputeINT8 (platform : Platform) (kernel : KernelPlatform) (T K T_out : DataType)
    (ctx : ExecutionContext) (dev_ctx : MKLDNNDeviceContext) : Except Error Int8Run :=
  match Attr ctx.attrs.fuse_activation with
  | Except.error e => Except.error e
  | Except.ok fuse_activation =>
  match Attr ctx.attrs.strides with
  | Except.error e => Except.error e
  | Except.ok strides =>
  let is_conv_transpose_3d := decide (strides.length = 3)
  let unsigned_output := decide (fuse_activation = "relu" ∨ fuse_activation = "relu6")
  match enforce (is_conv_transpose_3d != true) Error.Unimplemented with
  | Except.error e => Except.error e
  | Except.ok _ =>
  let input := ctx.Input
  let filter := ctx.Filter
  let bias := ctx.Bias
  let output := ctx.Output
  match ConvTransposeMKLDNNHandlerT.construct platform T K T_out ctx input filter bias output with
  | Except.error e => Except.error e
  | Except.ok handler =>
  match kernel.AcquireSrcMemoryWithReorder handler input with
  | Except.error e => Except.error e
  | Except.ok src_memory_p =>
  let key := kernel.ExtendKeyWithThreadInfoIfNeeded dev_ctx
    (kernel.CreateKey dev_ctx ctx.InputName_Input ctx.InputName_Filter
      (if bias.isSome then ctx.InputName_Bias else ""))
  let scale_weights_data := AttrOr ctx.attrs.Scale_weights (List.replicate 1 F32.zero)
  let is_multi_channel := decide (scale_weights_data.length > 1)
  match Attr ctx.attrs.groups with
  | Except.error e => Except.error e
  | Except.ok groups =>
  let mask_reorder : Int :=
    if is_multi_channel then
      (if groups ≠ 1 then ((1 <<< 1 : Nat) : Int) + ((1 <<< 0 : Nat) : Int)
       else ((1 <<< 0 : Nat) : Int))
    else 0
  match handler.AcquireWeightsMemoryWithReorder dev_ctx key filter groups [F32.one] with
  | Except.error e => Except.error e
  | Except.ok (weights_memory_p, dev_ctx1) =>
  match kernel.AcquireDstMemory handler output with
  | Except.error e => Except.error e
  | Except.ok dst_memory_p =>
  let need_s8_to_u8 := (T_out == DataType.s8) && unsigned_output
  match kernel.AcquireForwardPrimitive handler with
  | Except.error e => Except.error e
  | Except.ok _ =>
  match ComputeINT8_bias handler ctx dev_ctx1 key mask_reorder bias with
  | Except.error e => Except.error e
  | Except.ok (bias_memory_p, dev_ctx2) =>
  let args : ConvArgs :=
    { src := src_memory_p, weights := weights_memory_p, dst := dst_memory_p,
      bias := bias_memory_p }
  match kernel.execute args dev_ctx2 with
  | Except.error e => Except.error e
  | Except.ok _ =>
    Except.ok { dev_ctx := dev_ctx2, key := key, mask_reorder := mask_reorder, args := args,
                output := { output with
                  layout := DataLayout.kMKLDNN,
                  dtype := if need_s8_to_u8 then DataType.u8 else output.dtype } }

end ConvTransposeMKLDNNOpKernel

/-! ## Reference formula and sample inputs -/

/-- The channel count as the specification states it: 1 when `Scale_weights`
has at most one element, `w[0] * w[1]` when it has more and `max(groups, 1) > 1`,
and `w[0]` otherwise. -/
def spec_channel_count (groups : Int) (w : List Int) (scale_weights_length : Nat) : Int :=
  if scale_weights_length > 1 then
    (if max groups 1 > 1 then w.getD 0 0 * w.getD 1 0 else w.getD 0 0)
  else 1

/-- The validity conditions as the specification states them: inference mode, the
oneDNN layout on input and filter, four dimensions on input and filter, and, when
a bias is bound, the oneDNN layout and one dimension on it. -/
def spec_valid_inputs (is_test : Bool) (input filter : Tensor) (bias : Option Tensor) : Prop :=
  is_test = true ∧ input.layout = DataLayout.kMKLDNN ∧ filter.layout = DataLayout.kMKLDNN ∧
  input.dims.length = 4 ∧ filter.dims.length = 4 ∧
  ∀ b, bias = some b → b.layout = DataLayout.kMKLDNN ∧ b.dims.length = 1

namespace Sample
/-- A tensor with the oneDNN layout and the given dimensions. -/
def tensor (dims : List Int) : Tensor :=
  { dims := dims, layout := DataLayout.kMKLDNN, dtype := DataType.s8, data := 0 }

/-- A kernel context with the given attributes and filter dimensions and no bias. -/
def context (attrs : AttributeMap) (filter_dims : List Int) : ExecutionContext :=
  { attrs := attrs, Input := tensor [1, 1, 1, 1], Filter := tensor filter_dims, Bias := none,
    Output := tensor [1, 1, 1, 1], InputName_Input := "x", InputName_Filter := "w",
    InputName_Bias := "" }

/-- A convolution operator without bias. -/
def conv (attrs : AttributeMap) : OpDesc :=
  { attrs := attrs, inputs := [("Input", ["x"]), ("Filter", ["w"])] }

/-- Attributes of a convolution with a fused `relu`: `Scale_in = 1.0`,
`Scale_weights = [1.0]`, `Scale_out = 2.0`, `groups = 1`, `force_fp32_output = false`. -/
def reluAttrs : AttributeMap :=
  { groups := some 1, Scale_in := some F32.one, Scale_weights := some [F32.one],
    Scale_out := some (F32.ofRatio 2 1), fuse_activation := some "relu",
    force_fp32_output := some false }

/-- Attributes of a convolution without fused activation: `Scale_in = 2.0`,
`Scale_weights = [0.5]`, `Scale_out = 1.0`, `groups = 1`, `force_fp32_output = false`. -/
def plainAttrs : AttributeMap :=
  { groups := some 1, Scale_in := some (F32.ofRatio 2 1), Scale_weights := some [F32.ofRatio 1 2],
    Scale_out := some F32.one, fuse_activation := some "", force_fp32_output := some false }

/-- Attributes of a grouped convolution with per-channel weight scales:
`groups`, `n` weight scales equal to 1.0, `Scale_in = Scale_out = 1.0`, no
fused activation, `force_fp32_output = false`. -/
def groupedAttrs (groups : Int) (n : Nat) : AttributeMap :=
  { groups := some groups, Scale_in := some F32.one, Scale_weights := some (List.replicate n F32.one),
    Scale_out := some F32.one, fuse_activation := some "", force_fp32_output := some false }

/-- Attributes with a zero weight scale: `Scale_weights = [0.0, 0.3]`,
`Scale_in = 1.0`, `Scale_out = 2.0`, `groups = 1`, no fused activation,
`force_fp32_output = false`. -/
def zeroScaleAttrs : AttributeMap :=
  { groups := some 1, Scale_in := some F32.one, Scale_weights := some [F32.zero, F32.ofRatio 3 10],
    Scale_out := some (F32.ofRatio 2 1), fuse_activation := some "",
    force_fp32_output := some false }

/-- Attributes of a convolution with a fused residual connection:
`fuse_residual_connection = true`, `Scale_in_eltwise = 2.0`, `Scale_out = 4.0`,
`fuse_activation = "relu"`, `Scale_in = 1.0`, `Scale_weights = [1.0]`,
`groups = 1`, `force_fp32_output = false`. -/
def residualAttrs : AttributeMap :=
  { groups := some 1, Scale_in := some F32.one, Scale_weights := some [F32.one],
    Scale_out := some (F32.ofRatio 4 1), Scale_in_eltwise := some (F32.ofRatio 2 1),
    fuse_residual_connection := some true, fuse_activation := some "relu",
    force_fp32_output := some false }

/-- Collaborators that accept every request: paddings and dilations are kept,
and the library picks blocked layouts for the weights and plain ones elsewhere. -/
def platform : Platform :=
  { UpdatePaddingAndDilation := fun paddings dilations _ _ _ _ => Except.ok (paddings, dilations),
    ToMkldnnPadding := fun paddings => Except.ok (paddings, paddings),
    AppendActivation := fun ctx scale =>
      Except.ok { activation := GetAttrIfExists ctx.attrs.fuse_activation "", scale := scale },
    AcquireForwardPrimitiveDescriptor := fun args =>
      Except.ok { src_desc := args.src_md,
                  weights_desc := { args.weights_md with format := MKLDNNMemoryFormat.blocked 0 },
                  bias_desc := MKLDNNMemDesc [] DataType.s32 MKLDNNMemoryFormat.x,
                  dst_desc := args.dst_md } }

/-- Attributes of an int8 transposed convolution in inference mode with the
precomputed scales attached. -/
def inferenceAttrs : AttributeMap :=
  { is_test := some true, groups := some 1, strides := some [1, 1], paddings := some [0, 0],
    dilations := some [1, 1], padding_algorithm := some "EXPLICIT",
    mkldnn_data_type := some "int8", fuse_activation := some "",
    force_fp32_output := some false, Scale_in := some F32.one,
    Scale_weights := some [F32.one], Scale_out := some F32.one, Sum_scale := some F32.one,
    Activation_scale := some F32.one, Output_shift_scale := some [F32.one] }

/-- A device context whose store already holds the reordered weights for key `"k"`:
the source memory bound to address 7, the target memory and the reorder primitive. -/
def warmContext : MKLDNNDeviceContext :=
  { blobs := [("k@weights_mem_p_target", 1), ("k@weights_mem_p_user", 0),
              ("k@weights_mem_preorder_p", 2)],
    heap := [Blob.memory (MKLDNNMemDesc [1, 1, 1, 1] DataType.s8 MKLDNNMemoryFormat.iohw) (some 7),
             Blob.memory (MKLDNNMemDesc [1, 1, 1, 1] DataType.s8 (MKLDNNMemoryFormat.blocked 0)) none,
             Blob.reorder
               { src := MKLDNNMemDesc [1, 1, 1, 1] DataType.s8 MKLDNNMemoryFormat.iohw,
                 dst := MKLDNNMemDesc [1, 1, 1, 1] DataType.s8 (MKLDNNMemoryFormat.blocked 0),
                 output_scales := some (0, [F32.one]) }],
    executed := [{ reorder_p := 2, src := 0,
                   src_memory := Blob.memory
                     (MKLDNNMemDesc [1, 1, 1, 1] DataType.s8 MKLDNNMemoryFormat.iohw) (some 7),
                   dst := 1 }] }

end Sample

namespace Sample

/-- A handler for an int8 kernel in inference mode whose primitive descriptor
asks for blocked weights and an `s32` bias. -/
def handler : ConvTransposeMKLDNNHandlerT :=
  { T := DataType.s8, K := DataType.s8, T_out := DataType.s8, is_test_ := true,
    fwd_pd_ := { src_desc := MKLDNNMemDesc [1, 1, 1, 1] DataType.s8 MKLDNNMemoryFormat.any,
                 weights_desc :=
                   MKLDNNMemDesc [1, 1, 1, 1] DataType.s8 (MKLDNNMemoryFormat.blocked 0),
                 bias_desc := MKLDNNMemDesc [] DataType.s32 MKLDNNMemoryFormat.x,
                 dst_desc := MKLDNNMemDesc [1, 1, 1, 1] DataType.s8 MKLDNNMemoryFormat.any } }

end Sample

namespace Sample

end Sample

namespace Sample

/-- Attributes that carry the precomputed scales `Sum_scale = 2.0`,
`Activation_scale = 4.0`, `Output_shift_scale = [0.5]` and nothing else, so that
`get_int8_scales`, which reads `groups` and `fuse_activation`, would throw. -/
def precomputedAttrs : AttributeMap :=
  { Sum_scale := some (F32.ofRatio 2 1), Activation_scale := some (F32.ofRatio 4 1),
    Output_shift_scale := some [F32.ofRatio 1 2] }

end Sample

namespace Sample

/-- Collaborators of `ComputeINT8` that accept every request: the source and
destination memories wrap the tensors' buffers, the key joins the three names,
and the primitive runs without error. -/
def kernelPlatform : KernelPlatform :=
  { AcquireSrcMemoryWithReorder := fun handler input =>
      Except.ok (Blob.memory handler.fwd_pd_.src_desc (some input.data)),
    CreateKey := fun _ input filter bias => input ++ "-" ++ filter ++ "-" ++ bias,
    ExtendKeyWithThreadInfoIfNeeded := fun _ key => key,
    AcquireDstMemory := fun handler output =>
      Except.ok (Blob.memory handler.fwd_pd_.dst_desc (some output.data)),
    AcquireForwardPrimitive := fun _ => Except.ok (),
    execute := fun _ _ => Except.ok () }

/-- A kernel context with the given attributes and filter dimensions and a bias
tensor with one dimension. -/
def contextWithBias (attrs : AttributeMap) (filter_dims : List Int) (channels : Int) :
    ExecutionContext :=
  { attrs := attrs, Input := tensor [1, 1, 1, 1], Filter := tensor filter_dims,
    Bias := some (tensor [channels]), Output := tensor [1, 1, 1, 1], InputName_Input := "x",
    InputName_Filter := "w", InputName_Bias := "b" }

/-- Attributes of an int8 transposed convolution over volumes: three strides. -/
def volumeAttrs : AttributeMap :=
  { is_test := some true, groups := some 1, strides := some [1, 1, 1],
    paddings := some [0, 0, 0], dilations := some [1, 1, 1],
    padding_algorithm := some "EXPLICIT", mkldnn_data_type := some "int8",
    fuse_activation := some "", force_fp32_output := some false, Scale_in := some F32.one,
    Scale_weights := some [F32.one], Scale_out := some F32.one }

/-- Attributes of an int8 transposed convolution in inference mode without any
calibration attribute but `Scale_weights = [0.5]`: `Scale_in`, `Scale_out`,
`Sum_scale` and `Bias_scales` are not set. -/
def uncalibratedAttrs : AttributeMap :=
  { is_test := some true, groups := some 1, strides := some [1, 1], paddings := some [0, 0],
    dilations := some [1, 1], padding_algorithm := some "EXPLICIT",
    mkldnn_data_type := some "int8", fuse_activation := some "",
    force_fp32_output := some false, Scale_weights := some [F32.ofRatio 1 2] }

/-- Attributes of an int8 transposed convolution in inference mode with
`groups` and two weight scales, the precomputed scales and
`Bias_scales = [1.0, 1.0]`. -/
def biasAttrs (groups : Int) : AttributeMap :=
  { is_test := some true, groups := some groups, strides := some [1, 1],
    paddings := some [0, 0], dilations := some [1, 1], padding_algorithm := some "EXPLICIT",
    mkldnn_data_type := some "int8", fuse_activation := some "",
    force_fp32_output := some false, Scale_in := some F32.one,
    Scale_weights := some [F32.one, F32.one], Scale_out := some F32.one,
    Sum_scale := some F32.one, Activation_scale := some F32.one,
    Output_shift_scale := some [F32.one, F32.one], Bias_scales := some [F32.one, F32.one] }

end Sample

/-! ## Theorems -/

/-! ### IEEE-754 model: sample values -/

/-- The model rounds to nearest, ties to even, in both formats: `1.0 / 3.0` in
`double` is `0x3FD5555555555555`, `0.1f` is `0x3DCCCCCD`, `2^24 + 1` narrows to
`2^24`, and the `double` `2^128` narrows to `+inf`. -/
theorem ieee_sample_values :
    F64.div F32.one.toDouble (F32.ofRatio 3 1).toDouble =
      ⟨IEEE.fin false 6004799503160661 (-54)⟩ ∧
    F32.ofRatio 1 10 = ⟨IEEE.fin false 13421773 (-27)⟩ ∧
    F64.toFloat ⟨IEEE.fin false 4503599895805952 (-28)⟩ = ⟨IEEE.fin false 8388608 1⟩ ∧
    F64.toFloat ⟨IEEE.fin false 4503599627370496 76⟩ = ⟨IEEE.inf false⟩ := by
  refine ⟨by decide, by decide, by decide, by decide⟩

/-- Division by a zero product gives an infinity or a NaN, never a trap, and a
NaN weight scale does not compare equal to 0.0. -/
theorem ieee_special_values :
    F64.div F32.one.toDouble (F64.mul F32.one.toDouble F32.zero.toDouble) = ⟨IEEE.inf false⟩ ∧
    F64.div F32.zero.toDouble F64.zero = ⟨IEEE.nan⟩ ∧
    F64.eq (F32.toDouble ⟨IEEE.nan⟩) F64.zero = false ∧
    F64.eq (F32.toDouble ⟨IEEE.fin true 0 (-149)⟩) F64.zero = true := by
  refine ⟨by decide, by decide, by decide, by decide⟩

/-! ### Loops and vectors -/

theorem fillLoop_length {α : Type} (body : Nat → Except Error α) :
    ∀ (n i : Nat) (xs : List α), fillLoop body i n = Except.ok xs → xs.length = n := by
  intro n
  induction n with
  | zero =>
    intro i xs h
    simp only [fillLoop] at h
    cases h
    rfl
  | succ n ih =>
    intro i xs h
    simp only [fillLoop] at h
    cases hb : body i with
    | error e => rw [hb] at h; cases h
    | ok x =>
      rw [hb] at h
      cases hr : fillLoop body (i + 1) n with
      | error e => rw [hr] at h; cases h
      | ok ys =>
        rw [hr] at h
        cases h
        simp [ih (i + 1) ys hr]

theorem fillLoop_get {α : Type} (body : Nat → Except Error α) :
    ∀ (n i : Nat) (xs : List α), fillLoop body i n = Except.ok xs →
      ∀ j, j < n → ∃ y, xs[j]? = some y ∧ body (i + j) = Except.ok y := by
  intro n
  induction n with
  | zero => intro i xs _ j hj; omega
  | succ n ih =>
    intro i xs h j hj
    simp only [fillLoop] at h
    cases hb : body i with
    | error e => rw [hb] at h; cases h
    | ok x =>
      rw [hb] at h
      cases hr : fillLoop body (i + 1) n with
      | error e => rw [hr] at h; cases h
      | ok ys =>
        rw [hr] at h
        cases h
        cases j with
        | zero => exact ⟨x, by simp, by simpa using hb⟩
        | succ k =>
          obtain ⟨y, hy1, hy2⟩ := ih (i + 1) ys hr k (by omega)
          refine ⟨y, by simpa using hy1, ?_⟩
          have : i + (k + 1) = i + 1 + k := by omega
          rw [this]; exact hy2

theorem fillLoop_total {α : Type} (body : Nat → Except Error α) :
    ∀ (n i : Nat), (∀ j, j < n → ∃ y, body (i + j) = Except.ok y) →
      ∃ xs, fillLoop body i n = Except.ok xs := by
  intro n
  induction n with
  | zero => intro i _; exact ⟨[], rfl⟩
  | succ n ih =>
    intro i h
    obtain ⟨x, hx⟩ := h 0 (by omega)
    obtain ⟨ys, hys⟩ := ih (i + 1) (fun j hj => by
      have := h (j + 1) (by omega)
      have e : i + (j + 1) = i + 1 + j := by omega
      rw [e] at this; exact this)
    refine ⟨x :: ys, ?_⟩
    simp only [fillLoop]
    rw [show body i = Except.ok x from by simpa using hx, hys]

theorem vectorOfCount_ok {α : Type} (count : Int) (body : Nat → Except Error α) (xs : List α)
    (h : vectorOfCount count body = Except.ok xs) :
    0 ≤ count ∧ (xs.length : Int) = count ∧
      ∀ j, j < xs.length → ∃ y, xs[j]? = some y ∧ body j = Except.ok y := by
  unfold vectorOfCount at h
  by_cases hc : count < 0
  · rw [if_pos hc] at h; cases h
  · rw [if_neg hc] at h
    have hlen := fillLoop_length body count.toNat 0 xs h
    refine ⟨by omega, by omega, ?_⟩
    intro j hj
    obtain ⟨y, hy1, hy2⟩ := fillLoop_get body count.toNat 0 xs h j (by omega)
    exact ⟨y, hy1, by simpa using hy2⟩

theorem vectorOfCount_total {α : Type} (count : Int) (body : Nat → Except Error α)
    (hc : 0 ≤ count) (hb : ∀ j : Nat, (j : Int) < count → ∃ y, body j = Except.ok y) :
    ∃ xs, vectorOfCount count body = Except.ok xs := by
  unfold vectorOfCount
  rw [if_neg (by omega)]
  apply fillLoop_total
  intro j hj
  simpa using hb j (by omega)

theorem vecAt_ok {α : Type} (v : List α) (i : Nat) (x : α) :
    vecAt v i = Except.ok x ↔ v[i]? = some x := by
  unfold vecAt
  cases h : v[i]? with
  | none => simp
  | some y => simp

theorem vecAt_of_lt {α : Type} (v : List α) (i : Nat) (h : i < v.length) :
    ∃ x, vecAt v i = Except.ok x ∧ v[i]? = some x := by
  refine ⟨v[i], ?_, ?_⟩
  · rw [vecAt_ok]; simp [h]
  · simp [h]

theorem AttrOr_eq {α : Type} (a : Option α) (dflt : α) : AttrOr a dflt = a.getD dflt := by
  cases a <;> simp [AttrOr, HasAttr]

namespace ConvInt8ScalesPass

/-- What a successful run of the handler on a compatible subgraph has computed. -/
theorem handler_ok (conv_op : OpDesc) (conv_filter : VarDesc) (op : OpDesc)
    (h : handler true conv_op conv_filter = Except.ok op) :
    ∃ c hb osc, count conv_op conv_filter = Except.ok c ∧ has_bias conv_op = Except.ok hb ∧
      output_shift_scale conv_op c = Except.ok osc ∧
      op.attrs.Output_shift_scale = some osc ∧
      op.attrs.Sum_scale = some (sum_scale conv_op) ∧
      op.attrs.Activation_scale = some (activation_scale conv_op) ∧
      (hb = true → ∃ bs, bias_scales conv_op c = Except.ok bs ∧ op.attrs.Bias_scales = some bs) ∧
      (hb = false → op.attrs.Bias_scales = conv_op.attrs.Bias_scales) := by
  unfold handler at h
  simp only [Bool.not_true, Bool.false_eq_true, if_false] at h
  cases hc : count conv_op conv_filter with
  | error e => rw [hc] at h; cases h
  | ok c =>
    rw [hc] at h
    cases hhb : has_bias conv_op with
    | error e => rw [hhb] at h; cases h
    | ok hb =>
      rw [hhb] at h
      cases hb with
      | false =>
        simp only [Bool.false_eq_true, if_false] at h
        cases ho : output_shift_scale conv_op c with
        | error e => rw [ho] at h; cases h
        | ok osc =>
          rw [ho] at h
          cases h
          exact ⟨c, false, osc, rfl, rfl, ho, rfl, rfl, rfl, by simp, by simp⟩
      | true =>
        simp only [if_true] at h
        cases hbs : bias_scales conv_op c with
        | error e => rw [hbs] at h; cases h
        | ok bs =>
          rw [hbs] at h
          simp only [Except.map] at h
          cases ho : output_shift_scale conv_op c with
          | error e => rw [ho] at h; cases h
          | ok osc =>
            rw [ho] at h
            cases h
            exact ⟨c, true, osc, rfl, rfl, ho, rfl, rfl, rfl, fun _ => ⟨bs, hbs, rfl⟩, by simp⟩

theorem lookup_of_contains (inputs : List (String × List String)) (name : String)
    (h : (inputs.map Prod.fst).contains name = true) :
    ∃ vars, inputs.lookup name = some vars := by
  induction inputs with
  | nil => simp at h
  | cons p rest ih =>
    obtain ⟨k, v⟩ := p
    by_cases hk : name = k
    · subst hk
      exact ⟨v, by simp [List.lookup]⟩
    · have hne : (name == k) = false := by simpa using hk
      have h2 : (rest.map Prod.fst).contains name = true := by
        simp only [List.map_cons, List.contains_cons, hne, Bool.false_or] at h
        exact h
      obtain ⟨vars, hv⟩ := ih h2
      exact ⟨vars, by simp [List.lookup, hne, hv]⟩

/-- The bias test of the handler never throws: `Input("Bias")` is only evaluated
when "Bias" is among the input names. -/
theorem has_bias_total (conv_op : OpDesc) : ∃ hb, has_bias conv_op = Except.ok hb := by
  unfold has_bias
  by_cases hc : conv_op.InputNames.contains "Bias" = true
  · rw [if_pos hc]
    obtain ⟨vars, hv⟩ := lookup_of_contains conv_op.inputs "Bias" hc
    simp only [OpDesc.Input, hv]
    exact ⟨_, rfl⟩
  · rw [if_neg hc]
    exact ⟨false, rfl⟩

theorem bias_scales_total (conv_op : OpDesc) (c : Int) (hc : 0 ≤ c)
    (hlen : c ≤ (scale_weights_data conv_op).length) :
    ∃ bs, bias_scales conv_op c = Except.ok bs := by
  unfold bias_scales
  apply vectorOfCount_total _ _ hc
  intro j hj
  obtain ⟨w, hw, _⟩ := vecAt_of_lt (scale_weights_data conv_op) j (by omega)
  rw [hw]
  exact ⟨_, rfl⟩

theorem output_shift_scale_total (conv_op : OpDesc) (c : Int) (hc : 0 ≤ c)
    (hlen : c ≤ (scale_weights_data conv_op).length) :
    ∃ osc, output_shift_scale conv_op c = Except.ok osc := by
  unfold output_shift_scale
  apply vectorOfCount_total _ _ hc
  intro j hj
  obtain ⟨w, hw, _⟩ := vecAt_of_lt (scale_weights_data conv_op) j (by omega)
  rw [hw]
  by_cases hz : F64.eq w.toDouble F64.zero = true
  · simp only [hz, if_true]; exact ⟨_, rfl⟩
  · simp only [hz, if_false]; exact ⟨_, rfl⟩

/-- The handler completes on a compatible subgraph whenever the channel count is
computed, is not negative and does not exceed the length of `Scale_weights`. -/
theorem handler_total (conv_op : OpDesc) (conv_filter : VarDesc) (c : Int)
    (hcount : count conv_op conv_filter = Except.ok c) (hc : 0 ≤ c)
    (hlen : c ≤ (scale_weights_data conv_op).length) :
    ∃ op, handler true conv_op conv_filter = Except.ok op := by
  obtain ⟨hb, hhb⟩ := has_bias_total conv_op
  obtain ⟨bs, hbs⟩ := bias_scales_total conv_op c hc hlen
  obtain ⟨osc, hosc⟩ := output_shift_scale_total conv_op c hc hlen
  unfold handler
  simp only [Bool.not_true, Bool.false_eq_true, if_false, hcount, hhb, hosc]
  cases hb with
  | false => exact ⟨_, rfl⟩
  | true => simp only [if_true, hbs, Except.map]; exact ⟨_, rfl⟩

end ConvInt8ScalesPass

namespace ConvTransposeMKLDNNHandlerT

/-- What a successful call of `get_int8_scales` has computed. -/
theorem get_int8_scales_ok (ctx : ExecutionContext) (r : F32 × List F32 × F32)
    (h : get_int8_scales ctx = Except.ok r) :
    ∃ l c, get_int8_scales_locals ctx = Except.ok l ∧ get_int8_scales_count l = Except.ok c ∧
      get_int8_scales_loop l c = Except.ok r.2.1 ∧ r.1 = l.sum_scale ∧
      r.2.2 = l.activation_scale := by
  unfold get_int8_scales at h
  cases hl : get_int8_scales_locals ctx with
  | error e => rw [hl] at h; cases h
  | ok l =>
    simp only [hl] at h
    cases hc : get_int8_scales_count l with
    | error e => simp only [hc] at h; cases h
    | ok c =>
      simp only [hc] at h
      cases ho : get_int8_scales_loop l c with
      | error e => simp only [ho] at h; cases h
      | ok osc =>
        simp only [ho] at h
        cases h
        exact ⟨l, c, rfl, hc, ho, rfl, rfl⟩

theorem get_int8_scales_loop_total (l : Int8ScalesLocals) (c : Int) (hc : 0 ≤ c)
    (hlen : c ≤ l.scale_weights_data.length) :
    ∃ osc, get_int8_scales_loop l c = Except.ok osc := by
  unfold get_int8_scales_loop
  apply vectorOfCount_total _ _ hc
  intro j hj
  obtain ⟨w, hw, _⟩ := vecAt_of_lt l.scale_weights_data j (by omega)
  rw [hw]
  by_cases hz : F64.eq w.toDouble F64.zero = true
  · simp only [hz, if_true]; exact ⟨_, rfl⟩
  · simp only [hz, if_false]; exact ⟨_, rfl⟩

/-- `get_int8_scales` returns whenever its locals and channel count are computed,
the count is not negative and does not exceed the length of the weight scales. -/
theorem get_int8_scales_total (ctx : ExecutionContext) (l : Int8ScalesLocals) (c : Int)
    (hl : get_int8_scales_locals ctx = Except.ok l)
    (hcount : get_int8_scales_count l = Except.ok c) (hc : 0 ≤ c)
    (hlen : c ≤ l.scale_weights_data.length) :
    ∃ osc, get_int8_scales ctx = Except.ok (l.sum_scale, osc, l.activation_scale) := by
  obtain ⟨osc, hosc⟩ := get_int8_scales_loop_total l c hc hlen
  exact ⟨osc, by simp only [get_int8_scales, hl, hcount, hosc]⟩

/-- The locals of `get_int8_scales` when the attributes `groups` and
`fuse_activation`, which it reads with `ctx.Attr`, are set. -/
theorem get_int8_scales_locals_eq (ctx : ExecutionContext) (g : Int) (fa : String)
    (hg : ctx.attrs.groups = some g) (hfa : ctx.attrs.fuse_activation = some fa) :
    ∃ l, get_int8_scales_locals ctx = Except.ok l ∧
      l.weights_tz = ctx.Filter.dims ∧
      l.force_fp32_output = AttrOr ctx.attrs.force_fp32_output false ∧
      l.groups = max g 1 ∧
      l.scale_in_data = AttrOr ctx.attrs.Scale_in F32.one ∧
      l.scale_weights_data = AttrOr ctx.attrs.Scale_weights [F32.zero] ∧
      l.is_multi_channel = decide (l.scale_weights_data.length > 1) ∧
      l.scale_out = AttrOr ctx.attrs.Scale_out F32.one ∧
      l.has_activation = !empty fa ∧
      l.activation_scale =
        (if !l.force_fp32_output && l.has_activation then l.scale_out else F32.one) ∧
      l.scale_out_data =
        (if l.force_fp32_output || l.has_activation then F32.one else l.scale_out) ∧
      l.sum_scale = F32.one := by
  unfold get_int8_scales_locals
  simp only [hg, hfa, Attr]
  exact ⟨_, rfl, rfl, rfl, rfl, rfl, rfl, rfl, rfl, rfl, rfl, rfl, rfl⟩

/-- The locals of `get_int8_scales` are computed only when `groups` and
`fuse_activation` are set. -/
theorem get_int8_scales_locals_attrs (ctx : ExecutionContext) (l : Int8ScalesLocals)
    (h : get_int8_scales_locals ctx = Except.ok l) :
    ∃ g fa, ctx.attrs.groups = some g ∧ ctx.attrs.fuse_activation = some fa := by
  cases hg : ctx.attrs.groups with
  | none => simp [get_int8_scales_locals, hg, Attr] at h
  | some g =>
    cases hfa : ctx.attrs.fuse_activation with
    | none => simp [get_int8_scales_locals, hg, hfa, Attr] at h
    | some fa => exact ⟨g, fa, rfl, rfl⟩

end ConvTransposeMKLDNNHandlerT

namespace ConvInt8ScalesPass

/-- Each element of the vector built by lines 93-106 of the handler. -/
theorem output_shift_scale_elem (conv_op : OpDesc) (c : Int) (osc : List F32)
    (h : output_shift_scale conv_op c = Except.ok osc) :
    0 ≤ c ∧ (osc.length : Int) = c ∧
      ∀ j, j < osc.length → ∃ w, (scale_weights_data conv_op)[j]? = some w ∧
        osc[j]? = some (if F64.eq w.toDouble F64.zero then scale_out_data conv_op
          else F64.toFloat (F64.div (scale_out_data conv_op).toDouble
            (F64.mul (scale_in_data conv_op).toDouble w.toDouble))) := by
  obtain ⟨h0, hlen, hel⟩ := vectorOfCount_ok _ _ _ h
  refine ⟨h0, hlen, ?_⟩
  intro j hj
  obtain ⟨y, hy, hbody⟩ := hel j hj
  cases hw : vecAt (scale_weights_data conv_op) j with
  | error e => simp only [hw] at hbody; cases hbody
  | ok w =>
    simp only [hw] at hbody
    refine ⟨w, (vecAt_ok _ _ _).1 hw, ?_⟩
    by_cases hz : F64.eq w.toDouble F64.zero = true
    · simp only [hz, if_true] at hbody ⊢
      cases hbody; exact hy
    · simp only [hz, if_false] at hbody ⊢
      cases hbody; exact hy

end ConvInt8ScalesPass

namespace ConvTransposeMKLDNNHandlerT

/-- Each element of the vector built by lines 297-310 of `get_int8_scales`. -/
theorem get_int8_scales_loop_elem (l : Int8ScalesLocals) (c : Int) (osc : List F32)
    (h : get_int8_scales_loop l c = Except.ok osc) :
    0 ≤ c ∧ (osc.length : Int) = c ∧
      ∀ j, j < osc.length → ∃ w, l.scale_weights_data[j]? = some w ∧
        osc[j]? = some (if F64.eq w.toDouble F64.zero then l.scale_out_data
          else F64.toFloat (F64.div l.scale_out_data.toDouble
            (F64.mul l.scale_in_data.toDouble w.toDouble))) := by
  obtain ⟨h0, hlen, hel⟩ := vectorOfCount_ok _ _ _ h
  refine ⟨h0, hlen, ?_⟩
  intro j hj
  obtain ⟨y, hy, hbody⟩ := hel j hj
  cases hw : vecAt l.scale_weights_data j with
  | error e => simp only [hw] at hbody; cases hbody
  | ok w =>
    simp only [hw] at hbody
    refine ⟨w, (vecAt_ok _ _ _).1 hw, ?_⟩
    by_cases hz : F64.eq w.toDouble F64.zero = true
    · simp only [hz, if_true] at hbody ⊢
      cases hbody; exact hy
    · simp only [hz, if_false] at hbody ⊢
      cases hbody; exact hy

end ConvTransposeMKLDNNHandlerT

/-! ### Integer conversions -/

theorem toInt32_of_range (x : Int) (h0 : -2147483648 ≤ x) (h1 : x < 2147483648) :
    toInt32 x = x := by
  unfold toInt32; omega

theorem toInt32_toInt64 (x : Int) : toInt32 (toInt64 x) = toInt32 x := by
  unfold toInt32 toInt64; omega

theorem toInt32_modEq (x : Int) : toInt32 x ≡ x [ZMOD 4294967296] := by
  unfold toInt32
  have h : (x + 2147483648) % 4294967296 ≡ x + 2147483648 [ZMOD 4294967296] :=
    Int.mod_modEq _ _
  have h2 := Int.ModEq.sub_right 2147483648 h
  simpa using h2

theorem toInt32_congr (x y : Int) (h : x ≡ y [ZMOD 4294967296]) : toInt32 x = toInt32 y := by
  unfold toInt32
  have h2 : (x + 2147483648) % 4294967296 = (y + 2147483648) % 4294967296 :=
    Int.ModEq.add_right 2147483648 h
  rw [h2]

/-- Storing the first factor into an `int` before multiplying by the second
gives the same `int` as converting the 64-bit product. -/
theorem toInt32_mul_toInt32 (a b : Int) :
    toInt32 (toInt64 (toInt32 (toInt64 (1 * a)) * b)) = toInt32 (toInt64 (b * a)) := by
  rw [toInt32_toInt64, toInt32_toInt64, toInt32_toInt64, one_mul]
  apply toInt32_congr
  have h := Int.ModEq.mul_right b (toInt32_modEq a)
  rw [mul_comm b a]
  exact h

/-! ### Claims about the scale derivation -/

/-- C1, evaluated at `Scale_in = 1.0`, `Scale_weights = [1.0]`, `Scale_out = 2.0`,
`force_fp32_output = false`, `fuse_activation = "relu"`, `groups = 1` and filter
shape `[1, 1, 1, 1]`: the handler of the graph pass writes
`Output_shift_scale = [2.0]` while `get_int8_scales` returns
`output_shift_scale = [1.0]` on the same attributes, so the two vectors differ. -/
theorem pass_and_kernel_output_shift_scale_differ :
    (ConvInt8ScalesPass.handler true (Sample.conv Sample.reluAttrs) ⟨[1, 1, 1, 1]⟩).map
        (fun op => op.attrs.Output_shift_scale) = Except.ok (some [F32.ofRatio 2 1]) ∧
    (ConvTransposeMKLDNNHandlerT.get_int8_scales
        (Sample.context Sample.reluAttrs [1, 1, 1, 1])).map (fun r => r.2.1) =
      Except.ok [F32.one] ∧
    [F32.ofRatio 2 1] ≠ [F32.one] := by
  refine ⟨by decide, by decide, by decide⟩

/-- C2: in `get_int8_scales`, for every context: whenever the locals are
computed, then with `force_fp32_output` true, `activation_scale = 1.0` and
`scale_out_data = 1.0`; with `force_fp32_output` false (or not set) and a
non-empty `fuse_activation`, `activation_scale = Scale_out` and
`scale_out_data = 1.0`; with `force_fp32_output` false and an empty
`fuse_activation`, `activation_scale = 1.0` and `scale_out_data = Scale_out`
(`Scale_out` read as 1.0 when the attribute is not set). The locals are computed
whenever the attributes `groups` and `fuse_activation`, read with `ctx.Attr`,
are set, and the third component of every returned tuple is that
`activation_scale`. -/
theorem get_int8_scales_routing (ctx : ExecutionContext) :
    (∀ l, ConvTransposeMKLDNNHandlerT.get_int8_scales_locals ctx = Except.ok l →
      (ctx.attrs.force_fp32_output = some true →
        l.activation_scale = F32.one ∧ l.scale_out_data = F32.one) ∧
      (ctx.attrs.force_fp32_output ≠ some true →
        ∀ fa, ctx.attrs.fuse_activation = some fa → fa ≠ "" →
          l.activation_scale = AttrOr ctx.attrs.Scale_out F32.one ∧
          l.scale_out_data = F32.one) ∧
      (ctx.attrs.force_fp32_output ≠ some true →
        ctx.attrs.fuse_activation = some "" →
          l.activation_scale = F32.one ∧
          l.scale_out_data = AttrOr ctx.attrs.Scale_out F32.one)) ∧
    (∀ g fa, ctx.attrs.groups = some g → ctx.attrs.fuse_activation = some fa →
      ∃ l, ConvTransposeMKLDNNHandlerT.get_int8_scales_locals ctx = Except.ok l) ∧
    (∀ r, ConvTransposeMKLDNNHandlerT.get_int8_scales ctx = Except.ok r →
      ∃ l, ConvTransposeMKLDNNHandlerT.get_int8_scales_locals ctx = Except.ok l ∧
        r.2.2 = l.activation_scale) := by
  refine ⟨?_, ?_, ?_⟩
  · intro l hl
    obtain ⟨g, fa, hg, hfa⟩ :=
      ConvTransposeMKLDNNHandlerT.get_int8_scales_locals_attrs ctx l hl
    obtain ⟨l2, hl2, -, hforce, -, -, -, -, hso, hact, has, hsod, -⟩ :=
      ConvTransposeMKLDNNHandlerT.get_int8_scales_locals_eq ctx g fa hg hfa
    rw [hl] at hl2
    cases hl2
    have hfalse : ctx.attrs.force_fp32_output ≠ some true → l.force_fp32_output = false := by
      intro hf
      rw [hforce, AttrOr_eq]
      cases hfo : ctx.attrs.force_fp32_output with
      | none => rfl
      | some b =>
        cases b with
        | false => rfl
        | true => exact absurd hfo hf
    refine ⟨?_, ?_, ?_⟩
    · intro hf
      rw [hf, AttrOr_eq] at hforce
      simp only [Option.getD] at hforce
      rw [has, hsod, hforce]
      simp
    · intro hf fa2 hfa2 hne
      rw [hfa] at hfa2
      cases hfa2
      have hact2 : l.has_activation = true := by
        rw [hact]; simp [empty, hne]
      rw [has, hsod, hfalse hf, hact2, hso]
      simp
    · intro hf he
      rw [hfa] at he
      cases he
      have hact2 : l.has_activation = false := by
        rw [hact]; simp [empty]
      rw [has, hsod, hfalse hf, hact2, hso]
      simp
  · intro g fa hg hfa
    obtain ⟨l, hl, -⟩ := ConvTransposeMKLDNNHandlerT.get_int8_scales_locals_eq ctx g fa hg hfa
    exact ⟨l, hl⟩
  · intro r hr
    obtain ⟨l, c, hl, -, -, -, h5⟩ := ConvTransposeMKLDNNHandlerT.get_int8_scales_ok ctx r hr
    exact ⟨l, hl, h5⟩

/-- Witness for C2: a context with a fused `relu` and `Scale_out = 2.0`. -/
theorem get_int8_scales_routing_witness :
    ∃ l, ConvTransposeMKLDNNHandlerT.get_int8_scales_locals
        (Sample.context Sample.reluAttrs [1, 1, 1, 1]) = Except.ok l ∧
      l.activation_scale = F32.ofRatio 2 1 ∧ l.scale_out_data = F32.one := by
  obtain ⟨h1, h2, -⟩ := get_int8_scales_routing (Sample.context Sample.reluAttrs [1, 1, 1, 1])
  obtain ⟨l, hl⟩ := h2 1 "relu" rfl rfl
  exact ⟨l, hl, (h1 l hl).2.1 (by decide) "relu" rfl (by decide)⟩

/-- C3, evaluated at `force_fp32_output = false`, `fuse_activation = "relu"` and
`Scale_out = 2.0`: the handler writes `Activation_scale = 1.0` and its
`scale_out_data` is `2.0`, where an activation is fused and the claim asks for
`Activation_scale = Scale_out = 2.0` and `scale_out_data = 1.0`; the local
`has_activation` is false although `fuse_activation` is not empty. -/
theorem handler_routing_with_fused_relu :
    (ConvInt8ScalesPass.handler true (Sample.conv Sample.reluAttrs) ⟨[1, 1, 1, 1]⟩).map
        (fun op => op.attrs.Activation_scale) = Except.ok (some F32.one) ∧
    ConvInt8ScalesPass.scale_out_data (Sample.conv Sample.reluAttrs) = F32.ofRatio 2 1 ∧
    ConvInt8ScalesPass.has_activation (Sample.conv Sample.reluAttrs) = false ∧
    Sample.reluAttrs.Scale_out = some (F32.ofRatio 2 1) ∧
    F32.ofRatio 2 1 ≠ F32.one := by
  refine ⟨by decide, by decide, by decide, by decide, by decide⟩

namespace ConvInt8ScalesPass

/-- The handler's `count` is the specified channel count converted to `int`. -/
theorem count_eq (conv_op : OpDesc) (conv_filter : VarDesc)
    (hw : 2 ≤ conv_filter.shape.length) :
    count conv_op conv_filter = Except.ok (toInt32 (spec_channel_count
      (GetAttrIfExists conv_op.attrs.groups 0) conv_filter.shape
      (scale_weights_data conv_op).length)) := by
  obtain ⟨w0, h0, h0'⟩ := vecAt_of_lt conv_filter.shape 0 (by omega)
  obtain ⟨w1, h1, h1'⟩ := vecAt_of_lt conv_filter.shape 1 (by omega)
  have e0 : conv_filter.shape.getD 0 0 = w0 := by simp [List.getD, h0']
  have e1 : conv_filter.shape.getD 1 0 = w1 := by simp [List.getD, h1']
  unfold count spec_channel_count
  simp only [is_multi_channel, groups, h0, h1, e0, e1, decide_eq_true_eq]
  by_cases hm : (scale_weights_data conv_op).length > 1
  · simp only [hm, if_true]
    by_cases hgr : max (GetAttrIfExists conv_op.attrs.groups 0) 1 > 1
    · simp only [hgr, if_true]
      rw [toInt32_mul_toInt32, toInt32_toInt64, mul_comm]
    · simp only [hgr, if_false]
      rw [toInt32_toInt64, one_mul]
  · simp only [hm, if_false]
    rfl

end ConvInt8ScalesPass

namespace ConvTransposeMKLDNNHandlerT

/-- The `count` of `get_int8_scales` is the specified channel count converted to `int`. -/
theorem get_int8_scales_count_eq (l : Int8ScalesLocals)
    (hm : l.is_multi_channel = decide (l.scale_weights_data.length > 1))
    (hw : 2 ≤ l.weights_tz.length) :
    get_int8_scales_count l = Except.ok (toInt32 (spec_channel_count
      l.groups l.weights_tz l.scale_weights_data.length)) := by
  obtain ⟨w0, h0, h0'⟩ := vecAt_of_lt l.weights_tz 0 (by omega)
  obtain ⟨w1, h1, h1'⟩ := vecAt_of_lt l.weights_tz 1 (by omega)
  have e0 : l.weights_tz.getD 0 0 = w0 := by simp [List.getD, h0']
  have e1 : l.weights_tz.getD 1 0 = w1 := by simp [List.getD, h1']
  unfold get_int8_scales_count spec_channel_count
  simp only [hm, h0, h1, e0, e1, decide_eq_true_eq]
  by_cases hmc : l.scale_weights_data.length > 1
  · simp only [hmc, if_true]
    by_cases hgr : l.groups > 1
    · have hgr2 : max l.groups 1 > 1 := by omega
      simp only [hgr, hgr2, if_true]
      rw [toInt32_toInt64, mul_comm]
    · have hgr2 : ¬ max l.groups 1 > 1 := by omega
      simp only [hgr, hgr2, if_false]
  · simp only [hmc, if_false]
    rfl

end ConvTransposeMKLDNNHandlerT

/-- C4 as stated fails at `groups = 2`, filter shape `[65536, 65536, 1, 1]` and
two weight scales: the product `w[0] * w[1] = 4294967296` does not fit the `int`
variable `count`, both derivations produce an empty vector, and the stated
channel count is 4294967296. -/
theorem channel_count_overflow :
    (ConvInt8ScalesPass.handler true (Sample.conv (Sample.groupedAttrs 2 2))
        ⟨[65536, 65536, 1, 1]⟩).map (fun op => op.attrs.Output_shift_scale) =
      Except.ok (some []) ∧
    (ConvTransposeMKLDNNHandlerT.get_int8_scales
        (Sample.context (Sample.groupedAttrs 2 2) [65536, 65536, 1, 1])).map (fun r => r.2.1) =
      Except.ok [] ∧
    spec_channel_count 2 [65536, 65536, 1, 1] 2 = 4294967296 ∧
    (([] : List F32).length : Int) ≠ spec_channel_count 2 [65536, 65536, 1, 1] 2 := by
  refine ⟨by decide, by decide, by decide, by decide⟩

/-- C4, amended: for every `groups` value, every filter shape with at least two
dimensions and every `Scale_weights` vector such that the specified channel
count (1, `w[0] * w[1]` or `w[0]`) lies in `[0, 2^31)`, every
`output_shift_scale` vector that the pass handler writes or `get_int8_scales`
returns has that length; the handler produces one whenever `Scale_weights` has
at least that many elements, and so does `get_int8_scales` when moreover the
attributes `groups` and `fuse_activation` are set. -/
theorem output_shift_scale_length (conv_op : OpDesc) (conv_filter : VarDesc)
    (ctx : ExecutionContext)
    (hw : 2 ≤ conv_filter.shape.length) (hw2 : 2 ≤ ctx.Filter.dims.length)
    (hr : 0 ≤ spec_channel_count (GetAttrIfExists conv_op.attrs.groups 0) conv_filter.shape
            (GetAttrIfExists conv_op.attrs.Scale_weights []).length ∧
          spec_channel_count (GetAttrIfExists conv_op.attrs.groups 0) conv_filter.shape
            (GetAttrIfExists conv_op.attrs.Scale_weights []).length < 2147483648)
    (hr2 : 0 ≤ spec_channel_count (AttrOr ctx.attrs.groups 1) ctx.Filter.dims
            (AttrOr ctx.attrs.Scale_weights [F32.zero]).length ∧
          spec_channel_count (AttrOr ctx.attrs.groups 1) ctx.Filter.dims
            (AttrOr ctx.attrs.Scale_weights [F32.zero]).length < 2147483648) :
    (∀ op, ConvInt8ScalesPass.handler true conv_op conv_filter = Except.ok op →
      ∃ osc, op.attrs.Output_shift_scale = some osc ∧
        (osc.length : Int) = spec_channel_count (GetAttrIfExists conv_op.attrs.groups 0)
          conv_filter.shape (GetAttrIfExists conv_op.attrs.Scale_weights []).length) ∧
    (spec_channel_count (GetAttrIfExists conv_op.attrs.groups 0) conv_filter.shape
        (GetAttrIfExists conv_op.attrs.Scale_weights []).length ≤
          (GetAttrIfExists conv_op.attrs.Scale_weights []).length →
      ∃ op, ConvInt8ScalesPass.handler true conv_op conv_filter = Except.ok op) ∧
    (∀ r, ConvTransposeMKLDNNHandlerT.get_int8_scales ctx = Except.ok r →
      (r.2.1.length : Int) = spec_channel_count (AttrOr ctx.attrs.groups 1)
        ctx.Filter.dims (AttrOr ctx.attrs.Scale_weights [F32.zero]).length) ∧
    (ctx.attrs.groups.isSome = true → ctx.attrs.fuse_activation.isSome = true →
      spec_channel_count (AttrOr ctx.attrs.groups 1) ctx.Filter.dims
        (AttrOr ctx.attrs.Scale_weights [F32.zero]).length ≤
          (AttrOr ctx.attrs.Scale_weights [F32.zero]).length →
      ∃ r, ConvTransposeMKLDNNHandlerT.get_int8_scales ctx = Except.ok r) := by
  have hcount := ConvInt8ScalesPass.count_eq conv_op conv_filter hw
  rw [show ConvInt8ScalesPass.scale_weights_data conv_op =
    GetAttrIfExists conv_op.attrs.Scale_weights [] from rfl,
    toInt32_of_range _ (by omega) hr.2] at hcount
  have hk : ∀ l, ConvTransposeMKLDNNHandlerT.get_int8_scales_locals ctx = Except.ok l →
      l.scale_weights_data = AttrOr ctx.attrs.Scale_weights [F32.zero] ∧
      ConvTransposeMKLDNNHandlerT.get_int8_scales_count l = Except.ok (spec_channel_count
        (AttrOr ctx.attrs.groups 1) ctx.Filter.dims
        (AttrOr ctx.attrs.Scale_weights [F32.zero]).length) := by
    intro l hl
    cases hg : ctx.attrs.groups with
    | none =>
      simp [ConvTransposeMKLDNNHandlerT.get_int8_scales_locals, hg, Attr] at hl
    | some g =>
      cases hfa : ctx.attrs.fuse_activation with
      | none =>
        simp [ConvTransposeMKLDNNHandlerT.get_int8_scales_locals, hg, hfa, Attr] at hl
      | some fa =>
        obtain ⟨l2, hl2, hwz, -, hgr, -, hsw, hm, -⟩ :=
          ConvTransposeMKLDNNHandlerT.get_int8_scales_locals_eq ctx g fa hg hfa
        rw [hl] at hl2
        cases hl2
        have hc := ConvTransposeMKLDNNHandlerT.get_int8_scales_count_eq l hm (by rw [hwz]; exact hw2)
        have hsp : spec_channel_count l.groups l.weights_tz l.scale_weights_data.length =
            spec_channel_count (AttrOr ctx.attrs.groups 1) ctx.Filter.dims
              (AttrOr ctx.attrs.Scale_weights [F32.zero]).length := by
          rw [hwz, hsw, hgr, hg]
          simp only [spec_channel_count, AttrOr_eq, Option.getD]
          have : max (max g 1) 1 = max g 1 := by omega
          rw [this]
        rw [hsp, toInt32_of_range _ (by omega) hr2.2] at hc
        rw [hg] at hc
        exact ⟨hsw, hc⟩
  refine ⟨?_, ?_, ?_, ?_⟩
  · intro op hop
    obtain ⟨c, hb, osc, hc, -, hosc, hattr, -⟩ := ConvInt8ScalesPass.handler_ok _ _ _ hop
    rw [hcount] at hc
    cases hc
    obtain ⟨-, hlen, -⟩ := ConvInt8ScalesPass.output_shift_scale_elem _ _ _ hosc
    exact ⟨osc, hattr, hlen⟩
  · intro hlen
    exact ConvInt8ScalesPass.handler_total conv_op conv_filter _ hcount hr.1 hlen
  · intro r hres
    obtain ⟨l, c, hl, hc, hloop, -, -⟩ := ConvTransposeMKLDNNHandlerT.get_int8_scales_ok ctx r hres
    rw [(hk l hl).2] at hc
    cases hc
    exact (ConvTransposeMKLDNNHandlerT.get_int8_scales_loop_elem _ _ _ hloop).2.1
  · intro hg hfa hlen
    obtain ⟨g, hg⟩ := Option.isSome_iff_exists.1 hg
    obtain ⟨fa, hfa⟩ := Option.isSome_iff_exists.1 hfa
    obtain ⟨l, hl, -⟩ := ConvTransposeMKLDNNHandlerT.get_int8_scales_locals_eq ctx g fa hg hfa
    obtain ⟨hsw, hc⟩ := hk l hl
    obtain ⟨osc, hosc⟩ := ConvTransposeMKLDNNHandlerT.get_int8_scales_total ctx l _ hl hc hr2.1
      (by rw [hsw]; exact hlen)
    exact ⟨_, hosc⟩

/-- Witness for C4: `groups = 4`, filter shape `[8, 2, 3, 3]` and 16 weight
scales; both derivations produce a vector of length 16. -/
theorem output_shift_scale_length_witness :
    (∃ op osc, ConvInt8ScalesPass.handler true (Sample.conv (Sample.groupedAttrs 4 16))
        ⟨[8, 2, 3, 3]⟩ = Except.ok op ∧ op.attrs.Output_shift_scale = some osc ∧
        (osc.length : Int) = 16) ∧
    (∃ r, ConvTransposeMKLDNNHandlerT.get_int8_scales
        (Sample.context (Sample.groupedAttrs 4 16) [8, 2, 3, 3]) = Except.ok r ∧
        (r.2.1.length : Int) = 16) := by
  obtain ⟨h1, h2, h3, h4⟩ := output_shift_scale_length (Sample.conv (Sample.groupedAttrs 4 16))
    ⟨[8, 2, 3, 3]⟩ (Sample.context (Sample.groupedAttrs 4 16) [8, 2, 3, 3])
    (by decide) (by decide) (by decide) (by decide)
  obtain ⟨op, hop⟩ := h2 (by decide)
  obtain ⟨osc, ho1, ho2⟩ := h1 op hop
  obtain ⟨r, hr⟩ := h4 (by decide) (by decide) (by decide)
  exact ⟨⟨op, osc, hop, ho1, by rw [ho2]; decide⟩, ⟨r, hr, by rw [h3 r hr]; decide⟩⟩

/-- Both derivations, element by element: every vector the handler writes and
every vector `get_int8_scales` returns holds, at each index, the value chosen
by the conditional of the loop body; and both complete when the channel count
is not negative and does not exceed the number of weight scales. -/
theorem output_shift_scale_elements (conv_op : OpDesc) (conv_filter : VarDesc)
    (ctx : ExecutionContext) :
    (∀ op, ConvInt8ScalesPass.handler true conv_op conv_filter = Except.ok op →
      ∃ osc, op.attrs.Output_shift_scale = some osc ∧
        ConvInt8ScalesPass.count conv_op conv_filter = Except.ok (osc.length : Int) ∧
        ∀ i, i < osc.length → ∃ w, (ConvInt8ScalesPass.scale_weights_data conv_op)[i]? = some w ∧
          osc[i]? = some (if F64.eq w.toDouble F64.zero
            then ConvInt8ScalesPass.scale_out_data conv_op
            else F64.toFloat (F64.div (ConvInt8ScalesPass.scale_out_data conv_op).toDouble
              (F64.mul (ConvInt8ScalesPass.scale_in_data conv_op).toDouble w.toDouble)))) ∧
    (∀ c, ConvInt8ScalesPass.count conv_op conv_filter = Except.ok c → 0 ≤ c →
      c ≤ (ConvInt8ScalesPass.scale_weights_data conv_op).length →
      ∃ op, ConvInt8ScalesPass.handler true conv_op conv_filter = Except.ok op) ∧
    (∀ r, ConvTransposeMKLDNNHandlerT.get_int8_scales ctx = Except.ok r →
      ∃ l, ConvTransposeMKLDNNHandlerT.get_int8_scales_locals ctx = Except.ok l ∧
        ConvTransposeMKLDNNHandlerT.get_int8_scales_count l = Except.ok (r.2.1.length : Int) ∧
        ∀ i, i < r.2.1.length → ∃ w, l.scale_weights_data[i]? = some w ∧
          r.2.1[i]? = some (if F64.eq w.toDouble F64.zero then l.scale_out_data
            else F64.toFloat (F64.div l.scale_out_data.toDouble
              (F64.mul l.scale_in_data.toDouble w.toDouble)))) ∧
    (∀ l c, ConvTransposeMKLDNNHandlerT.get_int8_scales_locals ctx = Except.ok l →
      ConvTransposeMKLDNNHandlerT.get_int8_scales_count l = Except.ok c → 0 ≤ c →
      c ≤ l.scale_weights_data.length →
      ∃ r, ConvTransposeMKLDNNHandlerT.get_int8_scales ctx = Except.ok r) := by
  refine ⟨?_, ?_, ?_, ?_⟩
  · intro op hop
    obtain ⟨c, hb, osc, hc, -, hosc, hattr, -⟩ := ConvInt8ScalesPass.handler_ok _ _ _ hop
    obtain ⟨-, hlen, hel⟩ := ConvInt8ScalesPass.output_shift_scale_elem _ _ _ hosc
    exact ⟨osc, hattr, by rw [hlen]; exact hc, hel⟩
  · intro c hc h0 hlen
    exact ConvInt8ScalesPass.handler_total conv_op conv_filter c hc h0 hlen
  · intro r hres
    obtain ⟨l, c, hl, hc, hloop, -, -⟩ := ConvTransposeMKLDNNHandlerT.get_int8_scales_ok ctx r hres
    obtain ⟨-, hlen, hel⟩ := ConvTransposeMKLDNNHandlerT.get_int8_scales_loop_elem _ _ _ hloop
    exact ⟨l, hl, by rw [hlen]; exact hc, hel⟩
  · intro l c hl hc h0 hlen
    obtain ⟨osc, hosc⟩ := ConvTransposeMKLDNNHandlerT.get_int8_scales_total ctx l c hl hc h0 hlen
    exact ⟨_, hosc⟩

/-- C5: in the pass handler and in `get_int8_scales`, for every channel index
`i` below the channel count whose weight scale compares equal to 0.0, element
`i` of the produced `output_shift_scale` is that derivation's `scale_out_data`:
the loop body takes the branch that stores `scale_out_data` and does not
evaluate the quotient. Both derivations produce the vector whenever the channel
count is not negative and `Scale_weights` has at least that many elements. -/
theorem zero_weight_scale_fallback (conv_op : OpDesc) (conv_filter : VarDesc)
    (ctx : ExecutionContext) :
    (∀ op, ConvInt8ScalesPass.handler true conv_op conv_filter = Except.ok op →
      ∃ osc, op.attrs.Output_shift_scale = some osc ∧
        ConvInt8ScalesPass.count conv_op conv_filter = Except.ok (osc.length : Int) ∧
        ∀ i w, i < osc.length → (ConvInt8ScalesPass.scale_weights_data conv_op)[i]? = some w →
          F64.eq w.toDouble F64.zero = true →
          osc[i]? = some (ConvInt8ScalesPass.scale_out_data conv_op)) ∧
    (∀ c, ConvInt8ScalesPass.count conv_op conv_filter = Except.ok c → 0 ≤ c →
      c ≤ (ConvInt8ScalesPass.scale_weights_data conv_op).length →
      ∃ op, ConvInt8ScalesPass.handler true conv_op conv_filter = Except.ok op) ∧
    (∀ r, ConvTransposeMKLDNNHandlerT.get_int8_scales ctx = Except.ok r →
      ∃ l, ConvTransposeMKLDNNHandlerT.get_int8_scales_locals ctx = Except.ok l ∧
        ConvTransposeMKLDNNHandlerT.get_int8_scales_count l = Except.ok (r.2.1.length : Int) ∧
        ∀ i w, i < r.2.1.length → l.scale_weights_data[i]? = some w →
          F64.eq w.toDouble F64.zero = true → r.2.1[i]? = some l.scale_out_data) ∧
    (∀ l c, ConvTransposeMKLDNNHandlerT.get_int8_scales_locals ctx = Except.ok l →
      ConvTransposeMKLDNNHandlerT.get_int8_scales_count l = Except.ok c → 0 ≤ c →
      c ≤ l.scale_weights_data.length →
      ∃ r, ConvTransposeMKLDNNHandlerT.get_int8_scales ctx = Except.ok r) := by
  obtain ⟨h1, h2, h3, h4⟩ := output_shift_scale_elements conv_op conv_filter ctx
  refine ⟨?_, h2, ?_, h4⟩
  · intro op hop
    obtain ⟨osc, ha, hc, hel⟩ := h1 op hop
    refine ⟨osc, ha, hc, ?_⟩
    intro i w hi hw hz
    obtain ⟨w2, hw2, hv⟩ := hel i hi
    rw [hw] at hw2
    cases hw2
    rw [hv, if_pos hz]
  · intro r hres
    obtain ⟨l, hl, hc, hel⟩ := h3 r hres
    refine ⟨l, hl, hc, ?_⟩
    intro i w hi hw hz
    obtain ⟨w2, hw2, hv⟩ := hel i hi
    rw [hw] at hw2
    cases hw2
    rw [hv, if_pos hz]

/-- Witness for C5: `Scale_weights = [0.0, 0.3]`, `Scale_in = 1.0`,
`Scale_out = 2.0`, no activation, filter shape `[2, 1, 1, 1]`;
`get_int8_scales` has `scale_out_data = 2.0` and returns a vector whose first
element is 2.0. -/
theorem zero_weight_scale_fallback_witness :
    ∃ r, ConvTransposeMKLDNNHandlerT.get_int8_scales
        (Sample.context Sample.zeroScaleAttrs [2, 1, 1, 1]) = Except.ok r ∧
      r.2.1[0]? = some (F32.ofRatio 2 1) := by
  obtain ⟨-, -, h3, h4⟩ := zero_weight_scale_fallback (Sample.conv Sample.zeroScaleAttrs)
    ⟨[2, 1, 1, 1]⟩ (Sample.context Sample.zeroScaleAttrs [2, 1, 1, 1])
  have hlocals : ∃ l, ConvTransposeMKLDNNHandlerT.get_int8_scales_locals
      (Sample.context Sample.zeroScaleAttrs [2, 1, 1, 1]) = Except.ok l ∧
      l.scale_weights_data = [F32.zero, F32.ofRatio 3 10] ∧
      l.scale_out_data = F32.ofRatio 2 1 ∧
      ConvTransposeMKLDNNHandlerT.get_int8_scales_count l = Except.ok 2 :=
    ⟨_, rfl, by decide, by decide, by decide⟩
  obtain ⟨l, hl, hsw, hsod, hc⟩ := hlocals
  obtain ⟨r, hr⟩ := h4 l 2 hl hc (by decide) (by rw [hsw]; decide)
  obtain ⟨l2, hl2, hc2, hel⟩ := h3 r hr
  rw [hl] at hl2
  cases hl2
  rw [hc] at hc2
  have hlen : (2 : Int) = (r.2.1.length : Int) := Except.ok.inj hc2
  have h0 := hel 0 F32.zero (by omega) (by rw [hsw]; rfl) (by decide)
  exact ⟨r, hr, by rw [h0, hsod]⟩

/-- C6: in the pass handler and in `get_int8_scales`, for every channel index
`i` below the channel count whose weight scale does not compare equal to 0.0,
element `i` of the produced `output_shift_scale` is the `float` narrowing of the
`double` quotient `scale_out_data / (Scale_in * Scale_weights[i])`, each operand
widened to `double` first. Both derivations produce the vector whenever the
channel count is not negative and `Scale_weights` has at least that many
elements. -/
theorem nonzero_weight_scale_quotient (conv_op : OpDesc) (conv_filter : VarDesc)
    (ctx : ExecutionContext) :
    (∀ op, ConvInt8ScalesPass.handler true conv_op conv_filter = Except.ok op →
      ∃ osc, op.attrs.Output_shift_scale = some osc ∧
        ConvInt8ScalesPass.count conv_op conv_filter = Except.ok (osc.length : Int) ∧
        ∀ i w, i < osc.length → (ConvInt8ScalesPass.scale_weights_data conv_op)[i]? = some w →
          F64.eq w.toDouble F64.zero = false →
          osc[i]? = some (F64.toFloat (F64.div
            (ConvInt8ScalesPass.scale_out_data conv_op).toDouble
            (F64.mul (ConvInt8ScalesPass.scale_in_data conv_op).toDouble w.toDouble)))) ∧
    (∀ c, ConvInt8ScalesPass.count conv_op conv_filter = Except.ok c → 0 ≤ c →
      c ≤ (ConvInt8ScalesPass.scale_weights_data conv_op).length →
      ∃ op, ConvInt8ScalesPass.handler true conv_op conv_filter = Except.ok op) ∧
    (∀ r, ConvTransposeMKLDNNHandlerT.get_int8_scales ctx = Except.ok r →
      ∃ l, ConvTransposeMKLDNNHandlerT.get_int8_scales_locals ctx = Except.ok l ∧
        ConvTransposeMKLDNNHandlerT.get_int8_scales_count l = Except.ok (r.2.1.length : Int) ∧
        ∀ i w, i < r.2.1.length → l.scale_weights_data[i]? = some w →
          F64.eq w.toDouble F64.zero = false →
          r.2.1[i]? = some (F64.toFloat (F64.div l.scale_out_data.toDouble
            (F64.mul l.scale_in_data.toDouble w.toDouble)))) ∧
    (∀ l c, ConvTransposeMKLDNNHandlerT.get_int8_scales_locals ctx = Except.ok l →
      ConvTransposeMKLDNNHandlerT.get_int8_scales_count l = Except.ok c → 0 ≤ c →
      c ≤ l.scale_weights_data.length →
      ∃ r, ConvTransposeMKLDNNHandlerT.get_int8_scales ctx = Except.ok r) := by
  obtain ⟨h1, h2, h3, h4⟩ := output_shift_scale_elements conv_op conv_filter ctx
  refine ⟨?_, h2, ?_, h4⟩
  · intro op hop
    obtain ⟨osc, ha, hc, hel⟩ := h1 op hop
    refine ⟨osc, ha, hc, ?_⟩
    intro i w hi hw hz
    obtain ⟨w2, hw2, hv⟩ := hel i hi
    rw [hw] at hw2
    cases hw2
    rw [hv, hz]
    rfl
  · intro r hres
    obtain ⟨l, hl, hc, hel⟩ := h3 r hres
    refine ⟨l, hl, hc, ?_⟩
    intro i w hi hw hz
    obtain ⟨w2, hw2, hv⟩ := hel i hi
    rw [hw] at hw2
    cases hw2
    rw [hv, hz]
    rfl

/-- Witness for C6: `Scale_in = 2.0`, `Scale_weights = [0.5]`, `Scale_out = 1.0`,
`force_fp32_output = false`, no activation; `get_int8_scales` returns a vector
of length 1 whose element is 1.0. -/
theorem nonzero_weight_scale_quotient_witness :
    ∃ r, ConvTransposeMKLDNNHandlerT.get_int8_scales
        (Sample.context Sample.plainAttrs [1, 1, 1, 1]) = Except.ok r ∧
      (r.2.1.length : Int) = 1 ∧ r.2.1[0]? = some F32.one := by
  obtain ⟨-, -, h3, h4⟩ := nonzero_weight_scale_quotient (Sample.conv Sample.plainAttrs)
    ⟨[1, 1, 1, 1]⟩ (Sample.context Sample.plainAttrs [1, 1, 1, 1])
  have hlocals : ∃ l, ConvTransposeMKLDNNHandlerT.get_int8_scales_locals
      (Sample.context Sample.plainAttrs [1, 1, 1, 1]) = Except.ok l ∧
      l.scale_weights_data = [F32.ofRatio 1 2] ∧
      l.scale_out_data = F32.one ∧ l.scale_in_data = F32.ofRatio 2 1 ∧
      ConvTransposeMKLDNNHandlerT.get_int8_scales_count l = Except.ok 1 :=
    ⟨_, rfl, by decide, by decide, by decide, by decide⟩
  obtain ⟨l, hl, hsw, hsod, hsin, hc⟩ := hlocals
  obtain ⟨r, hr⟩ := h4 l 1 hl hc (by decide) (by rw [hsw]; decide)
  obtain ⟨l2, hl2, hc2, hel⟩ := h3 r hr
  rw [hl] at hl2
  cases hl2
  rw [hc] at hc2
  have hlen : (1 : Int) = (r.2.1.length : Int) := Except.ok.inj hc2
  have h0 := hel 0 (F32.ofRatio 1 2) (by omega) (by rw [hsw]; rfl) (by decide)
  refine ⟨r, hr, hlen.symm, ?_⟩
  rw [h0, hsod, hsin]
  decide

/-- C7: in the pass handler the `Sum_scale` attribute written is
`scale_out_data / Scale_in_eltwise` (single precision) when
`fuse_residual_connection` is true and 1.0 when it is false or not set,
whatever the other inputs; the handler writes it whenever the channel count is
not negative and `Scale_weights` has at least that many elements. -/
theorem handler_sum_scale (conv_op : OpDesc) (conv_filter : VarDesc) :
    (∀ op, ConvInt8ScalesPass.handler true conv_op conv_filter = Except.ok op →
      (conv_op.attrs.fuse_residual_connection = some true →
        op.attrs.Sum_scale = some (F32.div (ConvInt8ScalesPass.scale_out_data conv_op)
          (GetAttrIfExists conv_op.attrs.Scale_in_eltwise F32.zero))) ∧
      (conv_op.attrs.fuse_residual_connection ≠ some true →
        op.attrs.Sum_scale = some F32.one)) ∧
    (∀ c, ConvInt8ScalesPass.count conv_op conv_filter = Except.ok c → 0 ≤ c →
      c ≤ (ConvInt8ScalesPass.scale_weights_data conv_op).length →
      ∃ op, ConvInt8ScalesPass.handler true conv_op conv_filter = Except.ok op) := by
  refine ⟨?_, fun c hc h0 hlen =>
    ConvInt8ScalesPass.handler_total conv_op conv_filter c hc h0 hlen⟩
  intro op hop
  obtain ⟨c, hb, osc, -, -, -, -, hsum, -⟩ := ConvInt8ScalesPass.handler_ok _ _ _ hop
  rw [hsum]
  constructor
  · intro hf
    simp [ConvInt8ScalesPass.sum_scale, ConvInt8ScalesPass.fuse_residual_conn,
      ConvInt8ScalesPass.scale_in_eltwise_data, GetAttrIfExists, hf]
  · intro hf
    have : ConvInt8ScalesPass.fuse_residual_conn conv_op = false := by
      unfold ConvInt8ScalesPass.fuse_residual_conn GetAttrIfExists
      cases hfr : conv_op.attrs.fuse_residual_connection with
      | none => rfl
      | some b =>
        cases b with
        | false => rfl
        | true => exact absurd hfr hf
    simp [ConvInt8ScalesPass.sum_scale, this]

/-- Witness for C7: with `fuse_residual_connection = true`, `scale_out_data = 4.0`
and `Scale_in_eltwise = 2.0` the handler writes `Sum_scale = 2.0`. -/
theorem handler_sum_scale_witness :
    ConvInt8ScalesPass.scale_out_data (Sample.conv Sample.residualAttrs) = F32.ofRatio 4 1 ∧
    ∃ op, ConvInt8ScalesPass.handler true (Sample.conv Sample.residualAttrs) ⟨[1, 1, 1, 1]⟩ =
        Except.ok op ∧ op.attrs.Sum_scale = some (F32.ofRatio 2 1) := by
  obtain ⟨h1, h2⟩ := handler_sum_scale (Sample.conv Sample.residualAttrs) ⟨[1, 1, 1, 1]⟩
  obtain ⟨op, hop⟩ := h2 1 (by decide) (by decide) (by decide)
  refine ⟨by decide, op, hop, ?_⟩
  rw [(h1 op hop).1 (by decide)]
  decide

namespace ConvInt8ScalesPass

end ConvInt8ScalesPass

theorem getElem?_append_add {α : Type} (l xs : List α) (k : Nat) :
    (l ++ xs)[l.length + k]? = xs[k]? := by
  rw [List.getElem?_append_right (by omega)]
  simp

namespace MKLDNNDeviceContext

theorem GetBlob_SetBlob (dev_ctx : MKLDNNDeviceContext) (key : String) (p : Nat) :
    (dev_ctx.SetBlob key p).GetBlob key = some p := by
  simp [GetBlob, SetBlob, List.lookup]

theorem executed_SetBlob (dev_ctx : MKLDNNDeviceContext) (key : String) (p : Nat) :
    (dev_ctx.SetBlob key p).executed = dev_ctx.executed := rfl

theorem heap_SetBlob (dev_ctx : MKLDNNDeviceContext) (key : String) (p : Nat) :
    (dev_ctx.SetBlob key p).heap = dev_ctx.heap := rfl

/-- Executing a reorder that was just created between two memories that were
just created succeeds and adds one entry to the log. -/
theorem execute_ok (dev_ctx : MKLDNNDeviceContext) (reorder_p src dst : Nat) (pd : ReorderDesc)
    (d1 d2 : MemoryDesc) (h1 h2 : Option Nat)
    (hr : dev_ctx.heap[reorder_p]? = some (Blob.reorder pd))
    (hs : dev_ctx.heap[src]? = some (Blob.memory d1 h1))
    (hd : dev_ctx.heap[dst]? = some (Blob.memory d2 h2)) :
    dev_ctx.execute reorder_p src dst = Except.ok { dev_ctx with executed := dev_ctx.executed ++
      [{ reorder_p := reorder_p, src := src, src_memory := Blob.memory d1 h1, dst := dst }] } := by
  simp only [execute, hr, hs, hd]

end MKLDNNDeviceContext

namespace ConvTransposeMKLDNNHandlerT

/-- A call that finds the target entry and is persistent returns the stored
pointer and leaves the device context as it was. -/
theorem AcquireMemoryWithReorder_persistent_hit (self : ConvTransposeMKLDNNHandlerT)
    (dev_ctx : MKLDNNDeviceContext) (user_md target_md : MemoryDesc) (ptr : Nat)
    (key suffix : String) (scale_data : List F32) (mask : Int) (target : Nat)
    (h : dev_ctx.GetBlob (key ++ suffix ++ "_target") = some target) :
    self.AcquireMemoryWithReorder dev_ctx user_md target_md ptr key suffix true scale_data mask =
      Except.ok (target, dev_ctx) := by
  simp only [AcquireMemoryWithReorder, h, Bool.not_true, Bool.false_eq_true, if_false]

/-- A call that finds no target entry completes, executes at most one reorder
and leaves a target entry behind. -/
theorem AcquireMemoryWithReorder_miss (self : ConvTransposeMKLDNNHandlerT)
    (dev_ctx : MKLDNNDeviceContext) (user_md target_md : MemoryDesc) (ptr : Nat)
    (key suffix : String) (is_persistent : Bool) (scale_data : List F32) (mask : Int)
    (h : dev_ctx.GetBlob (key ++ suffix ++ "_target") = none) :
    ∃ target dev_ctx1,
      self.AcquireMemoryWithReorder dev_ctx user_md target_md ptr key suffix is_persistent
        scale_data mask = Except.ok (target, dev_ctx1) ∧
      dev_ctx1.GetBlob (key ++ suffix ++ "_target") = some target ∧
      dev_ctx1.executed.length ≤ dev_ctx.executed.length + 1 := by
  by_cases hmd : user_md = target_md
  · have e : self.AcquireMemoryWithReorder dev_ctx user_md target_md ptr key suffix is_persistent
        scale_data mask = Except.ok (dev_ctx.heap.length,
          (((dev_ctx.make_shared (Blob.memory user_md (some ptr))).2.SetBlob
            (key ++ suffix ++ "_user") dev_ctx.heap.length).SetBlob
            (key ++ suffix ++ "_target") dev_ctx.heap.length)) := by
      simp only [AcquireMemoryWithReorder, h, MKLDNNDeviceContext.make_shared, hmd, ne_eq,
        not_true_eq_false, if_false]
    exact ⟨_, _, e, MKLDNNDeviceContext.GetBlob_SetBlob _ _ _,
      by simp [MKLDNNDeviceContext.SetBlob, MKLDNNDeviceContext.make_shared]⟩
  · have hex := MKLDNNDeviceContext.execute_ok
      ((({ dev_ctx with heap := dev_ctx.heap ++ [Blob.memory user_md (some ptr)] ++
          [Blob.memory target_md none] ++
          [Blob.reorder (if is_int8 self.T then
            { src := user_md, dst := target_md, output_scales := some (mask, scale_data) }
            else { src := user_md, dst := target_md, output_scales := none })] } :
          MKLDNNDeviceContext)).SetBlob (key ++ suffix ++ "reorder_p") (dev_ctx.heap.length + 2))
      (dev_ctx.heap.length + 2) dev_ctx.heap.length (dev_ctx.heap.length + 1)
      (if is_int8 self.T then
            { src := user_md, dst := target_md, output_scales := some (mask, scale_data) }
            else { src := user_md, dst := target_md, output_scales := none })
      user_md target_md (some ptr) none
      (by
        have := getElem?_append_add dev_ctx.heap [Blob.memory user_md (some ptr),
          Blob.memory target_md none, Blob.reorder (if is_int8 self.T then
            { src := user_md, dst := target_md, output_scales := some (mask, scale_data) }
            else { src := user_md, dst := target_md, output_scales := none })] 2
        simpa [MKLDNNDeviceContext.SetBlob] using this)
      (by
        have := getElem?_append_add dev_ctx.heap [Blob.memory user_md (some ptr),
          Blob.memory target_md none, Blob.reorder (if is_int8 self.T then
            { src := user_md, dst := target_md, output_scales := some (mask, scale_data) }
            else { src := user_md, dst := target_md, output_scales := none })] 0
        simpa [MKLDNNDeviceContext.SetBlob] using this)
      (by
        have := getElem?_append_add dev_ctx.heap [Blob.memory user_md (some ptr),
          Blob.memory target_md none, Blob.reorder (if is_int8 self.T then
            { src := user_md, dst := target_md, output_scales := some (mask, scale_data) }
            else { src := user_md, dst := target_md, output_scales := none })] 1
        simpa [MKLDNNDeviceContext.SetBlob] using this)
    obtain ⟨dev_ctx5, hex5, hlen⟩ : ∃ dev_ctx5 : MKLDNNDeviceContext,
        ((({ dev_ctx with heap := dev_ctx.heap ++ [Blob.memory user_md (some ptr)] ++
          [Blob.memory target_md none] ++
          [Blob.reorder (if is_int8 self.T then
            { src := user_md, dst := target_md, output_scales := some (mask, scale_data) }
            else { src := user_md, dst := target_md, output_scales := none })] } :
          MKLDNNDeviceContext)).SetBlob (key ++ suffix ++ "reorder_p")
            (dev_ctx.heap.length + 2)).execute
          (dev_ctx.heap.length + 2) dev_ctx.heap.length (dev_ctx.heap.length + 1) =
            Except.ok dev_ctx5 ∧
        dev_ctx5.executed.length = dev_ctx.executed.length + 1 :=
      ⟨_, hex, by simp [MKLDNNDeviceContext.SetBlob]⟩
    have e : self.AcquireMemoryWithReorder dev_ctx user_md target_md ptr key suffix is_persistent
          scale_data mask = Except.ok (dev_ctx.heap.length + 1,
            ((dev_ctx5.SetBlob (key ++ suffix ++ "_user") dev_ctx.heap.length).SetBlob
              (key ++ suffix ++ "_target") (dev_ctx.heap.length + 1))) := by
      simp only [AcquireMemoryWithReorder, h, MKLDNNDeviceContext.make_shared, ne_eq, hmd,
        not_false_eq_true, if_true, List.length_append, List.length_singleton]
      rw [hex5]
    exact ⟨_, _, e, MKLDNNDeviceContext.GetBlob_SetBlob _ _ _,
      by simp [MKLDNNDeviceContext.SetBlob, hlen]⟩

end ConvTransposeMKLDNNHandlerT

/-- `GetWeightsTz` completes on a filter with four dimensions. -/
theorem GetWeightsTz_total (filter : Tensor) (groups : Int) (h : filter.dims.length = 4) :
    ∃ weights_tz, GetWeightsTz filter groups = Except.ok weights_tz := by
  obtain ⟨dims, layout, dtype, data⟩ := filter
  simp only at h
  match dims, h with
  | [a, b, c, d], _ =>
    by_cases hg : max groups 1 > 1
    · exact ⟨_, by simp [GetWeightsTz, GetGroupConvWeightsTz, vecSwap, hg]; rfl⟩
    · exact ⟨_, by simp [GetWeightsTz, GetGroupConvWeightsTz, vecSwap, hg]; rfl⟩

namespace ConvTransposeMKLDNNHandlerT

/-- A handler that the constructor returns was built with `is_test = true`
from a filter with four dimensions, and its `is_test_` member is true. -/
theorem construct_ok (platform : Platform) (T K T_out : DataType) (ctx : ExecutionContext)
    (input filter : Tensor) (bias : Option Tensor) (output : Tensor)
    (self : ConvTransposeMKLDNNHandlerT)
    (h : construct platform T K T_out ctx input filter bias output = Except.ok self) :
    self.is_test_ = true ∧ ctx.attrs.is_test = some true ∧ filter.dims.length = 4 := by
  unfold construct at h
  cases hc : construct_checks ctx input filter bias with
  | error e => simp only [hc] at h; cases h
  | ok is_test_ =>
    simp only [hc] at h
    cases ha : construct_attrs ctx with
    | error e => simp only [ha] at h; cases h
    | ok a =>
      simp only [ha] at h
      cases hp : construct_primitive platform T T_out is_test_ ctx input filter bias output a with
      | error e => simp only [hp] at h; cases h
      | ok fwd_pd =>
        simp only [hp] at h
        cases h
        simp only
        unfold construct_checks at hc
        cases hattr : ctx.attrs.is_test with
        | none => simp [hattr, Attr] at hc
        | some b =>
          simp only [hattr, Attr] at hc
          cases b with
          | false => simp [enforce] at hc
          | true =>
            by_cases hf : filter.dims.length = 4
            · by_cases h1 : input.layout = DataLayout.kMKLDNN
              · by_cases h2 : filter.layout = DataLayout.kMKLDNN
                · by_cases h3 : input.dims.length = 4
                  · cases bias with
                    | none =>
                      simp [enforce, hf, h1, h2, h3] at hc
                      exact ⟨hc, rfl, hf⟩
                    | some bt =>
                      by_cases h4 : bt.layout = DataLayout.kMKLDNN
                      · by_cases h5 : bt.dims.length = 1
                        · simp [enforce, hf, h1, h2, h3, h4, h5] at hc
                          exact ⟨hc, rfl, hf⟩
                        · simp [enforce, hf, h1, h2, h3, h4, h5] at hc
                      · simp [enforce, hf, h1, h2, h3, h4] at hc
                  · simp [enforce, h1, h2, h3] at hc
                · simp [enforce, h1, h2] at hc
              · simp [enforce, h1] at hc
            · by_cases h1 : input.layout = DataLayout.kMKLDNN
              · by_cases h2 : filter.layout = DataLayout.kMKLDNN
                · by_cases h3 : input.dims.length = 4
                  · simp [enforce, hf, h1, h2, h3] at hc
                  · simp [enforce, h1, h2, h3] at hc
                · simp [enforce, h1, h2] at hc
              · simp [enforce, h1] at hc

/-- With `is_test_` true and a target entry for the weights in the store, the
call returns the stored target and leaves the device context as it was. -/
theorem AcquireWeightsMemoryWithReorder_hit (self : ConvTransposeMKLDNNHandlerT)
    (dev_ctx : MKLDNNDeviceContext) (key : String) (filter : Tensor) (groups : Int)
    (scale_data : List F32) (target : Nat) (ht : self.is_test_ = true)
    (hd : filter.dims.length = 4)
    (h : dev_ctx.GetBlob (key ++ "@weights_mem_p" ++ "_target") = some target) :
    self.AcquireWeightsMemoryWithReorder dev_ctx key filter groups scale_data =
      Except.ok (target, dev_ctx) := by
  obtain ⟨tz, htz⟩ := GetWeightsTz_total filter groups hd
  simp only [AcquireWeightsMemoryWithReorder, htz, ht]
  exact AcquireMemoryWithReorder_persistent_hit self dev_ctx _ _ _ key "@weights_mem_p" _ _ target h

/-- With `is_test_` true and a target entry for the bias in the store, the call
returns the stored target and leaves the device context as it was. -/
theorem AcquireBiasMemoryWithReorder_hit (self : ConvTransposeMKLDNNHandlerT)
    (dev_ctx : MKLDNNDeviceContext) (key : String) (bias : Tensor)
    (scale_data : List F32) (target : Nat) (ht : self.is_test_ = true)
    (h : dev_ctx.GetBlob (key ++ "@bias_mem_p" ++ "_target") = some target) :
    self.AcquireBiasMemoryWithReorder dev_ctx key bias scale_data =
      Except.ok (target, dev_ctx) := by
  simp only [AcquireBiasMemoryWithReorder, ht]
  exact AcquireMemoryWithReorder_persistent_hit self dev_ctx _ _ _ key "@bias_mem_p" _ _ target h

/-- Once the weights target is stored, further calls change nothing. -/
theorem AcquireWeightsRepeatedly_hit (key : String) (target : Nat) :
    ∀ (calls : List (ConvTransposeMKLDNNHandlerT × Tensor × Int × List F32))
      (dev_ctx : MKLDNNDeviceContext),
      (∀ c ∈ calls, c.1.is_test_ = true ∧ c.2.1.dims.length = 4) →
      dev_ctx.GetBlob (key ++ "@weights_mem_p" ++ "_target") = some target →
      AcquireWeightsRepeatedly key dev_ctx calls = Except.ok dev_ctx := by
  intro calls
  induction calls with
  | nil => intro dev_ctx _ _; rfl
  | cons c rest ih =>
    intro dev_ctx hall h
    obtain ⟨self, filter, groups, scale_data⟩ := c
    have hc := hall (self, filter, groups, scale_data) (List.mem_cons_self _ _)
    simp only [AcquireWeightsRepeatedly,
      AcquireWeightsMemoryWithReorder_hit self dev_ctx key filter groups scale_data target
        hc.1 hc.2 h]
    exact ih dev_ctx (fun c hm => hall c (List.mem_cons_of_mem _ hm)) h

/-- Once the bias target is stored, further calls change nothing. -/
theorem AcquireBiasRepeatedly_hit (key : String) (target : Nat) :
    ∀ (calls : List (ConvTransposeMKLDNNHandlerT × Tensor × List F32))
      (dev_ctx : MKLDNNDeviceContext),
      (∀ c ∈ calls, c.1.is_test_ = true) →
      dev_ctx.GetBlob (key ++ "@bias_mem_p" ++ "_target") = some target →
      AcquireBiasRepeatedly key dev_ctx calls = Except.ok dev_ctx := by
  intro calls
  induction calls with
  | nil => intro dev_ctx _ _; rfl
  | cons c rest ih =>
    intro dev_ctx hall h
    obtain ⟨self, bias, scale_data⟩ := c
    have hc := hall (self, bias, scale_data) (List.mem_cons_self _ _)
    simp only [AcquireBiasRepeatedly,
      AcquireBiasMemoryWithReorder_hit self dev_ctx key bias scale_data target hc h]
    exact ih dev_ctx (fun c hm => hall c (List.mem_cons_of_mem _ hm)) h

/-- Any sequence of weights calls with one key completes and executes at most one reorder. -/
theorem AcquireWeightsRepeatedly_once (key : String)
    (calls : List (ConvTransposeMKLDNNHandlerT × Tensor × Int × List F32))
    (dev_ctx : MKLDNNDeviceContext)
    (hall : ∀ c ∈ calls, c.1.is_test_ = true ∧ c.2.1.dims.length = 4) :
    ∃ dev_ctx1, AcquireWeightsRepeatedly key dev_ctx calls = Except.ok dev_ctx1 ∧
      dev_ctx1.executed.length ≤ dev_ctx.executed.length + 1 := by
  cases calls with
  | nil => exact ⟨dev_ctx, rfl, by omega⟩
  | cons c rest =>
    obtain ⟨self, filter, groups, scale_data⟩ := c
    have hc := hall (self, filter, groups, scale_data) (List.mem_cons_self _ _)
    have hrest : ∀ c ∈ rest, c.1.is_test_ = true ∧ c.2.1.dims.length = 4 :=
      fun c hm => hall c (List.mem_cons_of_mem _ hm)
    cases hg : dev_ctx.GetBlob (key ++ "@weights_mem_p" ++ "_target") with
    | some target =>
      refine ⟨dev_ctx, ?_, by omega⟩
      exact AcquireWeightsRepeatedly_hit key target _ dev_ctx hall hg
    | none =>
      obtain ⟨tz, htz⟩ := GetWeightsTz_total filter groups hc.2
      obtain ⟨target, dev_ctx1, hcall, hstored, hlen⟩ :=
        AcquireMemoryWithReorder_miss self dev_ctx
          (MKLDNNMemDesc tz self.K
            (if max groups 1 = 1 then MKLDNNMemoryFormat.iohw else MKLDNNMemoryFormat.giohw))
          self.fwd_pd_.weights_desc filter.data key "@weights_mem_p" self.is_test_ scale_data 0 hg
      refine ⟨dev_ctx1, ?_, hlen⟩
      simp only [AcquireWeightsRepeatedly, AcquireWeightsMemoryWithReorder, htz, hcall]
      exact AcquireWeightsRepeatedly_hit key target rest dev_ctx1 hrest hstored

/-- Any sequence of bias calls with one key completes and executes at most one reorder. -/
theorem AcquireBiasRepeatedly_once (key : String)
    (calls : List (ConvTransposeMKLDNNHandlerT × Tensor × List F32))
    (dev_ctx : MKLDNNDeviceContext)
    (hall : ∀ c ∈ calls, c.1.is_test_ = true) :
    ∃ dev_ctx1, AcquireBiasRepeatedly key dev_ctx calls = Except.ok dev_ctx1 ∧
      dev_ctx1.executed.length ≤ dev_ctx.executed.length + 1 := by
  cases calls with
  | nil => exact ⟨dev_ctx, rfl, by omega⟩
  | cons c rest =>
    obtain ⟨self, bias, scale_data⟩ := c
    have hrest : ∀ c ∈ rest, c.1.is_test_ = true :=
      fun c hm => hall c (List.mem_cons_of_mem _ hm)
    cases hg : dev_ctx.GetBlob (key ++ "@bias_mem_p" ++ "_target") with
    | some target =>
      refine ⟨dev_ctx, ?_, by omega⟩
      exact AcquireBiasRepeatedly_hit key target _ dev_ctx hall hg
    | none =>
      obtain ⟨target, dev_ctx1, hcall, hstored, hlen⟩ :=
        AcquireMemoryWithReorder_miss self dev_ctx
          (MKLDNNMemDesc bias.dims self.K MKLDNNMemoryFormat.x)
          self.fwd_pd_.bias_desc bias.data key "@bias_mem_p" self.is_test_ scale_data 0 hg
      refine ⟨dev_ctx1, ?_, hlen⟩
      simp only [AcquireBiasRepeatedly, AcquireBiasMemoryWithReorder, hcall]
      exact AcquireBiasRepeatedly_hit key target rest dev_ctx1 hrest hstored

end ConvTransposeMKLDNNHandlerT

/-- C9, evaluated on a graph with one convolution node that the pattern
matches and the compatibility check accepts (`Scale_in = 1.0`,
`Scale_weights = [1.0]`, `Scale_out = 2.0`, fused `relu`, filter shape
`[1, 1, 1, 1]`): `ApplyImpl` returns the graph as it received it, for this and
for every other non-null graph; the node still has none of the attributes
`Sum_scale`, `Output_shift_scale`, `Activation_scale`, although the handler
applied to the node would write all three. On the null graph `ApplyImpl`
fails with `InvalidArgument`. -/
theorem ApplyImpl_does_not_run_handler :
    ConvInt8ScalesPass.ApplyImpl (fun _ => true)
        (some ⟨[⟨Sample.conv Sample.reluAttrs, ⟨[1, 1, 1, 1]⟩⟩]⟩) =
      Except.ok ⟨[⟨Sample.conv Sample.reluAttrs, ⟨[1, 1, 1, 1]⟩⟩]⟩ ∧
    (Sample.conv Sample.reluAttrs).attrs.Sum_scale = none ∧
    (Sample.conv Sample.reluAttrs).attrs.Output_shift_scale = none ∧
    (Sample.conv Sample.reluAttrs).attrs.Activation_scale = none ∧
    (ConvInt8ScalesPass.handler true (Sample.conv Sample.reluAttrs) ⟨[1, 1, 1, 1]⟩).map
        (fun op => (op.attrs.Sum_scale, op.attrs.Output_shift_scale, op.attrs.Activation_scale)) =
      Except.ok (some F32.one, some [F32.ofRatio 2 1], some F32.one) ∧
    (∀ (IsCompat : Subgraph → Bool) (g : Graph),
      ConvInt8ScalesPass.ApplyImpl IsCompat (some g) = Except.ok g) ∧
    (∀ IsCompat : Subgraph → Bool,
      ConvInt8ScalesPass.ApplyImpl IsCompat none = Except.error Error.InvalidArgument) := by
  refine ⟨rfl, rfl, rfl, rfl, by decide, fun _ _ => rfl, fun _ => rfl⟩

/-- C10: a handler that the constructor returned has `is_test_ = true` and was
built from a filter with four dimensions. For such a handler and every device
context whose store holds a target entry under `key + "@weights_mem_p" +
"_target"` (resp. `key + "@bias_mem_p" + "_target"`), the call of
`AcquireWeightsMemoryWithReorder` with the filter at any data pointer (resp. of
`AcquireBiasMemoryWithReorder` with any bias tensor) returns the stored target
and leaves the device context, its store, its objects and its log of executed
reorders, exactly as it was. Hence every sequence of weights calls (resp. bias
calls) with one key, from any device context, completes and adds at most one
reorder execution to the log. -/
theorem persistent_reorder_runs_once (platform : Platform) (T K T_out : DataType)
    (ctx : ExecutionContext) (input filter : Tensor) (bias : Option Tensor) (output : Tensor)
    (self : ConvTransposeMKLDNNHandlerT)
    (h : ConvTransposeMKLDNNHandlerT.construct platform T K T_out ctx input filter bias output =
      Except.ok self) :
    self.is_test_ = true ∧ ctx.attrs.is_test = some true ∧
    (∀ (dev_ctx : MKLDNNDeviceContext) (key : String) (target ptr : Nat) (groups : Int)
        (scale_data : List F32),
      dev_ctx.GetBlob (key ++ "@weights_mem_p" ++ "_target") = some target →
      self.AcquireWeightsMemoryWithReorder dev_ctx key { filter with data := ptr } groups
        scale_data = Except.ok (target, dev_ctx)) ∧
    (∀ (dev_ctx : MKLDNNDeviceContext) (key : String) (target : Nat) (b : Tensor)
        (scale_data : List F32),
      dev_ctx.GetBlob (key ++ "@bias_mem_p" ++ "_target") = some target →
      self.AcquireBiasMemoryWithReorder dev_ctx key b scale_data = Except.ok (target, dev_ctx)) ∧
    (∀ (dev_ctx : MKLDNNDeviceContext) (key : String) (calls : List (Nat × Int × List F32)),
      ∃ dev_ctx1, ConvTransposeMKLDNNHandlerT.AcquireWeightsRepeatedly key dev_ctx
          (calls.map (fun c => (self, { filter with data := c.1 }, c.2.1, c.2.2))) =
            Except.ok dev_ctx1 ∧
        dev_ctx1.executed.length ≤ dev_ctx.executed.length + 1) ∧
    (∀ (dev_ctx : MKLDNNDeviceContext) (key : String) (calls : List (Tensor × List F32)),
      ∃ dev_ctx1, ConvTransposeMKLDNNHandlerT.AcquireBiasRepeatedly key dev_ctx
          (calls.map (fun c => (self, c.1, c.2))) = Except.ok dev_ctx1 ∧
        dev_ctx1.executed.length ≤ dev_ctx.executed.length + 1) := by
  obtain ⟨ht, hattr, hd⟩ := ConvTransposeMKLDNNHandlerT.construct_ok _ _ _ _ _ _ _ _ _ _ h
  refine ⟨ht, hattr, ?_, ?_, ?_, ?_⟩
  · intro dev_ctx key target ptr groups scale_data hg
    exact ConvTransposeMKLDNNHandlerT.AcquireWeightsMemoryWithReorder_hit self dev_ctx key _
      groups scale_data target ht hd hg
  · intro dev_ctx key target b scale_data hg
    exact ConvTransposeMKLDNNHandlerT.AcquireBiasMemoryWithReorder_hit self dev_ctx key b
      scale_data target ht hg
  · intro dev_ctx key calls
    apply ConvTransposeMKLDNNHandlerT.AcquireWeightsRepeatedly_once
    intro c hc
    obtain ⟨c0, -, rfl⟩ := List.mem_map.1 hc
    exact ⟨ht, hd⟩
  · intro dev_ctx key calls
    apply ConvTransposeMKLDNNHandlerT.AcquireBiasRepeatedly_once
    intro c hc
    obtain ⟨c0, -, rfl⟩ := List.mem_map.1 hc
    exact ht

/-- Witness for C10: a handler built for an int8 inference context, and a device
context that already holds the reordered weights for key `"k"`; a call with the
filter at data pointer 9 returns the stored target 1 and the device context is
unchanged, and three calls from the empty device context execute one reorder at most. -/
theorem persistent_reorder_runs_once_witness :
    ∃ self, ConvTransposeMKLDNNHandlerT.construct Sample.platform DataType.s8 DataType.s8
        DataType.s8 (Sample.context Sample.inferenceAttrs [1, 1, 1, 1])
        (Sample.tensor [1, 1, 1, 1]) (Sample.tensor [1, 1, 1, 1]) none
        (Sample.tensor [1, 1, 1, 1]) = Except.ok self ∧
      self.AcquireWeightsMemoryWithReorder Sample.warmContext "k"
        { Sample.tensor [1, 1, 1, 1] with data := 9 } 1 [F32.one] =
          Except.ok (1, Sample.warmContext) ∧
      ∃ dev_ctx1, ConvTransposeMKLDNNHandlerT.AcquireWeightsRepeatedly "k" ⟨[], [], []⟩
          ([(7, 1, [F32.one]), (8, 1, [F32.one]), (9, 1, [F32.one])].map
            (fun c => (self, { Sample.tensor [1, 1, 1, 1] with data := c.1 }, c.2.1, c.2.2))) =
              Except.ok dev_ctx1 ∧
        dev_ctx1.executed.length ≤ 1 := by
  refine ⟨_, rfl, ?_⟩
  obtain ⟨-, -, h3, -, h5, -⟩ := persistent_reorder_runs_once Sample.platform DataType.s8
    DataType.s8 DataType.s8 (Sample.context Sample.inferenceAttrs [1, 1, 1, 1])
    (Sample.tensor [1, 1, 1, 1]) (Sample.tensor [1, 1, 1, 1]) none
    (Sample.tensor [1, 1, 1, 1]) _ rfl
  exact ⟨h3 Sample.warmContext "k" 1 9 1 [F32.one] (by decide),
    h5 ⟨[], [], []⟩ "k" [(7, 1, [F32.one]), (8, 1, [F32.one]), (9, 1, [F32.one])]⟩

/-! ### Blob names -/

theorem string_append_left_cancel (a b c : String) (h : a ++ b = a ++ c) : b = c := by
  have h2 := congrArg String.data h
  simp only [String.data_append] at h2
  exact String.ext (List.append_cancel_left h2)

theorem string_append_right_cancel (a b c : String) (h : b ++ a = c ++ a) : b = c := by
  have h2 := congrArg String.data h
  simp only [String.data_append] at h2
  exact String.ext (List.append_cancel_right h2)

/-- The three names that `AcquireMemoryWithReorder` derives from one key and
suffix are pairwise different. -/
theorem derived_names_ne (key suffix : String) :
    key ++ suffix ++ "_user" ≠ key ++ suffix ++ "_target" ∧
    key ++ suffix ++ "reorder_p" ≠ key ++ suffix ++ "_user" ∧
    key ++ suffix ++ "reorder_p" ≠ key ++ suffix ++ "_target" := by
  refine ⟨fun h => ?_, fun h => ?_, fun h => ?_⟩
  · exact absurd (string_append_left_cancel _ _ _ h) (by decide)
  · exact absurd (string_append_left_cancel _ _ _ h) (by decide)
  · exact absurd (string_append_left_cancel _ _ _ h) (by decide)

namespace MKLDNNDeviceContext

theorem lookup_filter_ne (blobs : List (String × Nat)) (key other : String) (h : other ≠ key) :
    (blobs.filter (fun entry => entry.1 != key)).lookup other = blobs.lookup other := by
  induction blobs with
  | nil => rfl
  | cons e rest ih =>
    obtain ⟨k, v⟩ := e
    by_cases hk : k = key
    · subst hk
      have h1 : (other == k) = false := by simpa using h
      simp [List.filter, List.lookup, h1, ih]
    · have h1 : (k != key) = true := by simpa using hk
      by_cases ho : other = k
      · subst ho
        simp [List.filter, h1, List.lookup]
      · have h2 : (other == k) = false := by simpa using ho
        simp [List.filter, h1, List.lookup, h2, ih]

/-- Storing under one key does not change what is stored under another. -/
theorem GetBlob_SetBlob_ne (dev_ctx : MKLDNNDeviceContext) (key other : String) (p : Nat)
    (h : other ≠ key) : (dev_ctx.SetBlob key p).GetBlob other = dev_ctx.GetBlob other := by
  have h1 : (other == key) = false := by simpa using h
  simp only [GetBlob, SetBlob, List.lookup, h1]
  exact lookup_filter_ne dev_ctx.blobs key other h

end MKLDNNDeviceContext

namespace ConvTransposeMKLDNNHandlerT

/-- The first access when the two descriptors are equal: the device context it leaves. -/
theorem AcquireMemoryWithReorder_miss_same (self : ConvTransposeMKLDNNHandlerT)
    (dev_ctx : MKLDNNDeviceContext) (md : MemoryDesc) (ptr : Nat)
    (key suffix : String) (is_persistent : Bool) (scale_data : List F32) (mask : Int)
    (h : dev_ctx.GetBlob (key ++ suffix ++ "_target") = none) :
    self.AcquireMemoryWithReorder dev_ctx md md ptr key suffix is_persistent scale_data mask =
      Except.ok (dev_ctx.heap.length,
        ((({ dev_ctx with heap := dev_ctx.heap ++ [Blob.memory md (some ptr)] } :
          MKLDNNDeviceContext).SetBlob (key ++ suffix ++ "_user") dev_ctx.heap.length).SetBlob
          (key ++ suffix ++ "_target") dev_ctx.heap.length)) := by
  simp only [AcquireMemoryWithReorder, h, MKLDNNDeviceContext.make_shared, ne_eq,
    not_true_eq_false, if_false]

/-- The first access when the two descriptors differ: the device context it leaves. -/
theorem AcquireMemoryWithReorder_miss_reorder (self : ConvTransposeMKLDNNHandlerT)
    (dev_ctx : MKLDNNDeviceContext) (user_md target_md : MemoryDesc) (ptr : Nat)
    (key suffix : String) (is_persistent : Bool) (scale_data : List F32) (mask : Int)
    (h : dev_ctx.GetBlob (key ++ suffix ++ "_target") = none) (hmd : user_md ≠ target_md) :
    self.AcquireMemoryWithReorder dev_ctx user_md target_md ptr key suffix is_persistent
        scale_data mask =
      Except.ok (dev_ctx.heap.length + 1,
        (({ (({ dev_ctx with heap := dev_ctx.heap ++ [Blob.memory user_md (some ptr)] ++
            [Blob.memory target_md none] ++
            [Blob.reorder (if is_int8 self.T then
              { src := user_md, dst := target_md, output_scales := some (mask, scale_data) }
              else { src := user_md, dst := target_md, output_scales := none })] } :
            MKLDNNDeviceContext).SetBlob (key ++ suffix ++ "reorder_p")
              (dev_ctx.heap.length + 2)) with
          executed := dev_ctx.executed ++
            [{ reorder_p := dev_ctx.heap.length + 2, src := dev_ctx.heap.length,
               src_memory := Blob.memory user_md (some ptr),
               dst := dev_ctx.heap.length + 1 }] } : MKLDNNDeviceContext).SetBlob
          (key ++ suffix ++ "_user") dev_ctx.heap.length).SetBlob
          (key ++ suffix ++ "_target") (dev_ctx.heap.length + 1)) := by
  have hex := MKLDNNDeviceContext.execute_ok
      ((({ dev_ctx with heap := dev_ctx.heap ++ [Blob.memory user_md (some ptr)] ++
          [Blob.memory target_md none] ++
          [Blob.reorder (if is_int8 self.T then
            { src := user_md, dst := target_md, output_scales := some (mask, scale_data) }
            else { src := user_md, dst := target_md, output_scales := none })] } :
          MKLDNNDeviceContext)).SetBlob (key ++ suffix ++ "reorder_p") (dev_ctx.heap.length + 2))
      (dev_ctx.heap.length + 2) dev_ctx.heap.length (dev_ctx.heap.length + 1)
      (if is_int8 self.T then
            { src := user_md, dst := target_md, output_scales := some (mask, scale_data) }
            else { src := user_md, dst := target_md, output_scales := none })
      user_md target_md (some ptr) none
      (by
        have := getElem?_append_add dev_ctx.heap [Blob.memory user_md (some ptr),
          Blob.memory target_md none, Blob.reorder (if is_int8 self.T then
            { src := user_md, dst := target_md, output_scales := some (mask, scale_data) }
            else { src := user_md, dst := target_md, output_scales := none })] 2
        simpa [MKLDNNDeviceContext.SetBlob] using this)
      (by
        have := getElem?_append_add dev_ctx.heap [Blob.memory user_md (some ptr),
          Blob.memory target_md none, Blob.reorder (if is_int8 self.T then
            { src := user_md, dst := target_md, output_scales := some (mask, scale_data) }
            else { src := user_md, dst := target_md, output_scales := none })] 0
        simpa [MKLDNNDeviceContext.SetBlob] using this)
      (by
        have := getElem?_append_add dev_ctx.heap [Blob.memory user_md (some ptr),
          Blob.memory target_md none, Blob.reorder (if is_int8 self.T then
            { src := user_md, dst := target_md, output_scales := some (mask, scale_data) }
            else { src := user_md, dst := target_md, output_scales := none })] 1
        simpa [MKLDNNDeviceContext.SetBlob] using this)
  simp only [AcquireMemoryWithReorder, h, MKLDNNDeviceContext.make_shared, ne_eq, hmd,
    not_false_eq_true, if_true, List.length_append, List.length_singleton]
  rw [hex]
  rfl

end ConvTransposeMKLDNNHandlerT

/-- C11: for every device context whose store has no entry under
`key + suffix + "_target"`, the call of `AcquireMemoryWithReorder` completes
and leaves a source memory with descriptor `user_md` bound to `ptr` under
`key + suffix + "_user"` and the returned target under `key + suffix +
"_target"`. When `user_md` differs from `target_md`, exactly three objects are
created, the source memory, a target memory with descriptor `target_md` and a
reorder primitive between the two descriptors; the primitive is stored under
`key + suffix + "reorder_p"` and the log of executions gains exactly one entry,
that primitive run from the source into the target. When the descriptors are
equal, the only object created is the source memory, which is also the target;
the entry under `key + suffix + "reorder_p"` and the log are as before. -/
theorem first_access_stores_source_and_target (self : ConvTransposeMKLDNNHandlerT)
    (dev_ctx : MKLDNNDeviceContext) (user_md target_md : MemoryDesc) (ptr : Nat)
    (key suffix : String) (is_persistent : Bool) (scale_data : List F32) (mask : Int)
    (h : dev_ctx.GetBlob (key ++ suffix ++ "_target") = none) :
    ∃ user target dev_ctx1,
      self.AcquireMemoryWithReorder dev_ctx user_md target_md ptr key suffix is_persistent
        scale_data mask = Except.ok (target, dev_ctx1) ∧
      dev_ctx1.GetBlob (key ++ suffix ++ "_user") = some user ∧
      dev_ctx1.heap[user]? = some (Blob.memory user_md (some ptr)) ∧
      dev_ctx1.GetBlob (key ++ suffix ++ "_target") = some target ∧
      (user_md ≠ target_md →
        user = dev_ctx.heap.length ∧ target = dev_ctx.heap.length + 1 ∧
        dev_ctx1.heap = dev_ctx.heap ++ [Blob.memory user_md (some ptr),
          Blob.memory target_md none,
          Blob.reorder (if is_int8 self.T then
              { src := user_md, dst := target_md, output_scales := some (mask, scale_data) }
            else { src := user_md, dst := target_md, output_scales := none })] ∧
        dev_ctx1.GetBlob (key ++ suffix ++ "reorder_p") = some (dev_ctx.heap.length + 2) ∧
        dev_ctx1.executed = dev_ctx.executed ++
          [{ reorder_p := dev_ctx.heap.length + 2, src := user,
             src_memory := Blob.memory user_md (some ptr), dst := target }]) ∧
      (user_md = target_md →
        target = user ∧
        dev_ctx1.heap = dev_ctx.heap ++ [Blob.memory user_md (some ptr)] ∧
        dev_ctx1.GetBlob (key ++ suffix ++ "reorder_p") =
          dev_ctx.GetBlob (key ++ suffix ++ "reorder_p") ∧
        dev_ctx1.executed = dev_ctx.executed) := by
  obtain ⟨n1, n2, n3⟩ := derived_names_ne key suffix
  by_cases hmd : user_md = target_md
  · subst hmd
    refine ⟨dev_ctx.heap.length, _, _,
      ConvTransposeMKLDNNHandlerT.AcquireMemoryWithReorder_miss_same self dev_ctx user_md ptr
        key suffix is_persistent scale_data mask h, ?_, ?_,
      MKLDNNDeviceContext.GetBlob_SetBlob _ _ _, fun hne => absurd rfl hne, fun _ => ?_⟩
    · rw [MKLDNNDeviceContext.GetBlob_SetBlob_ne _ _ _ _ n1,
        MKLDNNDeviceContext.GetBlob_SetBlob]
    · simp [MKLDNNDeviceContext.SetBlob]
    · refine ⟨rfl, rfl, ?_, rfl⟩
      rw [MKLDNNDeviceContext.GetBlob_SetBlob_ne _ _ _ _ n3,
        MKLDNNDeviceContext.GetBlob_SetBlob_ne _ _ _ _ n2]
      rfl
  · refine ⟨dev_ctx.heap.length, _, _,
      ConvTransposeMKLDNNHandlerT.AcquireMemoryWithReorder_miss_reorder self dev_ctx user_md
        target_md ptr key suffix is_persistent scale_data mask h hmd, ?_, ?_,
      MKLDNNDeviceContext.GetBlob_SetBlob _ _ _, fun _ => ?_, fun he => absurd he hmd⟩
    · rw [MKLDNNDeviceContext.GetBlob_SetBlob_ne _ _ _ _ n1,
        MKLDNNDeviceContext.GetBlob_SetBlob]
    · have := getElem?_append_add dev_ctx.heap [Blob.memory user_md (some ptr),
          Blob.memory target_md none, Blob.reorder (if is_int8 self.T then
            { src := user_md, dst := target_md, output_scales := some (mask, scale_data) }
            else { src := user_md, dst := target_md, output_scales := none })] 0
      simpa [MKLDNNDeviceContext.SetBlob] using this
    · refine ⟨rfl, rfl, ?_, ?_, rfl⟩
      · simp [MKLDNNDeviceContext.SetBlob]
      · rw [MKLDNNDeviceContext.GetBlob_SetBlob_ne _ _ _ _ n3,
          MKLDNNDeviceContext.GetBlob_SetBlob_ne _ _ _ _ n2]
        simp [MKLDNNDeviceContext.GetBlob, MKLDNNDeviceContext.SetBlob, List.lookup]

/-- Witness for C11: the first weights access on an empty device context, with
a source descriptor in `iohw` and a blocked target descriptor, returns the
target 1, stores it, and executes one reorder; the device context it leaves is
`Sample.warmContext`. -/
theorem first_access_stores_source_and_target_witness :
    ∃ dev_ctx1, Sample.handler.AcquireMemoryWithReorder ⟨[], [], []⟩
        (MKLDNNMemDesc [1, 1, 1, 1] DataType.s8 MKLDNNMemoryFormat.iohw)
        (MKLDNNMemDesc [1, 1, 1, 1] DataType.s8 (MKLDNNMemoryFormat.blocked 0)) 7 "k"
        "@weights_mem_p" true [F32.one] 0 = Except.ok (1, dev_ctx1) ∧
      dev_ctx1.GetBlob ("k" ++ "@weights_mem_p" ++ "_target") = some 1 ∧
      dev_ctx1.executed.length = 1 ∧ dev_ctx1 = Sample.warmContext := by
  obtain ⟨user, target, dev_ctx1, hcall, -, -, htarget, hne, -⟩ :=
    first_access_stores_source_and_target Sample.handler
      ⟨[], [], []⟩ (MKLDNNMemDesc [1, 1, 1, 1] DataType.s8 MKLDNNMemoryFormat.iohw)
      (MKLDNNMemDesc [1, 1, 1, 1] DataType.s8 (MKLDNNMemoryFormat.blocked 0)) 7 "k"
      "@weights_mem_p" true [F32.one] 0 (by decide)
  obtain ⟨-, ht, -, -, hexec⟩ := hne (by decide)
  have ht1 : target = 1 := ht
  subst ht1
  refine ⟨dev_ctx1, hcall, htarget, by rw [hexec]; rfl, ?_⟩
  have hval : Sample.handler.AcquireMemoryWithReorder ⟨[], [], []⟩
      (MKLDNNMemDesc [1, 1, 1, 1] DataType.s8 MKLDNNMemoryFormat.iohw)
      (MKLDNNMemDesc [1, 1, 1, 1] DataType.s8 (MKLDNNMemoryFormat.blocked 0)) 7 "k"
      "@weights_mem_p" true [F32.one] 0 = Except.ok (1, Sample.warmContext) := by decide
  rw [hcall] at hval
  exact (Prod.mk.inj (Except.ok.inj hval)).2

namespace MKLDNNDeviceContext

theorem set_data_handle_ok (dev_ctx : MKLDNNDeviceContext) (p ptr : Nat) (desc : MemoryDesc)
    (handle : Option Nat) (h : dev_ctx.heap[p]? = some (Blob.memory desc handle)) :
    dev_ctx.set_data_handle p ptr =
      Except.ok { dev_ctx with heap := dev_ctx.heap.set p (Blob.memory desc (some ptr)) } := by
  simp only [set_data_handle, h]

end MKLDNNDeviceContext

namespace ConvTransposeMKLDNNHandlerT

/-- The entries a first access leaves: on a store without a target and without a
reorder entry for `key + suffix`, the call stores a source memory under
`"_user"` and a target memory under `"_target"`, and either a reorder primitive
under `"reorder_p"` or no such entry, the target then being the source memory. -/
theorem AcquireMemoryWithReorder_miss_entries (self : ConvTransposeMKLDNNHandlerT)
    (dev_ctx : MKLDNNDeviceContext) (user_md target_md : MemoryDesc) (ptr : Nat)
    (key suffix : String) (is_persistent : Bool) (scale_data : List F32) (mask : Int)
    (h : dev_ctx.GetBlob (key ++ suffix ++ "_target") = none)
    (hr : dev_ctx.GetBlob (key ++ suffix ++ "reorder_p") = none) :
    ∃ user target dev_ctx1,
      self.AcquireMemoryWithReorder dev_ctx user_md target_md ptr key suffix is_persistent
        scale_data mask = Except.ok (target, dev_ctx1) ∧
      dev_ctx1.GetBlob (key ++ suffix ++ "_target") = some target ∧
      dev_ctx1.GetBlob (key ++ suffix ++ "_user") = some user ∧
      dev_ctx1.heap[user]? = some (Blob.memory user_md (some ptr)) ∧
      (∃ dt ht, dev_ctx1.heap[target]? = some (Blob.memory dt ht)) ∧
      (dev_ctx1.GetBlob (key ++ suffix ++ "reorder_p") = none → target = user) ∧
      (∀ r, dev_ctx1.GetBlob (key ++ suffix ++ "reorder_p") = some r →
        ∃ pd, dev_ctx1.heap[r]? = some (Blob.reorder pd)) := by
  obtain ⟨n1, n2, n3⟩ := derived_names_ne key suffix
  by_cases hmd : user_md = target_md
  · subst hmd
    have hheap : (dev_ctx.heap ++ [Blob.memory user_md (some ptr)])[dev_ctx.heap.length]? =
        some (Blob.memory user_md (some ptr)) := by simp
    refine ⟨dev_ctx.heap.length, dev_ctx.heap.length, _,
      AcquireMemoryWithReorder_miss_same self dev_ctx user_md ptr key suffix is_persistent
        scale_data mask h,
      MKLDNNDeviceContext.GetBlob_SetBlob _ _ _, ?_, hheap, ⟨_, _, hheap⟩, fun _ => rfl,
      fun r hr2 => ?_⟩
    · rw [MKLDNNDeviceContext.GetBlob_SetBlob_ne _ _ _ _ n1,
        MKLDNNDeviceContext.GetBlob_SetBlob]
    · rw [MKLDNNDeviceContext.GetBlob_SetBlob_ne _ _ _ _ n3,
        MKLDNNDeviceContext.GetBlob_SetBlob_ne _ _ _ _ n2] at hr2
      have hr3 : dev_ctx.GetBlob (key ++ suffix ++ "reorder_p") = some r := hr2
      rw [hr] at hr3
      cases hr3
  · have h0 := getElem?_append_add dev_ctx.heap [Blob.memory user_md (some ptr),
          Blob.memory target_md none, Blob.reorder (if is_int8 self.T then
            { src := user_md, dst := target_md, output_scales := some (mask, scale_data) }
            else { src := user_md, dst := target_md, output_scales := none })] 0
    have h1 := getElem?_append_add dev_ctx.heap [Blob.memory user_md (some ptr),
          Blob.memory target_md none, Blob.reorder (if is_int8 self.T then
            { src := user_md, dst := target_md, output_scales := some (mask, scale_data) }
            else { src := user_md, dst := target_md, output_scales := none })] 1
    have h2 := getElem?_append_add dev_ctx.heap [Blob.memory user_md (some ptr),
          Blob.memory target_md none, Blob.reorder (if is_int8 self.T then
            { src := user_md, dst := target_md, output_scales := some (mask, scale_data) }
            else { src := user_md, dst := target_md, output_scales := none })] 2
    refine ⟨dev_ctx.heap.length, dev_ctx.heap.length + 1, _,
      AcquireMemoryWithReorder_miss_reorder self dev_ctx user_md target_md ptr key suffix
        is_persistent scale_data mask h hmd,
      MKLDNNDeviceContext.GetBlob_SetBlob _ _ _, ?_, ?_, ⟨target_md, none, ?_⟩,
      fun hn => ?_, fun r hr2 => ?_⟩
    · rw [MKLDNNDeviceContext.GetBlob_SetBlob_ne _ _ _ _ n1,
        MKLDNNDeviceContext.GetBlob_SetBlob]
    · simpa [MKLDNNDeviceContext.SetBlob] using h0
    · simpa [MKLDNNDeviceContext.SetBlob] using h1
    · rw [MKLDNNDeviceContext.GetBlob_SetBlob_ne _ _ _ _ n3,
        MKLDNNDeviceContext.GetBlob_SetBlob_ne _ _ _ _ n2] at hn
      simp [MKLDNNDeviceContext.GetBlob, MKLDNNDeviceContext.SetBlob, List.lookup] at hn
    · rw [MKLDNNDeviceContext.GetBlob_SetBlob_ne _ _ _ _ n3,
        MKLDNNDeviceContext.GetBlob_SetBlob_ne _ _ _ _ n2] at hr2
      simp [MKLDNNDeviceContext.GetBlob, MKLDNNDeviceContext.SetBlob, List.lookup] at hr2
      subst hr2
      exact ⟨_, by simpa [MKLDNNDeviceContext.SetBlob] using h2⟩

end ConvTransposeMKLDNNHandlerT

/-- C12: for every device context whose store holds, for `key + suffix`, the
entries a first access leaves (a source memory under `"_user"`, a target memory
under `"_target"`, and either a reorder primitive under `"reorder_p"` or no such
entry and the target being the source memory itself), the call of
`AcquireMemoryWithReorder` with `is_persistent = false` and data pointer `p`
returns the stored target, changes no store entry and changes no object other
than the source memory, whose data handle becomes `p`. If no reorder primitive
is stored, the returned memory has data handle `p` and nothing is executed; if
one is stored, the log of executions gains exactly one entry, that primitive run
from the source memory bound to `p` into the returned target. -/
theorem later_access_rebinds_source (self : ConvTransposeMKLDNNHandlerT)
    (dev_ctx : MKLDNNDeviceContext) (user_md target_md : MemoryDesc) (p : Nat)
    (key suffix : String) (scale_data : List F32) (mask : Int)
    (user target : Nat) (du dt : MemoryDesc) (hu ht : Option Nat)
    (htarget : dev_ctx.GetBlob (key ++ suffix ++ "_target") = some target)
    (huser : dev_ctx.GetBlob (key ++ suffix ++ "_user") = some user)
    (hum : dev_ctx.heap[user]? = some (Blob.memory du hu))
    (htm : dev_ctx.heap[target]? = some (Blob.memory dt ht))
    (hnone : dev_ctx.GetBlob (key ++ suffix ++ "reorder_p") = none → target = user)
    (hsome : ∀ r, dev_ctx.GetBlob (key ++ suffix ++ "reorder_p") = some r →
      ∃ pd, dev_ctx.heap[r]? = some (Blob.reorder pd)) :
    ∃ dev_ctx1,
      self.AcquireMemoryWithReorder dev_ctx user_md target_md p key suffix false scale_data
        mask = Except.ok (target, dev_ctx1) ∧
      dev_ctx1.blobs = dev_ctx.blobs ∧
      dev_ctx1.heap = dev_ctx.heap.set user (Blob.memory du (some p)) ∧
      (dev_ctx.GetBlob (key ++ suffix ++ "reorder_p") = none →
        dev_ctx1.heap[target]? = some (Blob.memory du (some p)) ∧
        dev_ctx1.executed = dev_ctx.executed) ∧
      (∀ r, dev_ctx.GetBlob (key ++ suffix ++ "reorder_p") = some r →
        dev_ctx1.executed = dev_ctx.executed ++
          [{ reorder_p := r, src := user, src_memory := Blob.memory du (some p),
             dst := target }]) := by
  have hset := MKLDNNDeviceContext.set_data_handle_ok dev_ctx user p du hu hum
  have hlt : user < dev_ctx.heap.length := by
    by_contra hge
    rw [List.getElem?_eq_none (by omega)] at hum
    cases hum
  have hu1 : (dev_ctx.heap.set user (Blob.memory du (some p)))[user]? =
      some (Blob.memory du (some p)) := by
    simp [List.getElem?_set, hlt]
  cases hr : dev_ctx.GetBlob (key ++ suffix ++ "reorder_p") with
  | none =>
    have htu := hnone hr
    subst htu
    refine ⟨{ dev_ctx with heap := dev_ctx.heap.set target (Blob.memory du (some p)) },
      ?_, rfl, rfl, fun _ => ⟨hu1, rfl⟩, fun r h => by cases h⟩
    simp only [ConvTransposeMKLDNNHandlerT.AcquireMemoryWithReorder, htarget, huser, hset,
      Bool.not_false, if_true]
    have hr1 : ({ dev_ctx with heap := dev_ctx.heap.set target (Blob.memory du (some p)) } :
        MKLDNNDeviceContext).GetBlob (key ++ suffix ++ "reorder_p") = none := hr
    simp only [hr1]
  | some r =>
    obtain ⟨pd, hpd⟩ := hsome r hr
    have hru : user ≠ r := by
      intro he
      subst he
      rw [hum] at hpd
      cases hpd
    have hr2 : (dev_ctx.heap.set user (Blob.memory du (some p)))[r]? =
        some (Blob.reorder pd) := by
      simp [List.getElem?_set, hru, hpd]
    have ht2 : ∃ d h, (dev_ctx.heap.set user (Blob.memory du (some p)))[target]? =
        some (Blob.memory d h) := by
      by_cases htu : user = target
      · subst htu
        exact ⟨du, some p, hu1⟩
      · exact ⟨dt, ht, by simp [List.getElem?_set, htu, htm]⟩
    obtain ⟨d2, hd2, ht2⟩ := ht2
    have hex := MKLDNNDeviceContext.execute_ok
      ({ dev_ctx with heap := dev_ctx.heap.set user (Blob.memory du (some p)) } :
        MKLDNNDeviceContext) r user target pd du d2 (some p) hd2 hr2 hu1 ht2
    refine ⟨{ dev_ctx with
        heap := dev_ctx.heap.set user (Blob.memory du (some p)),
        executed := dev_ctx.executed ++
          [{ reorder_p := r, src := user, src_memory := Blob.memory du (some p),
             dst := target }] }, ?_, rfl, rfl, (fun h => by cases h), fun r2 hr3 => ?_⟩
    · simp only [ConvTransposeMKLDNNHandlerT.AcquireMemoryWithReorder, htarget, huser, hset,
        Bool.not_false, if_true]
      have hr1 : ({ dev_ctx with heap := dev_ctx.heap.set user (Blob.memory du (some p)) } :
          MKLDNNDeviceContext).GetBlob (key ++ suffix ++ "reorder_p") = some r := hr
      simp only [hr1, hex]
    · cases hr3
      rfl

/-- Witness for C12: on `Sample.warmContext`, which a first access left, the
call with `is_persistent = false` and data pointer 9 returns the target 1,
binds the source memory 0 to 9 and runs the stored reorder primitive 2 once
more, from the source bound to 9 into the target. -/
theorem later_access_rebinds_source_witness :
    ∃ dev_ctx1, Sample.handler.AcquireMemoryWithReorder Sample.warmContext
        (MKLDNNMemDesc [1, 1, 1, 1] DataType.s8 MKLDNNMemoryFormat.iohw)
        (MKLDNNMemDesc [1, 1, 1, 1] DataType.s8 (MKLDNNMemoryFormat.blocked 0)) 9 "k"
        "@weights_mem_p" false [F32.one] 0 = Except.ok (1, dev_ctx1) ∧
      dev_ctx1.blobs = Sample.warmContext.blobs ∧
      dev_ctx1.heap[0]? = some (Blob.memory
        (MKLDNNMemDesc [1, 1, 1, 1] DataType.s8 MKLDNNMemoryFormat.iohw) (some 9)) ∧
      dev_ctx1.executed = Sample.warmContext.executed ++
        [{ reorder_p := 2, src := 0,
           src_memory := Blob.memory
             (MKLDNNMemDesc [1, 1, 1, 1] DataType.s8 MKLDNNMemoryFormat.iohw) (some 9),
           dst := 1 }] := by
  obtain ⟨dev_ctx1, hcall, hblobs, hheap, -, hexec⟩ :=
    later_access_rebinds_source Sample.handler Sample.warmContext
      (MKLDNNMemDesc [1, 1, 1, 1] DataType.s8 MKLDNNMemoryFormat.iohw)
      (MKLDNNMemDesc [1, 1, 1, 1] DataType.s8 (MKLDNNMemoryFormat.blocked 0)) 9 "k"
      "@weights_mem_p" [F32.one] 0 0 1
      (MKLDNNMemDesc [1, 1, 1, 1] DataType.s8 MKLDNNMemoryFormat.iohw)
      (MKLDNNMemDesc [1, 1, 1, 1] DataType.s8 (MKLDNNMemoryFormat.blocked 0)) (some 7) none
      (by decide) (by decide) (by decide) (by decide) (by decide)
      (fun r hr => ⟨_, by
        have h2 : Sample.warmContext.GetBlob ("k" ++ "@weights_mem_p" ++ "reorder_p") =
          some 2 := by decide
        rw [h2] at hr
        cases hr
        rfl⟩)
  refine ⟨dev_ctx1, hcall, hblobs, by rw [hheap]; rfl, hexec 2 (by decide)⟩

/-! ### Injectivity of the blob names -/

/-- The part of a blob name that follows the base key. -/
theorem blobName_eq_append (key : String) (kind : ArtifactKind) :
    blobName key kind = key ++ blobName "" kind := by
  cases kind <;> simp [blobName, String.append_assoc]

theorem suffix_of_append_eq (l1 l2 s1 s2 : List Char) (h : l1 ++ s1 = l2 ++ s2) :
    s1 <:+ s2 ∨ s2 <:+ s1 := by
  rcases List.append_eq_append_iff.1 h with ⟨a, _, h2⟩ | ⟨c, _, h2⟩
  · right; exact ⟨a, h2.symm⟩
  · left; exact ⟨c, h2.symm⟩

/-- No name suffix of one kind is a suffix of the name suffix of another kind. -/
theorem blobName_suffixes_apart (a b : ArtifactKind) (h : a ≠ b) :
    ¬ ((blobName "" a).data <:+ (blobName "" b).data) := by
  cases a <;> cases b <;> first | exact absurd rfl h | decide

/-- C19: the blob names derived from a base key are injective in the pair of
base key and artifact kind: if `blobName k1 a = blobName k2 b` then `a = b` and
`k1 = k2`. The seven names are `k + "@weights_mem_p_target"`,
`k + "@weights_mem_preorder_p"`, `k + "@weights_mem_p_user"`,
`k + "@bias_mem_p_target"`, `k + "@bias_mem_preorder_p"`, `k + "@bias_mem_p_user"`
and `k + "@bs"`; they are the names under which `AcquireMemoryWithReorder`,
called with the suffixes of the weights and bias wrappers, and
`get_int8_bias_scales` look up and store. Hence storing an artifact under the
name of one kind and key leaves the lookup of every other kind or key as it was. -/
theorem blobName_injective :
    (∀ (k1 k2 : String) (a b : ArtifactKind), blobName k1 a = blobName k2 b → a = b ∧ k1 = k2) ∧
    (∀ k : String,
      blobName k ArtifactKind.weights_target = k ++ "@weights_mem_p_target" ∧
      blobName k ArtifactKind.weights_reorder = k ++ "@weights_mem_preorder_p" ∧
      blobName k ArtifactKind.weights_user = k ++ "@weights_mem_p_user" ∧
      blobName k ArtifactKind.bias_target = k ++ "@bias_mem_p_target" ∧
      blobName k ArtifactKind.bias_reorder = k ++ "@bias_mem_preorder_p" ∧
      blobName k ArtifactKind.bias_user = k ++ "@bias_mem_p_user" ∧
      blobName k ArtifactKind.bias_scales = k ++ "@bs") ∧
    (∀ (dev_ctx : MKLDNNDeviceContext) (k1 k2 : String) (a b : ArtifactKind) (p : Nat),
      a ≠ b ∨ k1 ≠ k2 →
      (dev_ctx.SetBlob (blobName k1 a) p).GetBlob (blobName k2 b) =
        dev_ctx.GetBlob (blobName k2 b)) := by
  have hinj : ∀ (k1 k2 : String) (a b : ArtifactKind),
      blobName k1 a = blobName k2 b → a = b ∧ k1 = k2 := by
    intro k1 k2 a b h
    rw [blobName_eq_append k1 a, blobName_eq_append k2 b] at h
    have hab : a = b := by
      by_contra hne
      have hd := congrArg String.data h
      simp only [String.data_append] at hd
      rcases suffix_of_append_eq _ _ _ _ hd with h1 | h1
      · exact blobName_suffixes_apart a b hne h1
      · exact blobName_suffixes_apart b a (fun e => hne e.symm) h1
    subst hab
    exact ⟨rfl, string_append_right_cancel _ _ _ h⟩
  refine ⟨hinj, ?_, ?_⟩
  · intro k
    refine ⟨?_, ?_, ?_, ?_, ?_, ?_, rfl⟩ <;> simp [blobName, String.append_assoc]
  · intro dev_ctx k1 k2 a b p hne
    apply MKLDNNDeviceContext.GetBlob_SetBlob_ne
    intro he
    obtain ⟨hab, hk⟩ := hinj k2 k1 b a he
    rcases hne with h1 | h1
    · exact h1 hab.symm
    · exact h1 hk.symm

/-! ### `CreateConvAttrs` -/

/-- C17: in `CreateConvAttrs` for an int8 kernel, when the attribute `Sum_scale`
is set, `sum_scale`, `activation_scale` and `output_shift_scale` are the values
of the attributes `Sum_scale`, `Activation_scale` and `Output_shift_scale`,
whatever `get_int8_scales` would return or throw; when `Sum_scale` is not set,
the three values are those of `get_int8_scales`; for a kernel that is not int8
neither source is consulted, `sum_scale` and `activation_scale` are 1.0 and no
output scales are set. The primitive attribute is built from these values: the
output scales are set when the kernel is int8 and the vector is not empty, and
the activation is appended with `activation_scale`. -/
theorem CreateConvAttrs_scale_sources (platform : Platform) (T : DataType)
    (ctx : ExecutionContext) :
    (is_int8 T = true → ∀ s a o, ctx.attrs.Sum_scale = some s →
      ctx.attrs.Activation_scale = some a → ctx.attrs.Output_shift_scale = some o →
      ConvTransposeMKLDNNHandlerT.CreateConvAttrs_scales T ctx = Except.ok (s, o, a)) ∧
    (is_int8 T = true → ctx.attrs.Sum_scale = none →
      ConvTransposeMKLDNNHandlerT.CreateConvAttrs_scales T ctx =
        ConvTransposeMKLDNNHandlerT.get_int8_scales ctx) ∧
    (is_int8 T = false →
      ConvTransposeMKLDNNHandlerT.CreateConvAttrs_scales T ctx =
        Except.ok (F32.one, [], F32.one)) ∧
    (∀ s o a, ConvTransposeMKLDNNHandlerT.CreateConvAttrs_scales T ctx = Except.ok (s, o, a) →
      ConvTransposeMKLDNNHandlerT.CreateConvAttrs platform T ctx =
        (platform.AppendActivation ctx a).map (fun post_operations =>
          { output_scales :=
              if is_int8 T && decide (o.length > 0) then
                some (if o.length > 1 then 2 else 0, o)
              else none,
            post_ops := post_operations })) := by
  refine ⟨?_, ?_, ?_, ?_⟩
  · intro hT s a o hs ha ho
    simp [ConvTransposeMKLDNNHandlerT.CreateConvAttrs_scales, hT, hs, ha, ho, HasAttr, Attr]
  · intro hT hs
    simp [ConvTransposeMKLDNNHandlerT.CreateConvAttrs_scales, hT, hs, HasAttr]
  · intro hT
    simp [ConvTransposeMKLDNNHandlerT.CreateConvAttrs_scales, hT]
  · intro s o a h
    simp only [ConvTransposeMKLDNNHandlerT.CreateConvAttrs, h]
    cases platform.AppendActivation ctx a with
    | error e => rfl
    | ok po => rfl

/-- Witness for C17: with only the precomputed attributes set, `get_int8_scales`
throws, and an int8 kernel still takes the three values from the attributes,
while a float kernel takes 1.0. -/
theorem CreateConvAttrs_scale_sources_witness :
    ConvTransposeMKLDNNHandlerT.get_int8_scales
        (Sample.context Sample.precomputedAttrs [1, 1, 1, 1]) =
      Except.error Error.AttributeNotFound ∧
    ConvTransposeMKLDNNHandlerT.CreateConvAttrs_scales DataType.s8
        (Sample.context Sample.precomputedAttrs [1, 1, 1, 1]) =
      Except.ok (F32.ofRatio 2 1, [F32.ofRatio 1 2], F32.ofRatio 4 1) ∧
    ConvTransposeMKLDNNHandlerT.CreateConvAttrs_scales DataType.f32
        (Sample.context Sample.precomputedAttrs [1, 1, 1, 1]) =
      Except.ok (F32.one, [], F32.one) := by
  obtain ⟨h1, -, -, -⟩ := CreateConvAttrs_scale_sources Sample.platform DataType.s8
    (Sample.context Sample.precomputedAttrs [1, 1, 1, 1])
  obtain ⟨-, -, h3, -⟩ := CreateConvAttrs_scale_sources Sample.platform DataType.f32
    (Sample.context Sample.precomputedAttrs [1, 1, 1, 1])
  exact ⟨by decide, h1 (by decide) _ _ _ rfl rfl rfl, h3 (by decide)⟩

/-! ## C15: the mask of the bias reorder -/

/-- C15: `ComputeINT8` computes `mask_reorder` as 0, 1 or 3 for the quantised
bias, but the value never reaches the reorder. The bias step gives the same
result for every mask; with a bias, two weight scales and `groups = 1` the
computed mask is 1, with `groups = 2` it is 3, and in both runs the reorder
stored under `key + "@bias_mem_preorder_p"` is configured with mask 0, the
default of `AcquireMemoryWithReorder`. -/
theorem bias_reorder_mask_is_default :
    (∀ (handler : ConvTransposeMKLDNNHandlerT) (ctx : ExecutionContext)
        (dev_ctx : MKLDNNDeviceContext) (key : String) (m m2 : Int) (bias : Option Tensor),
      ConvTransposeMKLDNNOpKernel.ComputeINT8_bias handler ctx dev_ctx key m bias =
        ConvTransposeMKLDNNOpKernel.ComputeINT8_bias handler ctx dev_ctx key m2 bias) ∧
    (ConvTransposeMKLDNNOpKernel.ComputeINT8 Sample.platform Sample.kernelPlatform DataType.s8
        DataType.s8 DataType.s8 (Sample.contextWithBias (Sample.biasAttrs 1) [2, 1, 1, 1] 2)
        ⟨[], [], []⟩).map
      (fun run => (run.mask_reorder,
        (run.dev_ctx.GetBlob (blobName run.key ArtifactKind.bias_reorder)).bind
          (fun reorder_p => run.dev_ctx.heap[reorder_p]?))) =
      Except.ok (1, some (Blob.reorder
        { src := MKLDNNMemDesc [2] DataType.s8 MKLDNNMemoryFormat.x,
          dst := MKLDNNMemDesc [] DataType.s32 MKLDNNMemoryFormat.x,
          output_scales := some (0, [F32.one, F32.one]) })) ∧
    (ConvTransposeMKLDNNOpKernel.ComputeINT8 Sample.platform Sample.kernelPlatform DataType.s8
        DataType.s8 DataType.s8 (Sample.contextWithBias (Sample.biasAttrs 2) [2, 1, 1, 1] 2)
        ⟨[], [], []⟩).map
      (fun run => (run.mask_reorder,
        (run.dev_ctx.GetBlob (blobName run.key ArtifactKind.bias_reorder)).bind
          (fun reorder_p => run.dev_ctx.heap[reorder_p]?))) =
      Except.ok (3, some (Blob.reorder
        { src := MKLDNNMemDesc [2] DataType.s8 MKLDNNMemoryFormat.x,
          dst := MKLDNNMemDesc [] DataType.s32 MKLDNNMemoryFormat.x,
          output_scales := some (0, [F32.one, F32.one]) })) := by
  refine ⟨fun handler ctx dev_ctx key m m2 bias => ?_, by decide, by decide⟩
  cases bias <;> rfl

/-! ## C16: the reorder mask of the bias scales -/

/-- C16: the expression `is_multi_channel ? 1 << 0 : 1` is 1 in both branches.
In the pass `mask_reorder` is 1 for every operator, and for an operator with a
single weight scale the kernel-side `get_int8_bias_scales` stores the scales
with mask 1.0 under `key + "@bs"`, where a single common scale asks for mask 0. -/
theorem mask_reorder_single_scale_is_one :
    (∀ conv_op : OpDesc, ConvInt8ScalesPass.mask_reorder conv_op = 1) ∧
    ConvInt8ScalesPass.is_multi_channel (Sample.conv Sample.reluAttrs) = false ∧
    ConvInt8ScalesPass.mask_reorder (Sample.conv Sample.reluAttrs) = 1 ∧
    (ConvTransposeMKLDNNHandlerT.get_int8_bias_scales_locals
        (Sample.context Sample.reluAttrs [1, 1, 1, 1])).map
      (fun l => (l.is_multi_channel, l.mask_reorder)) = Except.ok (false, 1) ∧
    ConvTransposeMKLDNNHandlerT.get_int8_bias_scales "k" ⟨[], [], []⟩
        (Sample.context Sample.reluAttrs [1, 1, 1, 1]) =
      Except.ok (0, ⟨[("k@bs", 0)], [Blob.scales F32.one [F32.one]], []⟩) := by
  refine ⟨fun conv_op => ?_, by decide, by decide, by decide, by decide⟩
  unfold ConvInt8ScalesPass.mask_reorder
  split <;> rfl

/-! ## C18: reads of `Scale_weights` in the per-channel loops -/

/-- C18: with `groups = 4`, a filter of shape `[8, 2, 3, 3]` and one weight
scale per output channel (`Scale_weights` of length 8 = `shape[0]`) the channel
count is 16, and the loops of the pass handler, of `get_int8_scales` and of
`get_int8_bias_scales` read `Scale_weights` at index 8, past its end. -/
theorem per_channel_read_past_end :
    (Sample.groupedAttrs 4 8).Scale_weights.map List.length = some 8 ∧
    ConvInt8ScalesPass.count (Sample.conv (Sample.groupedAttrs 4 8)) ⟨[8, 2, 3, 3]⟩ =
      Except.ok 16 ∧
    ConvInt8ScalesPass.handler true (Sample.conv (Sample.groupedAttrs 4 8)) ⟨[8, 2, 3, 3]⟩ =
      Except.error Error.OutOfBounds ∧
    ConvTransposeMKLDNNHandlerT.get_int8_scales
        (Sample.context (Sample.groupedAttrs 4 8) [8, 2, 3, 3]) =
      Except.error Error.OutOfBounds ∧
    ConvTransposeMKLDNNHandlerT.get_int8_bias_scales "k" ⟨[], [], []⟩
        (Sample.context (Sample.groupedAttrs 4 8) [8, 2, 3, 3]) =
      Except.error Error.OutOfBounds := by
  refine ⟨by decide, by decide, by decide, by decide, by decide⟩

/-! ## C13: calibration attributes that are not set -/

/-- The bias step of `ComputeINT8` throws `NotFound` when a bias is bound and
`Bias_scales` is not set. -/
theorem ConvTransposeMKLDNNOpKernel.ComputeINT8_bias_not_found
    (handler : ConvTransposeMKLDNNHandlerT) (ctx : ExecutionContext)
    (dev_ctx : MKLDNNDeviceContext) (key : String) (mask_reorder : Int) (b : Tensor)
    (h : ctx.attrs.Bias_scales = none) :
    ComputeINT8_bias handler ctx dev_ctx key mask_reorder (some b) =
      Except.error Error.NotFound := by
  simp [ComputeINT8_bias, h, HasAttr, enforce]

/-- With a bias bound and `Bias_scales` not set, `ComputeINT8` throws. -/
theorem ConvTransposeMKLDNNOpKernel.ComputeINT8_missing_bias_scales (platform : Platform)
    (kernel : KernelPlatform) (T K T_out : DataType) (ctx : ExecutionContext)
    (dev_ctx : MKLDNNDeviceContext) (b : Tensor) (hb : ctx.Bias = some b)
    (h : ctx.attrs.Bias_scales = none) :
    ∃ e, ComputeINT8 platform kernel T K T_out ctx dev_ctx = Except.error e := by
  unfold ComputeINT8
  simp only [hb, ComputeINT8_bias_not_found _ ctx _ _ _ b h]
  repeat (first | exact ⟨_, rfl⟩ | split)

/-- An attribute that is not set is read by the `HasAttr ? Attr : dflt` pattern as
if it were set to the default. -/
theorem AttrOr_none {α : Type} (dflt : α) :
    AttrOr (none : Option α) dflt = AttrOr (some dflt) dflt := by
  simp [AttrOr, HasAttr]

/-- In the fallback `get_int8_scales` an attribute that is not set does not make
the call throw: a missing `Scale_in` or `Scale_out` is read as 1.0 and a missing
`Scale_weights` as the one-element vector `std::vector<float>(1.0f)`, which
holds 0.0, so that the function returns what it returns with the attribute set
to that value. -/
theorem get_int8_scales_default_substitution (ctx : ExecutionContext) :
    (ctx.attrs.Scale_in = none →
      ConvTransposeMKLDNNHandlerT.get_int8_scales ctx =
        ConvTransposeMKLDNNHandlerT.get_int8_scales
          { ctx with attrs := { ctx.attrs with Scale_in := some F32.one } }) ∧
    (ctx.attrs.Scale_out = none →
      ConvTransposeMKLDNNHandlerT.get_int8_scales ctx =
        ConvTransposeMKLDNNHandlerT.get_int8_scales
          { ctx with attrs := { ctx.attrs with Scale_out := some F32.one } }) ∧
    (ctx.attrs.Scale_weights = none →
      ConvTransposeMKLDNNHandlerT.get_int8_scales ctx =
        ConvTransposeMKLDNNHandlerT.get_int8_scales
          { ctx with attrs := { ctx.attrs with Scale_weights := some [F32.zero] } }) := by
  refine ⟨fun h => ?_, fun h => ?_, fun h => ?_⟩
  · simp only [ConvTransposeMKLDNNHandlerT.get_int8_scales,
      ConvTransposeMKLDNNHandlerT.get_int8_scales_locals, h, AttrOr_none]
  · simp only [ConvTransposeMKLDNNHandlerT.get_int8_scales,
      ConvTransposeMKLDNNHandlerT.get_int8_scales_locals, h, AttrOr_none]
  · simp only [ConvTransposeMKLDNNHandlerT.get_int8_scales,
      ConvTransposeMKLDNNHandlerT.get_int8_scales_locals, h, AttrOr_none, List.replicate]

/-- C13: an int8 operator for which `Scale_in`, `Scale_out` and `Sum_scale` are not
set, so that the fallback `get_int8_scales` runs. The fallback does not fail: it
returns `(1.0, [2.0], 1.0)`, computed with 1.0 in place of both missing scales,
and `ComputeINT8` runs to its end; with `Scale_weights` not set either it
returns `(1.0, [1.0], 1.0)`. The sibling readers do fail on the same operator:
`get_int8_bias_scales` reads `Scale_in` with `ctx.Attr` and throws, and with a
bias bound `ComputeINT8` throws `NotFound` for the missing `Bias_scales`. -/
theorem missing_scales_are_defaulted :
    Sample.uncalibratedAttrs.Scale_in = none ∧ Sample.uncalibratedAttrs.Scale_out = none ∧
    Sample.uncalibratedAttrs.Sum_scale = none ∧
    ConvTransposeMKLDNNHandlerT.CreateConvAttrs_scales DataType.s8
        (Sample.context Sample.uncalibratedAttrs [1, 1, 1, 1]) =
      ConvTransposeMKLDNNHandlerT.get_int8_scales
        (Sample.context Sample.uncalibratedAttrs [1, 1, 1, 1]) ∧
    ConvTransposeMKLDNNHandlerT.get_int8_scales
        (Sample.context Sample.uncalibratedAttrs [1, 1, 1, 1]) =
      Except.ok (F32.one, [F32.ofRatio 2 1], F32.one) ∧
    (ConvTransposeMKLDNNOpKernel.ComputeINT8 Sample.platform Sample.kernelPlatform DataType.s8
        DataType.s8 DataType.s8 (Sample.context Sample.uncalibratedAttrs [1, 1, 1, 1])
        ⟨[], [], []⟩).map (fun run => run.key) = Except.ok "x-w-" ∧
    ConvTransposeMKLDNNHandlerT.get_int8_scales
        (Sample.context { Sample.uncalibratedAttrs with Scale_weights := none } [1, 1, 1, 1]) =
      Except.ok (F32.one, [F32.one], F32.one) ∧
    ConvTransposeMKLDNNHandlerT.get_int8_bias_scales "k" ⟨[], [], []⟩
        (Sample.context Sample.uncalibratedAttrs [1, 1, 1, 1]) =
      Except.error Error.AttributeNotFound ∧
    ConvTransposeMKLDNNOpKernel.ComputeINT8 Sample.platform Sample.kernelPlatform DataType.s8
        DataType.s8 DataType.s8 (Sample.contextWithBias Sample.uncalibratedAttrs [1, 1, 1, 1] 1)
        ⟨[], [], []⟩ = Except.error Error.NotFound := by
  refine ⟨rfl, rfl, rfl, by decide, by decide, by decide, by decide, by decide, by decide⟩

/-! ## C14: validation in the constructor and in `ComputeINT8` -/

/-- The checks of lines 62-121 pass on inputs that meet the stated conditions. -/
theorem ConvTransposeMKLDNNHandlerT.construct_checks_valid (ctx : ExecutionContext)
    (input filter : Tensor) (bias : Option Tensor) (t : Bool)
    (his : ctx.attrs.is_test = some t) (hv : spec_valid_inputs t input filter bias) :
    construct_checks ctx input filter bias = Except.ok true := by
  obtain ⟨ht, h1, h2, h3, h4, hb⟩ := hv
  subst ht
  cases bias with
  | none => simp [construct_checks, his, Attr, enforce, h1, h2, h3, h4]
  | some b =>
    obtain ⟨h5, h6⟩ := hb b rfl
    simp [construct_checks, his, Attr, enforce, h1, h2, h3, h4, h5, h6]

/-- The checks of lines 62-121 throw `InvalidArgument` when a stated condition fails. -/
theorem ConvTransposeMKLDNNHandlerT.construct_checks_invalid (ctx : ExecutionContext)
    (input filter : Tensor) (bias : Option Tensor) (t : Bool)
    (his : ctx.attrs.is_test = some t) (hv : ¬ spec_valid_inputs t input filter bias) :
    construct_checks ctx input filter bias = Except.error Error.InvalidArgument := by
  unfold construct_checks
  simp only [his, Attr, enforce]
  by_cases ht : t = true
  · subst ht
    by_cases h1 : input.layout = DataLayout.kMKLDNN
    · by_cases h2 : filter.layout = DataLayout.kMKLDNN
      · by_cases h3 : input.dims.length = 4
        · by_cases h4 : filter.dims.length = 4
          · cases bias with
            | none =>
              exact absurd ⟨rfl, h1, h2, h3, h4, fun b hb => by cases hb⟩ hv
            | some b =>
              by_cases h5 : b.layout = DataLayout.kMKLDNN
              · by_cases h6 : b.dims.length = 1
                · exact absurd ⟨rfl, h1, h2, h3, h4,
                    fun b2 hb => by cases hb; exact ⟨h5, h6⟩⟩ hv
                · simp [h1, h2, h3, h4, h5, h6]
              · simp [h1, h2, h3, h4, h5]
          · simp [h1, h2, h3, h4]
        · simp [h1, h2, h3]
      · simp [h1, h2]
    · simp [h1]
  · simp [ht]

/-- With its five attributes set, `construct_attrs` depends on the length of `strides` only. -/
theorem ConvTransposeMKLDNNHandlerT.construct_attrs_eq (ctx : ExecutionContext)
    (strides paddings dilations : List Int) (groups : Int) (padding_algorithm : String)
    (hs : ctx.attrs.strides = some strides) (hp : ctx.attrs.paddings = some paddings)
    (hd : ctx.attrs.dilations = some dilations) (hg : ctx.attrs.groups = some groups)
    (ha : ctx.attrs.padding_algorithm = some padding_algorithm) :
    construct_attrs ctx =
      if strides.length = 2 then
        Except.ok { strides := strides, paddings := paddings, dilations := dilations,
                    groups := groups, padding_algorithm := padding_algorithm }
      else Except.error Error.Unimplemented := by
  unfold construct_attrs
  simp only [hs, hp, hd, hg, ha, Attr, enforce]
  by_cases h : strides.length = 2 <;> simp [h]

/-- C14: when the attributes the constructor reads are set, its checks pass exactly
when the operator is in inference mode, input and filter have the oneDNN layout
and four dimensions, a bound bias has the oneDNN layout and one dimension, and
`strides` has two elements. A violated layout, mode or dimension condition gives
`InvalidArgument` and a `strides` length other than two gives `Unimplemented`,
whatever the platform, so before any descriptor or primitive is asked of it;
otherwise construction goes on to the primitive descriptor. `ComputeINT8` gives
`Unimplemented` for `strides` of length three, for every collaborator and
device context. -/
theorem constructor_validation (platform : Platform) (T K T_out : DataType)
    (ctx : ExecutionContext) (input filter : Tensor) (bias : Option Tensor) (output : Tensor)
    (is_test : Bool) (strides paddings dilations : List Int) (groups : Int)
    (padding_algorithm : String)
    (his : ctx.attrs.is_test = some is_test) (hs : ctx.attrs.strides = some strides)
    (hp : ctx.attrs.paddings = some paddings) (hd : ctx.attrs.dilations = some dilations)
    (hg : ctx.attrs.groups = some groups)
    (ha : ctx.attrs.padding_algorithm = some padding_algorithm) :
    ((∃ t a, ConvTransposeMKLDNNHandlerT.construct_checks ctx input filter bias = Except.ok t ∧
        ConvTransposeMKLDNNHandlerT.construct_attrs ctx = Except.ok a) ↔
      spec_valid_inputs is_test input filter bias ∧ strides.length = 2) ∧
    (¬ spec_valid_inputs is_test input filter bias →
      ConvTransposeMKLDNNHandlerT.construct platform T K T_out ctx input filter bias output =
        Except.error Error.InvalidArgument) ∧
    (spec_valid_inputs is_test input filter bias → strides.length ≠ 2 →
      ConvTransposeMKLDNNHandlerT.construct platform T K T_out ctx input filter bias output =
        Except.error Error.Unimplemented) ∧
    (spec_valid_inputs is_test input filter bias → strides.length = 2 →
      ConvTransposeMKLDNNHandlerT.construct platform T K T_out ctx input filter bias output =
        (ConvTransposeMKLDNNHandlerT.construct_primitive platform T T_out true ctx input filter
          bias output
          { strides := strides, paddings := paddings, dilations := dilations, groups := groups,
            padding_algorithm := padding_algorithm }).map
          (fun fwd_pd =>
            { T := T, K := K, T_out := T_out, is_test_ := true, fwd_pd_ := fwd_pd })) ∧
    (∀ (kernel : KernelPlatform) (dev_ctx : MKLDNNDeviceContext) (fuse_activation : String),
      ctx.attrs.fuse_activation = some fuse_activation → strides.length = 3 →
      ConvTransposeMKLDNNOpKernel.ComputeINT8 platform kernel T K T_out ctx dev_ctx =
        Except.error Error.Unimplemented) := by
  have hattrs := ConvTransposeMKLDNNHandlerT.construct_attrs_eq ctx strides paddings dilations
    groups padding_algorithm hs hp hd hg ha
  refine ⟨⟨?_, ?_⟩, ?_, ?_, ?_, ?_⟩
  · rintro ⟨t, a, hc, hca⟩
    by_cases hv : spec_valid_inputs is_test input filter bias
    · refine ⟨hv, ?_⟩
      by_cases h2 : strides.length = 2
      · exact h2
      · rw [hattrs, if_neg h2] at hca
        cases hca
    · rw [ConvTransposeMKLDNNHandlerT.construct_checks_invalid ctx input filter bias is_test
        his hv] at hc
      cases hc
  · rintro ⟨hv, h2⟩
    exact ⟨true, _, ConvTransposeMKLDNNHandlerT.construct_checks_valid ctx input filter bias
      is_test his hv, by rw [hattrs, if_pos h2]⟩
  · intro hv
    unfold ConvTransposeMKLDNNHandlerT.construct
    rw [ConvTransposeMKLDNNHandlerT.construct_checks_invalid ctx input filter bias is_test
      his hv]
  · intro hv h2
    unfold ConvTransposeMKLDNNHandlerT.construct
    rw [ConvTransposeMKLDNNHandlerT.construct_checks_valid ctx input filter bias is_test
      his hv, hattrs, if_neg h2]
  · intro hv h2
    unfold ConvTransposeMKLDNNHandlerT.construct
    rw [ConvTransposeMKLDNNHandlerT.construct_checks_valid ctx input filter bias is_test
      his hv, hattrs, if_pos h2]
    simp only
    cases ConvTransposeMKLDNNHandlerT.construct_primitive platform T T_out true ctx input filter
      bias output
      { strides := strides, paddings := paddings, dilations := dilations, groups := groups,
        padding_algorithm := padding_algorithm } <;> rfl
  · intro kernel dev_ctx fuse_activation hfa h3
    simp [ConvTransposeMKLDNNOpKernel.ComputeINT8, hfa, hs, Attr, enforce, h3]

/-- Witness for C14: a valid operator with three strides is refused with
`Unimplemented` by the constructor and by `ComputeINT8`. -/
theorem constructor_validation_witness :
    spec_valid_inputs true (Sample.tensor [1, 1, 1, 1]) (Sample.tensor [1, 1, 1, 1]) none ∧
    ConvTransposeMKLDNNHandlerT.construct Sample.platform DataType.s8 DataType.s8 DataType.s8
        (Sample.context Sample.volumeAttrs [1, 1, 1, 1]) (Sample.tensor [1, 1, 1, 1])
        (Sample.tensor [1, 1, 1, 1]) none (Sample.tensor [1, 1, 1, 1]) =
      Except.error Error.Unimplemented ∧
    ConvTransposeMKLDNNOpKernel.ComputeINT8 Sample.platform Sample.kernelPlatform DataType.s8
        DataType.s8 DataType.s8 (Sample.context Sample.volumeAttrs [1, 1, 1, 1]) ⟨[], [], []⟩ =
      Except.error Error.Unimplemented := by
  have hv : spec_valid_inputs true (Sample.tensor [1, 1, 1, 1]) (Sample.tensor [1, 1, 1, 1])
      none := ⟨rfl, rfl, rfl, rfl, rfl, fun b hb => by cases hb⟩
  obtain ⟨-, -, h3, -, h5⟩ := constructor_validation Sample.platform DataType.s8 DataType.s8
    DataType.s8 (Sample.context Sample.volumeAttrs [1, 1, 1, 1]) (Sample.tensor [1, 1, 1, 1])
    (Sample.tensor [1, 1, 1, 1]) none (Sample.tensor [1, 1, 1, 1]) true [1, 1, 1] [0, 0, 0]
    [1, 1, 1] 1 "EXPLICIT" rfl rfl rfl rfl rfl rfl
  exact ⟨hv, h3 hv (by decide), h5 Sample.kernelPlatform ⟨[], [], []⟩ "" rfl (by decide)⟩

end Paddle
